import Mathlib

/-!
# cr4gg: WPA2 four-way-handshake passphrase recovery

A shallow embedding of `cr4gg.go` and proofs about it.

Conventions of the embedding.

* A Go `[]byte` is a `List Nat`; values produced as bytes are reduced modulo 256.
  A `nil` slice and an empty slice are both `[]`. Slices are values: the sharing of a
  backing array between two slices is not modelled.
* A Go `string` (a wordlist line, the `-ssid` argument) is a Lean `String`; its bytes are its
  UTF-8 encoding, so the embedding covers the strings that are valid UTF-8.
* Go's `int` is the 64-bit two's-complement integer of the amd64/arm64 targets: an `Int` that
  is wrapped with `wrapInt` wherever the program adds.
* A slice expression that Go rejects at run time (`slice bounds out of range`) yields `none`.
* `crypto/hmac` with `crypto/sha1` is a library outside the program. It enters every
  definition as the parameter `hmac key data`; the one fact used about it is that its
  result has `sha1.Size = 20` bytes. The library itself is modelled by `hmacSha1`
  (FIPS 180-4 and RFC 2104), which instantiates the parameter where a statement is about
  concrete bytes.
* `golang.org/x/crypto/pbkdf2` is a library outside the program as well; `pbkdf2Key` follows
  its `Key` function (RFC 2898, section 5.2) over the same `hmac` parameter.
* Standard output is the list of the texts written by the successive print calls.
-/

namespace Cr4gg

/-! ## Go primitives -/

/-- Largest value of a 64-bit Go `int`. -/
def maxInt : Int := 2 ^ 63 - 1

/-- Two's-complement wrap of an integer into the range of a 64-bit Go `int`. -/
def wrapInt (n : Int) : Int := (n + 2 ^ 63) % 2 ^ 64 - 2 ^ 63

/-- The slice expression `s[:hi]` for a bound known to be non-negative; `none` is the
run-time panic. The bound is checked against the length of `s` (spare capacity of the
backing array is not modelled). -/
def sliceTo (s : List Nat) (hi : Nat) : Option (List Nat) :=
  if hi ≤ s.length then some (s.take hi) else none

/-- The slice expression `s[lo:]`; `none` is the run-time panic. -/
def sliceFrom (s : List Nat) (lo : Nat) : Option (List Nat) :=
  if lo ≤ s.length then some (s.drop lo) else none

/-- The slice expression `s[:hi]` for a Go `int` bound, which may be negative. -/
def sliceToInt (s : List Nat) (hi : Int) : Option (List Nat) :=
  if hi < 0 then none else sliceTo s hi.toNat

/-- Library function `bytes.Compare`: lexicographic comparison of two byte slices, with result
`-1`, `0` or `1`. -/
def bytesCompare : List Nat → List Nat → Int
  | [], [] => 0
  | [], _ :: _ => -1
  | _ :: _, [] => 1
  | x :: xs, y :: ys =>
    if x < y then -1 else if y < x then 1 else bytesCompare xs ys

/-- The conversion `[]byte(s)` of a string: its UTF-8 bytes. -/
def stringBytes (s : String) : List Nat :=
  s.data.flatMap fun c => (String.utf8EncodeChar c).map UInt8.toNat

/-- The verb `%x` of `fmt.Printf` applied to a byte slice: two lower-case hexadecimal digits
per byte. -/
def hex (bs : List Nat) : String :=
  String.mk (bs.flatMap fun b => [Nat.digitChar (b / 16 % 16), Nat.digitChar (b % 16)])

/-- Library predicate `unicode.IsSpace`. -/
def isSpace (c : Char) : Bool :=
  let n := c.toNat
  n = 0x09 || n = 0x0A || n = 0x0B || n = 0x0C || n = 0x0D || n = 0x20 || n = 0x85
    || n = 0xA0 || n = 0x1680 || (0x2000 ≤ n && n ≤ 0x200A) || n = 0x2028 || n = 0x2029
    || n = 0x202F || n = 0x205F || n = 0x3000

/-- Library function `strings.TrimSpace`: the string without its leading and trailing
white space. -/
def trimSpace (s : String) : String :=
  String.mk ((s.data.dropWhile isSpace).reverse.dropWhile isSpace).reverse

/-! ## PBKDF2 (library `golang.org/x/crypto/pbkdf2`) -/

/-- Four-byte big-endian encoding of a block index. -/
def be32 (block : Nat) : List Nat :=
  [block / 2 ^ 24 % 256, block / 2 ^ 16 % 256, block / 2 ^ 8 % 256, block % 256]

/-- The inner loop `for n := 2; n <= iter; n++` of `pbkdf2.Key`, run `n` more times:
`U = PRF(password, U)` and `T ^= U`. -/
def pbkdf2Iterate (hmac : List Nat → List Nat → List Nat) (password : List Nat) :
    Nat → List Nat → List Nat → List Nat
  | 0, _, T => T
  | n + 1, U, T =>
    let U1 := hmac password U
    pbkdf2Iterate hmac password n U1 (List.zipWith Nat.xor T U1)

/-- One block `T_i = U_1 ^ U_2 ^ ... ^ U_iter` of `pbkdf2.Key`. -/
def pbkdf2Block (hmac : List Nat → List Nat → List Nat) (password salt : List Nat)
    (iter block : Nat) : List Nat :=
  let U1 := hmac password (salt ++ be32 block)
  pbkdf2Iterate hmac password (iter - 1) U1 U1

/-- Library function `pbkdf2.Key(password, salt, iter, keyLen, sha1.New)`: the blocks
`T_1 .. T_numBlocks` are appended in order to a buffer `dk` made with `numBlocks * hashLen`
zero bytes of capacity, and the result `dk[:keyLen]` is the first `keyLen` bytes of that
buffer. -/
def pbkdf2Key (hmac : List Nat → List Nat → List Nat) (password salt : List Nat)
    (iter keyLen : Nat) : List Nat :=
  let hashLen := 20
  let numBlocks := (keyLen + hashLen - 1) / hashLen
  let dk := (List.range numBlocks).flatMap fun k =>
    pbkdf2Block hmac password salt iter (k + 1)
  (List.range keyLen).map fun j => dk.getD j 0

/-! ## Key derivation -/

/-- Source `generatePMKFromPassphrase` (lines 94-97); the package variable `ssid` is passed
explicitly. -/
def generatePMKFromPassphrase (hmac : List Nat → List Nat → List Nat) (ssid : List Nat)
    (phrase : String) : Option (List Nat) :=
  sliceTo (pbkdf2Key hmac (stringBytes phrase) ssid 4096 256) 32

/-- Source `byteMin` (lines 99-104). -/
def byteMin (u v : List Nat) : List Nat :=
  if bytesCompare u v < 0 then u else v

/-- Source `byteMax` (lines 106-111). -/
def byteMax (u v : List Nat) : List Nat :=
  if bytesCompare u v > 0 then u else v

/-- Source `generateB` (lines 113-123). -/
def generateB (apMac clientMac aNonce sNonce : List Nat) : List Nat :=
  let res : List Nat := []
  let res := res ++ byteMin apMac clientMac
  let res := res ++ byteMax apMac clientMac
  let res := res ++ byteMin aNonce sNonce
  let res := res ++ byteMax aNonce sNonce
  res

/-- The loop of `PRFX` (lines 133-138) with `n` iterations left, counter `i` and
accumulator `r`. -/
def PRFX.loop (hmac : List Nat → List Nat → List Nat) (key a b : List Nat) :
    Nat → Nat → List Nat → List Nat
  | 0, _, r => r
  | n + 1, i, r =>
    let y := [0x00]
    let data := a ++ y ++ b ++ [i % 256]
    PRFX.loop hmac key a b n (i + 1) (r ++ hmac key data)

/-- Source `PRFX` (lines 127-140). The loop `for i := 0; i < (x+159)/160; i++` runs
`((x+159)/160).toNat` times, the sum being a wrapped 64-bit addition and the quotients
truncating divisions. -/
def PRFX (hmac : List Nat → List Nat → List Nat) (key a b : List Nat) (x : Int) :
    Option (List Nat) :=
  let byteLen := Int.tdiv x 8
  let bound := Int.tdiv (wrapInt (x + 159)) 160
  let r := PRFX.loop hmac key a b bound.toNat 0 []
  sliceToInt r byteLen

/-! ## Decoded frames and handshake extraction -/

/-- The fields of `layers.Dot11` the program reads; `Payload` is `LayerPayload()`. -/
structure Dot11 where
  Address1 : List Nat
  Address2 : List Nat
  Payload : List Nat
  deriving DecidableEq

/-- The fields of `layers.EAPOLKey` the program reads. -/
structure EAPOLKey where
  Nonce : List Nat
  MIC : List Nat
  deriving DecidableEq

/-- A decoded `gopacket.Packet`: `packet.Layer(t)` is `none` when the frame has no layer of
type `t`. -/
structure Packet where
  dot11 : Option Dot11
  eapolKey : Option EAPOLKey
  deriving DecidableEq

/-- The package-level variables (lines 22-29) together with the standard output written
so far. -/
structure State where
  ssid : List Nat
  ANonce : List Nat
  SNonce : List Nat
  APMac : List Nat
  ClientMac : List Nat
  firstMIC : List Nat
  micData : List Nat
  verboseMode : Bool
  stdout : List String
  deriving DecidableEq

/-- The state at program start: every variable has its zero value. -/
def State.initial : State :=
  { ssid := [], ANonce := [], SNonce := [], APMac := [], ClientMac := [], firstMIC := [],
    micData := [], verboseMode := false, stdout := [] }

/-- A print call guarded by `if verboseMode`. -/
def State.verbosePrint (s : State) (text : String) : State :=
  if s.verboseMode then { s with stdout := s.stdout ++ [text] } else s

/-- A panic: its message and the state in which it was raised. -/
abbrev Panic := String × State

/-- Message of the run-time panic of an out-of-range slice expression. -/
def sliceBoundsMsg : String := "runtime error: slice bounds out of range"

/-- Message of the panic raised by `handleThirdMessage` (line 74). -/
def nonceMismatchMsg : String :=
  "ANonce does not match with the signed Nonce in third Handshake message."

/-- Source `handleFirstMessage` (lines 31-42). -/
def handleFirstMessage (packet : Packet) (s : State) : State :=
  let s := match packet.dot11 with
    | some dot11 => { s with APMac := dot11.Address1, ClientMac := dot11.Address2 }
    | none => s
  match packet.eapolKey with
  | some eapol => { s with ANonce := eapol.Nonce }
  | none => s

/-- The first block of `handleSecondMessage` (lines 45-57): the key-exchange layer. -/
def handleSecondMessage.keyFrame (packet : Packet) (s : State) : State :=
  match packet.eapolKey with
  | some eapolKeyFrame =>
    let s := { s with SNonce := eapolKeyFrame.Nonce }
    let s := { s with firstMIC := eapolKeyFrame.MIC }
    s.verbosePrint ("1. MIC: " ++ hex s.firstMIC ++ " \n")
  | none => s

/-- Source `handleSecondMessage` (lines 44-66). In `dot11Payload[:81]` Go checks the bound
against the capacity and in `dot11Payload[97:]` against the length; since the second
check implies the first, the handler panics exactly when one of the checks modelled here
fails. -/
def handleSecondMessage (packet : Packet) (s : State) : Except Panic State :=
  let s := handleSecondMessage.keyFrame packet s
  match packet.dot11 with
  | some dot11 =>
    match sliceFrom dot11.Payload 8 with
    | none => .error (sliceBoundsMsg, s)
    | some dot11Payload =>
      let zero := [0, 0, 0, 0, 0, 0, 0, 0, 0, 0, 0, 0, 0, 0, 0, 0]
      match sliceTo dot11Payload 81, sliceFrom dot11Payload 97 with
      | some front, some back => .ok { s with micData := front ++ zero ++ back }
      | _, _ => .error (sliceBoundsMsg, s)
  | none => .ok s

/-- Source `handleThirdMessage` (lines 68-82). `reflect.DeepEqual` on two byte slices
compares their contents; it also tells a `nil` slice from an empty one, which makes no
difference here because the nonce of a decoded key-exchange layer has 32 bytes. -/
def handleThirdMessage (packet : Packet) (s : State) : Except Panic State :=
  match packet.eapolKey with
  | some eapol =>
    let aNonceEqualsSigned := decide (eapol.Nonce = s.ANonce)
    if !aNonceEqualsSigned then
      .error (nonceMismatchMsg, s)
    else
      .ok (s.verbosePrint ("2. MIC: " ++ hex eapol.MIC ++ " \n"))
  | none => .ok s

/-- Source `handleFourthMessage` (lines 84-92). -/
def handleFourthMessage (packet : Packet) (s : State) : State :=
  match packet.eapolKey with
  | some eapol => s.verbosePrint ("3. MIC: " ++ hex eapol.MIC ++ " \n")
  | none => s

/-! ## The program -/

/-- How a run of the program ends. -/
inductive Exit where
  /-- Return from `main`: exit status 0. -/
  | returned
  /-- Call of `os.Exit(code)`. -/
  | exit (code : Nat)
  /-- Call of `log.Fatal(err)`: the error goes to standard error, exit status 1. -/
  | logFatal (err : String)
  /-- An unrecovered panic: exit status 2. -/
  | panicked (msg : String)
  deriving DecidableEq

/-- What a run of the program shows: its standard output, the wordlist lines for which the
body of the cracking loop was executed, in order, and how the run ended. -/
structure Run where
  stdout : List String
  evaluated : List String
  exit : Exit
  deriving DecidableEq

/-- The run that first writes `out` and executes the loop body for `seen`, then goes on
as `r`. -/
def Run.after (out seen : List String) (r : Run) : Run :=
  { stdout := out ++ r.stdout, evaluated := seen ++ r.evaluated, exit := r.exit }

/-- The text written by `fmt.Println("Correct Password:", password)` (line 235). -/
def correctLine (password : String) : String :=
  "Correct Password: " ++ password ++ "\n"

/-- The verbose diagnostics of one loop iteration (lines 218-227). -/
def verboseLines (s : State) (password : String) (pmk ptk : List Nat) : List String :=
  if s.verboseMode then
    ["ANonce: " ++ hex s.ANonce ++ " \n",
     "SNonce: " ++ hex s.SNonce ++ " \n",
     "AP-MAC Address: " ++ hex s.APMac ++ "\n",
     "Client-MAC Address: " ++ hex s.ClientMac ++ "\n",
     "\n",
     "Password: " ++ password ++ "\n",
     "PMK: " ++ hex pmk ++ "\n",
     "PTK: " ++ hex ptk ++ "\n"]
  else []

/-- The cracking loop of `main` (lines 210-238) over the remaining wordlist lines, in the
state `s` left by the four handlers. -/
def main.loop (hmac : List Nat → List Nat → List Nat) (s : State) : List String → Run
  | [] => { stdout := [], evaluated := [], exit := .returned }
  | password :: rest =>
    match generatePMKFromPassphrase hmac s.ssid password with
    | none => { stdout := [], evaluated := [password], exit := .panicked sliceBoundsMsg }
    | some pmk =>
      let b := generateB s.APMac s.ClientMac s.ANonce s.SNonce
      match PRFX hmac pmk (stringBytes "Pairwise key expansion") b 512 with
      | none => { stdout := [], evaluated := [password], exit := .panicked sliceBoundsMsg }
      | some ptk =>
        let out := verboseLines s password pmk ptk
        match sliceTo ptk 16 with
        | none => { stdout := out, evaluated := [password], exit := .panicked sliceBoundsMsg }
        | some kck =>
          let mic := hmac kck s.micData
          match sliceTo mic 16 with
          | none =>
            { stdout := out, evaluated := [password], exit := .panicked sliceBoundsMsg }
          | some mic16 =>
            if bytesCompare mic16 s.firstMIC = 0 then
              { stdout := out ++ [correctLine password],
                evaluated := [password], exit := .returned }
            else
              Run.after out [password] (main.loop hmac s rest)

/-- The four packet reads and handler calls of `main` (lines 182-208): the state after the
fourth handler, or the panic that stopped the extraction. `NextPacket` fails when the
capture has no further packet. -/
def main.handshake (s : State) (packets : List Packet) : Except Panic State :=
  match packets with
  | [] => .error ("Failed getting the first packet.", s)
  | packet1 :: packets =>
    let s := handleFirstMessage packet1 s
    match packets with
    | [] => .error ("Failed getting the second packet.", s)
    | packet2 :: packets =>
      match handleSecondMessage packet2 s with
      | .error p => .error p
      | .ok s =>
        match packets with
        | [] => .error ("Failed getting the third packet.", s)
        | packet3 :: packets =>
          match handleThirdMessage packet3 s with
          | .error p => .error p
          | .ok s =>
            match packets with
            | [] => .error ("Failed getting the fourth packet.", s)
            | packet4 :: _ => .ok (handleFourthMessage packet4 s)

/-- The package variables once `main` has stored the two flags (lines 152 and 158). -/
def State.start (ssidString : String) (verboseFlag : Bool) : State :=
  { State.initial with verboseMode := verboseFlag, ssid := stringBytes ssidString }

/-- Source `main` (lines 142-239). The flags are the arguments `ssidString` and
`verboseFlag`; `pcapFile` is the result of `pcap.OpenOffline` (an error text or the decoded
packets of the capture) and `wordFile` the result of `os.Open` on the wordlist (an error
text or the lines the scanner yields). -/
def main (hmac : List Nat → List Nat → List Nat) (ssidString : String) (verboseFlag : Bool)
    (pcapFile : Except String (List Packet)) (wordFile : Except String (List String)) :
    Run :=
  if (trimSpace ssidString).length = 0 then
    { stdout := ["Please provide an SSID via -ssid <SSID>\n"], evaluated := [],
      exit := .exit 1 }
  else
    let s := State.start ssidString verboseFlag
    match pcapFile with
    | .error err => { stdout := [err ++ "\n"], evaluated := [], exit := .returned }
    | .ok packets =>
      match wordFile with
      | .error err => { stdout := [], evaluated := [], exit := .logFatal err }
      | .ok lines =>
        match main.handshake s packets with
        | .error (msg, s) => { stdout := s.stdout, evaluated := [], exit := .panicked msg }
        | .ok s => Run.after s.stdout [] (main.loop hmac s lines)

/-! ## SHA-1 and HMAC-SHA1 (libraries `crypto/sha1`, `crypto/hmac`)

The concrete hash behind the parameter `hmac`, after FIPS 180-4 and RFC 2104 as Go implements
them. A 32-bit word is a `Nat` below `2 ^ 32`. The eighty rounds of a block are written in
continuation-passing style over the five working words and a window of sixteen message
words, so that a block can be evaluated in a number of steps proportional to its size. -/

/-- The strict application `k n`: the `match` makes the evaluation of `n` precede the call. -/
def seqNat {α : Type} (n : Nat) (k : Nat → α) : α :=
  match n with
  | 0 => k 0
  | m + 1 => k (Nat.succ m)

/-- A continuation that receives the working words `a b c d e` and the message window
`w0 .. w15`. -/
abbrev sha1.Cont (α : Type) : Type :=
  Nat → Nat → Nat → Nat → Nat → Nat → Nat → Nat → Nat → Nat → Nat → Nat → Nat → Nat → Nat → Nat → Nat → Nat → Nat → Nat → Nat → α

/-- Round function of rounds 0-19, `b&c | (^b)&d`. -/
def sha1.ch (b c d : Nat) : Nat :=
  Nat.lor (Nat.land b c) (Nat.land (Nat.xor b 4294967295) d)

/-- Round function of rounds 20-39 and 60-79, `b ^ c ^ d`. -/
def sha1.parity (b c d : Nat) : Nat :=
  Nat.xor (Nat.xor b c) d

/-- Round function of rounds 40-59, `((b | c) & d) | (b & c)`. -/
def sha1.maj (b c d : Nat) : Nat :=
  Nat.lor (Nat.land (Nat.lor b c) d) (Nat.land b c)

/-- One round of `blockGeneric` with round function `f` and constant `K`:
`t = rotl(a, 5) + f(b, c, d) + e + w[i] + K` and `a, b, c, d, e = t, a, rotl(b, 30), c, d`;
the window moves on by one word, its new last word being
`rotl(w[i+13] ^ w[i+8] ^ w[i+2] ^ w[i], 1)`. -/
def sha1.round {α : Type} (f : Nat → Nat → Nat → Nat) (K : Nat) (k : sha1.Cont α)
    (a b c d e w0 w1 w2 w3 w4 w5 w6 w7 w8 w9 w10 w11 w12 w13 w14 w15 : Nat) : α :=
  k (Nat.land (Nat.add (Nat.add (Nat.add (Nat.lor (Nat.shiftLeft a 5) (Nat.shiftRight a 27))
        (f b c d)) (Nat.add e K)) w0) 4294967295)
    a (Nat.land (Nat.lor (Nat.shiftLeft b 30) (Nat.shiftRight b 2)) 4294967295) c d
    w1 w2 w3 w4 w5 w6 w7 w8 w9 w10 w11 w12 w13 w14 w15
    (Nat.land (Nat.lor (Nat.shiftLeft (Nat.xor (Nat.xor w13 w8) (Nat.xor w2 w0)) 1)
      (Nat.shiftRight (Nat.xor (Nat.xor w13 w8) (Nat.xor w2 w0)) 31)) 4294967295)

/-- Five rounds. -/
def sha1.round5 {α : Type} (f : Nat → Nat → Nat → Nat) (K : Nat) (k : sha1.Cont α) :
    sha1.Cont α :=
  sha1.round f K (sha1.round f K (sha1.round f K (sha1.round f K (sha1.round f K k))))

/-- Twenty rounds with the same round function and constant. -/
def sha1.round20 {α : Type} (f : Nat → Nat → Nat → Nat) (K : Nat) (k : sha1.Cont α) :
    sha1.Cont α :=
  sha1.round5 f K (sha1.round5 f K (sha1.round5 f K (sha1.round5 f K k)))

/-- The eighty rounds of a block. -/
def sha1.round80 {α : Type} (k : sha1.Cont α) : sha1.Cont α :=
  sha1.round20 sha1.ch 0x5A827999 (sha1.round20 sha1.parity 0x6ED9EBA1
    (sha1.round20 sha1.maj 0x8F1BBCDC (sha1.round20 sha1.parity 0xCA62C1D6 k)))

/-- The compression of one block of sixteen words into the chaining value `h0 .. h4`; the
five new chaining words are handed to `k`. -/
def sha1.compress {α : Type} (h0 h1 h2 h3 h4 w0 w1 w2 w3 w4 w5 w6 w7 w8 w9 w10 w11 w12 w13 w14 w15 : Nat)
    (k : Nat → Nat → Nat → Nat → Nat → α) : α :=
  sha1.round80 (fun a b c d e _ _ _ _ _ _ _ _ _ _ _ _ _ _ _ _ =>
    seqNat (Nat.land (Nat.add h0 a) 4294967295) fun x0 =>
    seqNat (Nat.land (Nat.add h1 b) 4294967295) fun x1 =>
    seqNat (Nat.land (Nat.add h2 c) 4294967295) fun x2 =>
    seqNat (Nat.land (Nat.add h3 d) 4294967295) fun x3 =>
    seqNat (Nat.land (Nat.add h4 e) 4294967295) fun x4 => k x0 x1 x2 x3 x4)
    h0 h1 h2 h3 h4 w0 w1 w2 w3 w4 w5 w6 w7 w8 w9 w10 w11 w12 w13 w14 w15

/-- The big-endian 32-bit words of a byte string (a trailing group of fewer than four bytes
is dropped). -/
def sha1.words : List Nat → List Nat
  | b0 :: b1 :: b2 :: b3 :: rest =>
    (b0 * 2 ^ 24 + b1 * 2 ^ 16 + b2 * 2 ^ 8 + b3) :: sha1.words rest
  | _ => []

/-- Function `blockGeneric` for one 64-byte block `p`: the new chaining value. -/
def sha1.block (h p : List Nat) : List Nat :=
  match h, sha1.words p with
  | [h0, h1, h2, h3, h4], [w0, w1, w2, w3, w4, w5, w6, w7, w8, w9, w10, w11, w12, w13, w14, w15] =>
    sha1.compress h0 h1 h2 h3 h4 w0 w1 w2 w3 w4 w5 w6 w7 w8 w9 w10 w11 w12 w13 w14 w15 fun x0 x1 x2 x3 x4 => [x0, x1, x2, x3, x4]
  | _, _ => h

/-- The chaining value after `n` consecutive 64-byte blocks of `p`. -/
def sha1.blocks : Nat → List Nat → List Nat → List Nat
  | 0, h, _ => h
  | n + 1, h, p => sha1.blocks n (sha1.block h (p.take 64)) (p.drop 64)

/-- The initial chaining value. -/
def sha1.init : List Nat :=
  [0x67452301, 0xEFCDAB89, 0x98BADCFE, 0x10325476, 0xC3D2E1F0]

/-- Eight-byte big-endian encoding of a 64-bit length. -/
def be64 (n : Nat) : List Nat :=
  be32 (n / 2 ^ 32 % 2 ^ 32) ++ be32 (n % 2 ^ 32)

/-- The padding of `checkSum` for a message of `len` bytes: a byte `0x80`, zero bytes up to
56 modulo 64, and the length in bits. -/
def sha1.padding (len : Nat) : List Nat :=
  let t := if len % 64 < 56 then 56 - len % 64 else 64 + 56 - len % 64
  0x80 :: List.replicate (t - 1) 0 ++ be64 (8 * len)

/-- Library function `sha1.Sum`: the 20-byte SHA-1 digest of `data`. -/
def sha1.Sum (data : List Nat) : List Nat :=
  let p := data ++ sha1.padding data.length
  (sha1.blocks (p.length / 64) sha1.init p).flatMap be32

/-- Library `crypto/hmac` over `sha1.New`: `hmac.New(sha1.New, key)`, `Write(data)`,
`Sum(nil)`. A key longer than the 64-byte block is hashed first. -/
def hmacSha1 (key data : List Nat) : List Nat :=
  let key := if 64 < key.length then sha1.Sum key else key
  let key := key ++ List.replicate (64 - key.length) 0
  sha1.Sum (key.map (Nat.xor 0x5c) ++ sha1.Sum (key.map (Nat.xor 0x36) ++ data))

/-- The bytes of a list of 32-bit words, each in big-endian order. -/
def sha1.bytes (ws : List Nat) : List Nat :=
  ws.flatMap be32

/-- HMAC-SHA1 of a 20-byte message given as its five words `u0 .. u4`, computed from the
chaining values `i0 .. i4` and `o0 .. o4` that the inner and the outer hash reach after the
key block. Each hash has one more block, made of five words, the padding byte `0x80` and
the bit length `(64 + 20) * 8 = 672`. The five words of the result are handed to `k`. -/
def hmacSha1.words {α : Type} (i0 i1 i2 i3 i4 o0 o1 o2 o3 o4 u0 u1 u2 u3 u4 : Nat)
    (k : Nat → Nat → Nat → Nat → Nat → α) : α :=
  sha1.compress i0 i1 i2 i3 i4 u0 u1 u2 u3 u4 0x80000000 0 0 0 0 0 0 0 0 0 672
    fun x0 x1 x2 x3 x4 =>
      sha1.compress o0 o1 o2 o3 o4 x0 x1 x2 x3 x4 0x80000000 0 0 0 0 0 0 0 0 0 672 k

/-- The loop of `pbkdf2Iterate` for HMAC-SHA1 on words: `n` more iterations from the words
`u0 .. u4` of `U` and `t0 .. t4` of `T`; the result lists the words of the last `U` and of
the last `T`. -/
def pbkdf2Iterate.words (i0 i1 i2 i3 i4 o0 o1 o2 o3 o4 : Nat) :
    Nat → Nat → Nat → Nat → Nat → Nat → Nat → Nat → Nat → Nat → Nat → List Nat
  | 0, u0, u1, u2, u3, u4, t0, t1, t2, t3, t4 => [u0, u1, u2, u3, u4, t0, t1, t2, t3, t4]
  | n + 1, u0, u1, u2, u3, u4, t0, t1, t2, t3, t4 =>
    hmacSha1.words i0 i1 i2 i3 i4 o0 o1 o2 o3 o4 u0 u1 u2 u3 u4 fun x0 x1 x2 x3 x4 =>
      seqNat (Nat.xor t0 x0) fun y0 =>
      seqNat (Nat.xor t1 x1) fun y1 =>
      seqNat (Nat.xor t2 x2) fun y2 =>
      seqNat (Nat.xor t3 x3) fun y3 =>
      seqNat (Nat.xor t4 x4) fun y4 =>
      pbkdf2Iterate.words i0 i1 i2 i3 i4 o0 o1 o2 o3 o4 n x0 x1 x2 x3 x4 y0 y1 y2 y3 y4

/-! ## Reference definitions for the statements -/

/-- The comparison of line 234 for one wordlist line, written out from lines 211-234:
whether the first 16 bytes of `HMAC-SHA1(PTK[0..16), micData)` equal `firstMIC`, the PTK
computed from the line as in lines 212-216. -/
def micMatches (hmac : List Nat → List Nat → List Nat) (s : State) (password : String) :
    Bool :=
  match generatePMKFromPassphrase hmac s.ssid password with
  | none => false
  | some pmk =>
    match PRFX hmac pmk (stringBytes "Pairwise key expansion")
        (generateB s.APMac s.ClientMac s.ANonce s.SNonce) 512 with
    | none => false
    | some ptk => decide ((hmac (ptk.take 16) s.micData).take 16 = s.firstMIC)

/-- The value `mic[:16]` that line 234 compares with `firstMIC`, written out from lines
211-232 for one wordlist line; `none` when a slice expression on the way panics. -/
def computedMIC (hmac : List Nat → List Nat → List Nat) (s : State) (password : String) :
    Option (List Nat) :=
  match generatePMKFromPassphrase hmac s.ssid password with
  | none => none
  | some pmk =>
    match PRFX hmac pmk (stringBytes "Pairwise key expansion")
        (generateB s.APMac s.ClientMac s.ANonce s.SNonce) 512 with
    | none => none
    | some ptk =>
      match sliceTo ptk 16 with
      | none => none
      | some kck => sliceTo (hmac kck s.micData) 16

/-- Whether a text of the standard output is a report of a correct password, that is,
starts with `Correct Password: `. -/
def isReportLine (line : String) : Bool :=
  decide ("Correct Password: ".data <+: line.data)

/-- The pseudo-random function as section 4.2 of the specification words it: the HMAC
results for the counters `0 .. ceil(x/160) - 1` in increasing order, cut to `x/8` bytes. -/
def prfSpec (hmac : List Nat → List Nat → List Nat) (key label context : List Nat)
    (outputBits : Nat) : List Nat :=
  (((List.range (outputBits ⌈/⌉ 160)).map fun i =>
    hmac key (label ++ [0x00] ++ context ++ [i % 256])).flatten).take (outputBits / 8)

/-- An extracted state for concrete examples: 6-byte addresses, 32-byte nonces, a 16-byte
captured tag and a 99-byte tag-verification buffer, outside verbose mode. -/
def State.sample : State :=
  { ssid := stringBytes "net", ANonce := List.replicate 32 1, SNonce := List.replicate 32 2,
    APMac := [0, 1, 2, 3, 4, 5], ClientMac := [6, 7, 8, 9, 10, 11],
    firstMIC := List.replicate 16 0, micData := List.replicate 99 0, verboseMode := false,
    stdout := [] }

/-- A 20-byte keyed checksum, standing for the HMAC parameter in concrete examples. -/
def sumMac (key data : List Nat) : List Nat :=
  (List.range 20).map fun i => (key.sum + 3 * data.sum + data.length + i) % 256


/-! ## Slices and machine integers -/

theorem sliceTo_of_le {s : List Nat} {hi : Nat} (h : hi ≤ s.length) :
    sliceTo s hi = some (s.take hi) :=
  if_pos h

theorem sliceFrom_of_le {s : List Nat} {lo : Nat} (h : lo ≤ s.length) :
    sliceFrom s lo = some (s.drop lo) :=
  if_pos h

theorem sliceToInt_natCast (s : List Nat) (hi : Nat) :
    sliceToInt s (hi : Int) = sliceTo s hi := by
  simp [sliceToInt]

theorem wrapInt_of_bounds {n : Int} (h0 : 0 ≤ n) (h1 : n ≤ maxInt) : wrapInt n = n := by
  unfold wrapInt
  unfold maxInt at h1
  rw [Int.emod_eq_of_lt (by omega) (by omega)]
  omega

/-! ## The pseudo-random function -/

theorem PRFX.loop_eq (hmac : List Nat → List Nat → List Nat) (key a b : List Nat) :
    ∀ (n i : Nat) (r : List Nat),
      PRFX.loop hmac key a b n i r =
        r ++ ((List.range' i n).map fun j =>
          hmac key (a ++ [0x00] ++ b ++ [j % 256])).flatten := by
  intro n
  induction n with
  | zero => intro i r; simp [PRFX.loop]
  | succ n ih =>
    intro i r
    simp [PRFX.loop, ih, List.range'_succ]

theorem PRFX.loop_length (hmac : List Nat → List Nat → List Nat)
    (hlen : ∀ k d, (hmac k d).length = 20) (key a b : List Nat) :
    ∀ (n i : Nat) (r : List Nat),
      (PRFX.loop hmac key a b n i r).length = r.length + 20 * n := by
  intro n
  induction n with
  | zero => intro i r; simp [PRFX.loop]
  | succ n ih =>
    intro i r
    simp only [PRFX.loop, ih, List.length_append, hlen]
    omega

/-- Without overflow of `x + 159`, `PRFX` on a non-negative bit count is the loop run
`(x + 159) / 160` times followed by the slice `r[:x/8]`. -/
theorem PRFX_natCast (hmac : List Nat → List Nat → List Nat) (key a b : List Nat) (x : Nat)
    (hx : (x : Int) + 159 ≤ maxInt) :
    PRFX hmac key a b (x : Int) =
      sliceTo (PRFX.loop hmac key a b ((x + 159) / 160) 0 []) (x / 8) := by
  unfold PRFX
  have h8 : Int.tdiv (x : Int) 8 = ((x / 8 : Nat) : Int) := by
    rw [Int.tdiv_eq_ediv (by omega) (by omega)]; omega
  have hw : wrapInt ((x : Int) + 159) = (x : Int) + 159 :=
    wrapInt_of_bounds (by positivity) hx
  have h160 : (Int.tdiv ((x : Int) + 159) 160).toNat = (x + 159) / 160 := by
    rw [Int.tdiv_eq_ediv (by omega) (by omega)]; omega
  show sliceToInt (PRFX.loop hmac key a b
    (Int.tdiv (wrapInt ((x : Int) + 159)) 160).toNat 0 []) (Int.tdiv (x : Int) 8) = _
  rw [hw, h160, h8, sliceToInt_natCast]

theorem ceilDiv_160 (x : Nat) : x ⌈/⌉ 160 = (x + 159) / 160 := by
  rw [Nat.ceilDiv_eq_add_pred_div]
  rfl

theorem sumMac_length (key data : List Nat) : (sumMac key data).length = 20 := by
  simp [sumMac]

theorem PRFX.loop_eq_prfSpec (hmac : List Nat → List Nat → List Nat) (key a b : List Nat)
    (x : Nat) :
    (PRFX.loop hmac key a b ((x + 159) / 160) 0 []).take (x / 8) = prfSpec hmac key a b x := by
  simp [prfSpec, PRFX.loop_eq, ceilDiv_160, List.range_eq_range']

theorem PRFX.slice_in_range (hmac : List Nat → List Nat → List Nat)
    (hlen : ∀ k d, (hmac k d).length = 20) (key a b : List Nat) (x : Nat) :
    x / 8 ≤ (PRFX.loop hmac key a b ((x + 159) / 160) 0 []).length := by
  rw [PRFX.loop_length hmac hlen]
  simp only [List.length_nil]
  omega

/-- C2 (as amended): as long as `x + 159` does not exceed the largest `int`, `PRFX` returns
the HMAC blocks for the counters `0 .. ceil(x/160) - 1` over `a || 0x00 || b || byte(i)`,
concatenated in increasing order of `i` and cut to `x/8` bytes. -/
theorem PRFX_eq_prfSpec (hmac : List Nat → List Nat → List Nat)
    (hlen : ∀ k d, (hmac k d).length = 20) (key a b : List Nat) (x : Nat)
    (hx : (x : Int) + 159 ≤ maxInt) :
    PRFX hmac key a b (x : Int) = some (prfSpec hmac key a b x) := by
  rw [PRFX_natCast hmac key a b x hx, sliceTo_of_le (PRFX.slice_in_range hmac hlen key a b x),
    PRFX.loop_eq_prfSpec]

theorem PRFX_eq_prfSpec_witness :
    (∀ k d, (sumMac k d).length = 20) ∧ ((1000 : Nat) : Int) + 159 ≤ maxInt ∧
      PRFX sumMac [1, 2] [3] [4, 5] ((1000 : Nat) : Int) =
        some (prfSpec sumMac [1, 2] [3] [4, 5] 1000) :=
  ⟨sumMac_length, by decide,
    PRFX_eq_prfSpec sumMac sumMac_length [1, 2] [3] [4, 5] 1000 (by decide)⟩

/-- C2 (counterexample): for the non-negative bit count `2^63 - 1` the sum `x + 159`
wraps to a negative number, the loop body never runs and the slice `r[:x/8]` of the empty
accumulator is out of range, so `PRFX` panics instead of returning the concatenation. -/
theorem PRFX_maxInt_panics :
    PRFX sumMac [1, 2] [3] [4, 5] (2 ^ 63 - 1) = none ∧
      PRFX sumMac [1, 2] [3] [4, 5] (2 ^ 63 - 1) ≠
        some (prfSpec sumMac [1, 2] [3] [4, 5] (2 ^ 63 - 1)) := by
  have h : PRFX sumMac [1, 2] [3] [4, 5] (2 ^ 63 - 1) = none := by decide
  exact ⟨h, by rw [h]; exact Option.noConfusion⟩

/-- C8 (as amended): as long as `n + 159` does not exceed the largest `int`, `PRFX` returns
exactly `n/8` bytes, and the slice `r[:n/8]` is in range because the `20 * ceil(n/160)`
accumulated bytes are at least `n/8`. -/
theorem PRFX_length (hmac : List Nat → List Nat → List Nat)
    (hlen : ∀ k d, (hmac k d).length = 20) (key a b : List Nat) (n : Nat)
    (hn : (n : Int) + 159 ≤ maxInt) :
    (∃ r, PRFX hmac key a b (n : Int) = some r ∧ r.length = n / 8) ∧
      (PRFX.loop hmac key a b (n ⌈/⌉ 160) 0 []).length = 20 * (n ⌈/⌉ 160) ∧
      n / 8 ≤ 20 * (n ⌈/⌉ 160) := by
  have hacc : (PRFX.loop hmac key a b ((n + 159) / 160) 0 []).length =
      20 * ((n + 159) / 160) := by
    rw [PRFX.loop_length hmac hlen]; simp
  have hle : n / 8 ≤ 20 * ((n + 159) / 160) := by omega
  refine ⟨⟨(PRFX.loop hmac key a b ((n + 159) / 160) 0 []).take (n / 8), ?_, ?_⟩, ?_, ?_⟩
  · rw [PRFX_natCast hmac key a b n hn]
    exact sliceTo_of_le (by rw [hacc]; exact hle)
  · rw [List.length_take, hacc]; omega
  · rw [ceilDiv_160]; exact hacc
  · rw [ceilDiv_160]; exact hle

theorem PRFX_length_witness :
    (∀ k d, (sumMac k d).length = 20) ∧ ((9 : Nat) : Int) + 159 ≤ maxInt ∧
      ((∃ r, PRFX sumMac [7] [8] [9] ((9 : Nat) : Int) = some r ∧ r.length = 9 / 8) ∧
        (PRFX.loop sumMac [7] [8] [9] (9 ⌈/⌉ 160) 0 []).length = 20 * (9 ⌈/⌉ 160) ∧
        9 / 8 ≤ 20 * (9 ⌈/⌉ 160)) :=
  ⟨sumMac_length, by decide, PRFX_length sumMac sumMac_length [7] [8] [9] 9 (by decide)⟩

/-- C8 (counterexample): for the non-negative bit count `2^63 - 159` the sum `n + 159`
wraps to `-2^63`, nothing is accumulated and the slice `r[:n/8]` with
`n/8 = 1152921504606846956` is out of range: no byte string is returned. -/
theorem PRFX_slice_out_of_range :
    PRFX.loop sumMac [7] [8] [9]
        (Int.tdiv (wrapInt ((2 ^ 63 - 159) + 159)) 160).toNat 0 [] = [] ∧
      Int.tdiv (2 ^ 63 - 159) 8 = 1152921504606846956 ∧
      ¬ ∃ r, PRFX sumMac [7] [8] [9] (2 ^ 63 - 159) = some r := by
  have h : PRFX sumMac [7] [8] [9] (2 ^ 63 - 159) = none := by decide
  refine ⟨by decide, by decide, ?_⟩
  rintro ⟨r, hr⟩
  rw [h] at hr
  exact Option.noConfusion hr

/-- The structure of a 512-bit output of `PRFX` under the HMAC size of 20 bytes: four
blocks with counters 0..3, 80 bytes cut to 64, whose first 16 bytes come from block 0. -/
theorem PRFX_512_blocks (hmac : List Nat → List Nat → List Nat)
    (hlen : ∀ k d, (hmac k d).length = 20) (pmk apMac clientMac aNonce sNonce : List Nat) :
    ∃ ptk : List Nat,
      PRFX hmac pmk (stringBytes "Pairwise key expansion")
          (generateB apMac clientMac aNonce sNonce) 512 = some ptk ∧
        ptk = (List.flatten ((List.range 4).map fun i =>
          hmac pmk (stringBytes "Pairwise key expansion" ++ [0x00] ++
            generateB apMac clientMac aNonce sNonce ++ [i]))).take 64 ∧
        (List.flatten ((List.range 4).map fun i =>
          hmac pmk (stringBytes "Pairwise key expansion" ++ [0x00] ++
            generateB apMac clientMac aNonce sNonce ++ [i]))).length = 80 ∧
        ptk.length = 64 ∧
        sliceTo ptk 16 = some ((hmac pmk (stringBytes "Pairwise key expansion" ++ [0x00] ++
          generateB apMac clientMac aNonce sNonce ++ [0x00])).take 16) := by
  have hx : ((512 : Nat) : Int) + 159 ≤ maxInt := by decide
  have h := PRFX_natCast hmac pmk (stringBytes "Pairwise key expansion")
    (generateB apMac clientMac aNonce sNonce) 512 hx
  have h4 : (512 + 159) / 160 = 4 := by decide
  have h64 : 512 / 8 = 64 := by decide
  rw [h4, h64, PRFX.loop_eq, sliceTo_of_le] at h
  · refine ⟨_, h, ?_, ?_, ?_, ?_⟩
    · simp [List.range'_succ, List.range_succ]
    · simp [List.range_succ, hlen]
    · simp [List.range'_succ, hlen]
    · rw [sliceTo_of_le]
      · simp [List.range'_succ, List.take_take, List.take_append_of_le_length, hlen]
      · simp [List.range'_succ, hlen]
  · simp [List.range'_succ, hlen]

/-! ## The canonical byte-pair builder -/

theorem bytesCompare_neg_iff : ∀ (u v : List Nat), bytesCompare u v < 0 ↔ u < v
  | [], [] => by simp [bytesCompare]
  | [], y :: ys => by simp [bytesCompare, List.nil_lt_cons]
  | x :: xs, [] => by
    simp only [bytesCompare]
    exact ⟨fun h => absurd h (by decide), fun h => absurd h (List.Lex.not_nil_right _ _)⟩
  | x :: xs, y :: ys => by
    simp only [bytesCompare]
    by_cases hxy : x < y
    · simp only [hxy, if_true]
      exact ⟨fun _ => List.Lex.rel hxy, fun _ => by decide⟩
    · by_cases hyx : y < x
      · simp only [hxy, hyx, if_true, if_false]
        refine ⟨fun h => absurd h (by decide), fun h => ?_⟩
        cases h with
        | cons h => exact absurd hyx (lt_irrefl _)
        | rel h => exact absurd h hxy
      · have hEq : x = y := le_antisymm (not_lt.mp hyx) (not_lt.mp hxy)
        subst hEq
        simp only [hxy, if_false]
        rw [bytesCompare_neg_iff xs ys]
        exact (@List.Lex.cons_iff Nat (fun a b => a < b) _ _ _ _).symm

theorem bytesCompare_pos_iff : ∀ (u v : List Nat), 0 < bytesCompare u v ↔ v < u
  | [], [] => by simp [bytesCompare]
  | [], y :: ys => by
    simp only [bytesCompare]
    exact ⟨fun h => absurd h (by decide), fun h => absurd h (List.Lex.not_nil_right _ _)⟩
  | x :: xs, [] => by simp [bytesCompare, List.nil_lt_cons]
  | x :: xs, y :: ys => by
    simp only [bytesCompare]
    by_cases hxy : x < y
    · simp only [hxy, if_true]
      refine ⟨fun h => absurd h (by decide), fun h => ?_⟩
      cases h with
      | cons h => exact absurd hxy (lt_irrefl _)
      | rel h => exact absurd h (not_lt.mpr hxy.le)
    · by_cases hyx : y < x
      · simp only [hxy, hyx, if_true, if_false]
        exact ⟨fun _ => List.Lex.rel hyx, fun _ => by decide⟩
      · have hEq : x = y := le_antisymm (not_lt.mp hyx) (not_lt.mp hxy)
        subst hEq
        simp only [hxy, if_false]
        rw [bytesCompare_pos_iff xs ys]
        exact (@List.Lex.cons_iff Nat (fun a b => a < b) _ _ _ _).symm

theorem bytesCompare_eq_zero_iff : ∀ (u v : List Nat), bytesCompare u v = 0 ↔ u = v
  | [], [] => by simp [bytesCompare]
  | [], y :: ys => by simp [bytesCompare]
  | x :: xs, [] => by simp [bytesCompare]
  | x :: xs, y :: ys => by
    simp only [bytesCompare]
    by_cases hxy : x < y
    · simp only [hxy, if_true]
      exact ⟨fun h => absurd h (by decide), fun h => by
        rw [List.cons.injEq] at h; omega⟩
    · by_cases hyx : y < x
      · simp only [hxy, hyx, if_true, if_false]
        exact ⟨fun h => absurd h (by decide), fun h => by
          rw [List.cons.injEq] at h; omega⟩
      · have hEq : x = y := le_antisymm (not_lt.mp hyx) (not_lt.mp hxy)
        subst hEq
        simp only [hxy, if_false]
        rw [bytesCompare_eq_zero_iff xs ys]
        simp

/-- Source `byteMin` is the minimum in the lexicographic order of byte sequences. -/
theorem byteMin_eq_min (u v : List Nat) : byteMin u v = min u v := by
  unfold byteMin
  by_cases h : bytesCompare u v < 0
  · rw [if_pos h, min_eq_left ((bytesCompare_neg_iff u v).mp h).le]
  · rw [if_neg h, min_eq_right (not_lt.mp fun hlt => h ((bytesCompare_neg_iff u v).mpr hlt))]

/-- Source `byteMax` is the maximum in the lexicographic order of byte sequences. -/
theorem byteMax_eq_max (u v : List Nat) : byteMax u v = max u v := by
  unfold byteMax
  by_cases h : bytesCompare u v > 0
  · rw [if_pos h, max_eq_left ((bytesCompare_pos_iff u v).mp h).le]
  · rw [if_neg h, max_eq_right (not_lt.mp fun hlt => h ((bytesCompare_pos_iff u v).mpr hlt))]

theorem generateB_eq (apMac clientMac aNonce sNonce : List Nat) :
    generateB apMac clientMac aNonce sNonce =
      min apMac clientMac ++ max apMac clientMac ++ min aNonce sNonce ++ max aNonce sNonce := by
  simp [generateB, byteMin_eq_min, byteMax_eq_max]

theorem length_min_add_length_max (u v : List Nat) :
    (min u v).length + (max u v).length = u.length + v.length := by
  rcases le_total u v with h | h
  · rw [min_eq_left h, max_eq_right h]
  · rw [min_eq_right h, max_eq_left h, Nat.add_comm]

/-- C3: `generateB` is `min(apMac, clientMac) || max(apMac, clientMac) || min(aNonce, sNonce)
|| max(aNonce, sNonce)`, minimum and maximum taken in the lexicographic order of byte
sequences (`List.Lex (· < ·)` on `List ℕ`), and has 76 bytes for 6-byte addresses and
32-byte nonces. -/
theorem generateB_min_max (apMac clientMac aNonce sNonce : List Nat) :
    generateB apMac clientMac aNonce sNonce =
        min apMac clientMac ++ max apMac clientMac ++ min aNonce sNonce ++
          max aNonce sNonce ∧
      (apMac.length = 6 → clientMac.length = 6 → aNonce.length = 32 →
        sNonce.length = 32 → (generateB apMac clientMac aNonce sNonce).length = 76) := by
  refine ⟨generateB_eq apMac clientMac aNonce sNonce, fun h1 h2 h3 h4 => ?_⟩
  have hm := length_min_add_length_max apMac clientMac
  have hn := length_min_add_length_max aNonce sNonce
  rw [generateB_eq]
  simp only [List.length_append]
  omega

theorem generateB_min_max_witness :
    generateB [0, 17, 34, 51, 68, 85] [0, 17, 34, 51, 68, 84] (List.replicate 32 9)
        (List.replicate 32 7) =
        min [0, 17, 34, 51, 68, 85] [0, 17, 34, 51, 68, 84] ++
          max [0, 17, 34, 51, 68, 85] [0, 17, 34, 51, 68, 84] ++
          min (List.replicate 32 9) (List.replicate 32 7) ++
          max (List.replicate 32 9) (List.replicate 32 7) ∧
      (generateB [0, 17, 34, 51, 68, 85] [0, 17, 34, 51, 68, 84] (List.replicate 32 9)
        (List.replicate 32 7)).length = 76 :=
  ⟨(generateB_min_max _ _ _ _).1,
    (generateB_min_max [0, 17, 34, 51, 68, 85] [0, 17, 34, 51, 68, 84] (List.replicate 32 9)
      (List.replicate 32 7)).2 rfl rfl (by simp) (by simp)⟩

/-- C4: `generateB(macA, macB, nonceA, nonceB) = generateB(macB, macA, nonceB, nonceA)` for
all byte strings, equal addresses or equal nonces included. -/
theorem generateB_symm (macA macB nonceA nonceB : List Nat) :
    generateB macA macB nonceA nonceB = generateB macB macA nonceB nonceA := by
  rw [generateB_eq, generateB_eq, min_comm macA macB, max_comm macA macB,
    min_comm nonceA nonceB, max_comm nonceA nonceB]

/-! ## The pairwise master key -/

theorem pbkdf2Iterate_length (hmac : List Nat → List Nat → List Nat)
    (hlen : ∀ k d, (hmac k d).length = 20) (password : List Nat) :
    ∀ (n : Nat) (U T : List Nat), T.length = 20 →
      (pbkdf2Iterate hmac password n U T).length = 20 := by
  intro n
  induction n with
  | zero => intro U T hT; simpa [pbkdf2Iterate] using hT
  | succ n ih =>
    intro U T hT
    simp only [pbkdf2Iterate]
    apply ih
    rw [List.length_zipWith, hT, hlen]
    rfl

theorem pbkdf2Block_length (hmac : List Nat → List Nat → List Nat)
    (hlen : ∀ k d, (hmac k d).length = 20) (password salt : List Nat) (iter block : Nat) :
    (pbkdf2Block hmac password salt iter block).length = 20 :=
  pbkdf2Iterate_length hmac hlen password _ _ _ (hlen _ _)

theorem length_flatMap_const {α : Type} (f : α → List Nat) (c : Nat)
    (hf : ∀ x, (f x).length = c) : ∀ l : List α, (l.flatMap f).length = c * l.length
  | [] => by simp
  | x :: l => by
    rw [List.flatMap_cons, List.length_append, hf, length_flatMap_const f c hf l,
      List.length_cons, Nat.mul_succ, Nat.add_comm]

/-- With 20-byte HMAC results the key is the concatenation of the blocks cut to `keyLen`
bytes, as in RFC 2898. -/
theorem pbkdf2Key_eq_take (hmac : List Nat → List Nat → List Nat)
    (hlen : ∀ k d, (hmac k d).length = 20) (password salt : List Nat) (iter keyLen : Nat) :
    pbkdf2Key hmac password salt iter keyLen =
      ((List.range ((keyLen + 20 - 1) / 20)).flatMap fun k =>
        pbkdf2Block hmac password salt iter (k + 1)).take keyLen := by
  unfold pbkdf2Key
  simp only []
  have hl := length_flatMap_const (fun k => pbkdf2Block hmac password salt iter (k + 1)) 20
    (fun k => pbkdf2Block_length hmac hlen password salt iter _)
    (List.range ((keyLen + 20 - 1) / 20))
  rw [List.length_range] at hl
  apply List.ext_getElem
  · rw [List.length_map, List.length_range, List.length_take, hl]
    omega
  · intro i h1 h2
    rw [List.length_map, List.length_range] at h1
    rw [List.getElem_map, List.getElem_range, List.getElem_take,
      List.getD_eq_getElem _ _ (by rw [hl]; omega)]

/-- The first `n` bytes of a PBKDF2 derivation of `m ≥ n` bytes are the derivation of `n`
bytes: the blocks do not depend on the requested length. -/
theorem pbkdf2Key_take (hmac : List Nat → List Nat → List Nat)
    (hlen : ∀ k d, (hmac k d).length = 20) (password salt : List Nat) (iter : Nat)
    {n m : Nat} (hnm : n ≤ m) :
    (pbkdf2Key hmac password salt iter m).take n = pbkdf2Key hmac password salt iter n := by
  rw [pbkdf2Key_eq_take hmac hlen, pbkdf2Key_eq_take hmac hlen, List.take_take,
    min_eq_left hnm]
  obtain ⟨d, hd⟩ : ∃ d, (m + 20 - 1) / 20 = (n + 20 - 1) / 20 + d :=
    ⟨(m + 20 - 1) / 20 - (n + 20 - 1) / 20, by omega⟩
  rw [hd, List.range_add, List.flatMap_append, List.take_append_of_le_length]
  rw [length_flatMap_const _ 20 (fun k => pbkdf2Block_length hmac hlen password salt iter _),
    List.length_range]
  omega

theorem pbkdf2Key_length (hmac : List Nat → List Nat → List Nat) (password salt : List Nat)
    (iter keyLen : Nat) : (pbkdf2Key hmac password salt iter keyLen).length = keyLen := by
  simp [pbkdf2Key]

theorem generatePMKFromPassphrase_some (hmac : List Nat → List Nat → List Nat)
    (hlen : ∀ k d, (hmac k d).length = 20) (ssid : List Nat) (phrase : String) :
    generatePMKFromPassphrase hmac ssid phrase =
      some (pbkdf2Key hmac (stringBytes phrase) ssid 4096 32) := by
  unfold generatePMKFromPassphrase
  rw [sliceTo_of_le (by rw [pbkdf2Key_length hmac]; decide),
    pbkdf2Key_take hmac hlen _ _ _ (by decide)]

/-- C6: `generatePMKFromPassphrase` returns the PBKDF2 derivation with HMAC-SHA1, 4096
iterations, the network identifier as salt and a requested length of 256 bits, and this
value has exactly 32 bytes. (The source asks the library for 256 bytes and keeps the first
32 of them, which is the same byte string.) -/
theorem generatePMKFromPassphrase_eq (hmac : List Nat → List Nat → List Nat)
    (hlen : ∀ k d, (hmac k d).length = 20) (ssid : List Nat) (phrase : String) :
    generatePMKFromPassphrase hmac ssid phrase =
        some (pbkdf2Key hmac (stringBytes phrase) ssid 4096 (256 / 8)) ∧
      (pbkdf2Key hmac (stringBytes phrase) ssid 4096 (256 / 8)).length = 32 := by
  have h32 : 256 / 8 = 32 := by decide
  rw [h32]
  exact ⟨generatePMKFromPassphrase_some hmac hlen ssid phrase,
    pbkdf2Key_length hmac _ _ _ _⟩

theorem generatePMKFromPassphrase_eq_witness :
    (∀ k d, (sumMac k d).length = 20) ∧
      generatePMKFromPassphrase sumMac (stringBytes "IEEE") "password" =
        some (pbkdf2Key sumMac (stringBytes "password") (stringBytes "IEEE") 4096 (256 / 8)) ∧
      (pbkdf2Key sumMac (stringBytes "password") (stringBytes "IEEE") 4096 (256 / 8)).length
        = 32 :=
  ⟨sumMac_length, generatePMKFromPassphrase_eq sumMac sumMac_length _ _⟩

/-! ## The tag-verification buffer -/

/-- The second block of `handleSecondMessage` (lines 59-64) succeeds exactly when the
802.11 payload has at least 105 bytes. -/
theorem handleSecondMessage_dot11 (packet : Packet) (s : State) (dot11 : Dot11)
    (hd : packet.dot11 = some dot11) :
    handleSecondMessage packet s =
      if 105 ≤ dot11.Payload.length then
        .ok { handleSecondMessage.keyFrame packet s with
          micData := (dot11.Payload.drop 8).take 81 ++ List.replicate 16 0 ++
            (dot11.Payload.drop 8).drop 97 }
      else .error (sliceBoundsMsg, handleSecondMessage.keyFrame packet s) := by
  unfold handleSecondMessage
  rw [hd]
  dsimp only
  by_cases h105 : 105 ≤ dot11.Payload.length
  · have h8 : 8 ≤ dot11.Payload.length := by omega
    have h81 : 81 ≤ (dot11.Payload.drop 8).length := by rw [List.length_drop]; omega
    have h97 : 97 ≤ (dot11.Payload.drop 8).length := by rw [List.length_drop]; omega
    rw [sliceFrom_of_le h8]
    dsimp only
    rw [sliceTo_of_le h81, sliceFrom_of_le h97, if_pos h105]
    rfl
  · rw [if_neg h105]
    by_cases h8 : 8 ≤ dot11.Payload.length
    · have h97 : sliceFrom (dot11.Payload.drop 8) 97 = none :=
        if_neg (by rw [List.length_drop]; omega)
      rw [sliceFrom_of_le h8]
      dsimp only
      rw [h97]
      cases sliceTo (dot11.Payload.drop 8) 81 <;> rfl
    · have hnone : sliceFrom dot11.Payload 8 = none := if_neg h8
      rw [hnone]

theorem handleSecondMessage_no_dot11 (packet : Packet) (s : State)
    (hd : packet.dot11 = none) :
    handleSecondMessage packet s = .ok (handleSecondMessage.keyFrame packet s) := by
  unfold handleSecondMessage
  rw [hd]

theorem handleSecondMessage_micData (packet : Packet) (s : State) (dot11 : Dot11)
    (hd : packet.dot11 = some dot11) (hn : 97 ≤ (dot11.Payload.drop 8).length) :
    ∃ s1, handleSecondMessage packet s = .ok s1 ∧
      s1.micData = (dot11.Payload.drop 8).take 81 ++ List.replicate 16 0 ++
        (dot11.Payload.drop 8).drop 97 := by
  have h105 : 105 ≤ dot11.Payload.length := by
    rw [List.length_drop] at hn; omega
  rw [handleSecondMessage_dot11 packet s dot11 hd, if_pos h105]
  exact ⟨_, rfl, rfl⟩

/-- C5: when the key-exchange representation `P` (the 802.11 payload of message 2 after
its first 8 bytes) has length `n ≥ 97`, `handleSecondMessage` succeeds and leaves in
`micData` a buffer of length exactly `n` whose bytes 81..96 are zero and whose byte at
every other index is the byte of `P` at that index. -/
theorem handleSecondMessage_zeroes_tag (packet : Packet) (s : State) (dot11 : Dot11)
    (hd : packet.dot11 = some dot11) (hn : 97 ≤ (dot11.Payload.drop 8).length) :
    ∃ s1, handleSecondMessage packet s = .ok s1 ∧
      s1.micData.length = (dot11.Payload.drop 8).length ∧
      (∀ i, 81 ≤ i → i ≤ 96 → s1.micData[i]? = some 0) ∧
      (∀ i, i < 81 ∨ 96 < i → s1.micData[i]? = (dot11.Payload.drop 8)[i]?) := by
  obtain ⟨s1, hs1, hmic⟩ := handleSecondMessage_micData packet s dot11 hd hn
  refine ⟨s1, hs1, ?_, ?_, ?_⟩
  · rw [hmic]
    generalize dot11.Payload.drop 8 = P at hn
    simp only [List.length_append, List.length_take, List.length_replicate, List.length_drop]
    omega
  · intro i h81 h96
    have hlen1 : ((dot11.Payload.drop 8).take 81 ++ List.replicate 16 0).length = 97 := by
      simp only [List.length_append, List.length_take, List.length_replicate]
      omega
    have htake : ((dot11.Payload.drop 8).take 81).length = 81 := by
      rw [List.length_take]; omega
    rw [hmic, List.getElem?_append_left (by rw [hlen1]; omega),
      List.getElem?_append_right (by rw [htake]; exact h81), htake,
      List.getElem?_replicate]
    rw [if_pos (by omega)]
  · intro i hi
    have htake : ((dot11.Payload.drop 8).take 81).length = 81 := by
      rw [List.length_take]; omega
    have hlen1 : ((dot11.Payload.drop 8).take 81 ++ List.replicate 16 0).length = 97 := by
      simp only [List.length_append, htake, List.length_replicate]
    rw [hmic]
    rcases hi with hi | hi
    · rw [List.append_assoc, List.getElem?_append_left (by rw [htake]; exact hi),
        List.getElem?_take, if_pos hi]
    · rw [List.getElem?_append_right (by rw [hlen1]; omega), hlen1, List.getElem?_drop]
      congr 1
      omega

theorem handleSecondMessage_zeroes_tag_witness :
    97 ≤ ((List.replicate 8 170 ++ List.range 200).drop 8).length ∧
    ∃ s1, handleSecondMessage
        ⟨some ⟨[], [], List.replicate 8 170 ++ List.range 200⟩, none⟩ State.initial = .ok s1 ∧
      s1.micData.length =
        ((List.replicate 8 170 ++ List.range 200).drop 8).length ∧
      (∀ i, 81 ≤ i → i ≤ 96 → s1.micData[i]? = some 0) ∧
      (∀ i, i < 81 ∨ 96 < i →
        s1.micData[i]? = ((List.replicate 8 170 ++ List.range 200).drop 8)[i]?) :=
  ⟨by simp, handleSecondMessage_zeroes_tag
    ⟨some ⟨[], [], List.replicate 8 170 ++ List.range 200⟩, none⟩ State.initial
    ⟨[], [], List.replicate 8 170 ++ List.range 200⟩ rfl (by simp)⟩

/-! ## The cracking loop -/

theorem PRFX_512 (hmac : List Nat → List Nat → List Nat)
    (hlen : ∀ k d, (hmac k d).length = 20) (key a b : List Nat) :
    ∃ ptk, PRFX hmac key a b 512 = some ptk ∧ ptk.length = 64 := by
  have hx : ((512 : Nat) : Int) + 159 ≤ maxInt := by decide
  have hin := PRFX.slice_in_range hmac hlen key a b 512
  refine ⟨_, (PRFX_natCast hmac key a b 512 hx).trans (sliceTo_of_le hin), ?_⟩
  rw [List.length_take]
  exact min_eq_left hin

theorem isReportLine_correctLine (p : String) : isReportLine (correctLine p) = true := by
  simp [isReportLine, correctLine, String.data_append, List.append_assoc]

theorem correctLine_injective {p q : String} (h : correctLine p = correctLine q) : p = q := by
  have hd := congrArg String.data h
  simp only [correctLine, String.data_append, List.append_assoc] at hd
  have h1 := List.append_cancel_left hd
  have h2 := List.append_cancel_right h1
  exact String.ext h2

theorem isReportLine_of_head {line : String} {c : Char} {cs : List Char}
    (h : line.data = c :: cs) (hc : c ≠ 'C') : isReportLine line = false := by
  unfold isReportLine
  rw [decide_eq_false_iff_not, h]
  rintro ⟨t, ht⟩
  have hh : "Correct Password: ".data = 'C' :: "orrect Password: ".data := rfl
  rw [hh, List.cons_append, List.cons.injEq] at ht
  exact hc ht.1.symm

theorem isReportLine_of_second {line : String} {c : Char} {cs : List Char}
    (h : line.data = 'C' :: c :: cs) (hc : c ≠ 'o') : isReportLine line = false := by
  unfold isReportLine
  rw [decide_eq_false_iff_not, h]
  rintro ⟨t, ht⟩
  have hh : "Correct Password: ".data = 'C' :: 'o' :: "rrect Password: ".data := rfl
  rw [hh, List.cons_append, List.cons_append, List.cons.injEq, List.cons.injEq] at ht
  exact hc ht.2.1.symm

theorem verboseLines_not_report (s : State) (password : String) (pmk ptk : List Nat) :
    ∀ l ∈ verboseLines s password pmk ptk, isReportLine l = false := by
  intro l hl
  unfold verboseLines at hl
  split at hl
  · simp only [List.mem_cons, List.mem_singleton, List.not_mem_nil, or_false] at hl
    rcases hl with h | h | h | h | h | h | h | h <;> subst h
    · exact @isReportLine_of_head _ 'A' (("Nonce: " ++ hex s.ANonce ++ " \n").data)
        (by simp [String.data_append]) (by decide)
    · exact @isReportLine_of_head _ 'S' (("Nonce: " ++ hex s.SNonce ++ " \n").data)
        (by simp [String.data_append]) (by decide)
    · exact @isReportLine_of_head _ 'A' (("P-MAC Address: " ++ hex s.APMac ++ "\n").data)
        (by simp [String.data_append]) (by decide)
    · exact @isReportLine_of_second _ 'l' (("ient-MAC Address: " ++ hex s.ClientMac ++ "\n").data)
        (by simp [String.data_append]) (by decide)
    · exact @isReportLine_of_head _ '\n' ([]) rfl (by decide)
    · exact @isReportLine_of_head _ 'P' (("assword: " ++ password ++ "\n").data)
        (by simp [String.data_append]) (by decide)
    · exact @isReportLine_of_head _ 'P' (("MK: " ++ hex pmk ++ "\n").data)
        (by simp [String.data_append]) (by decide)
    · exact @isReportLine_of_head _ 'P' (("TK: " ++ hex ptk ++ "\n").data)
        (by simp [String.data_append]) (by decide)
  · simp at hl

theorem filter_isReportLine_eq_nil {out : List String}
    (h : ∀ l ∈ out, isReportLine l = false) : out.filter isReportLine = [] := by
  rw [List.filter_eq_nil_iff]
  intro l hl
  rw [h l hl]
  exact Bool.false_ne_true

/-- One iteration of the cracking loop under the HMAC size of 20 bytes: no slice fails, the
diagnostics `out` contain no report, and the loop stops after the report exactly when the
comparison of line 234 succeeds. -/
theorem main.loop_cons (hmac : List Nat → List Nat → List Nat)
    (hlen : ∀ k d, (hmac k d).length = 20) (s : State) (w : String) (ws : List String) :
    ∃ out : List String, (∀ l ∈ out, isReportLine l = false) ∧
      main.loop hmac s (w :: ws) =
        if micMatches hmac s w = true then
          { stdout := out ++ [correctLine w], evaluated := [w], exit := .returned }
        else Run.after out [w] (main.loop hmac s ws) := by
  have hpmk := generatePMKFromPassphrase_some hmac hlen s.ssid w
  obtain ⟨ptk, hptk, hptkLen⟩ := PRFX_512 hmac hlen
    (pbkdf2Key hmac (stringBytes w) s.ssid 4096 32) (stringBytes "Pairwise key expansion")
    (generateB s.APMac s.ClientMac s.ANonce s.SNonce)
  have hkck : sliceTo ptk 16 = some (ptk.take 16) :=
    sliceTo_of_le (by rw [hptkLen]; decide)
  have hmic : sliceTo (hmac (ptk.take 16) s.micData) 16 =
      some ((hmac (ptk.take 16) s.micData).take 16) :=
    sliceTo_of_le (by rw [hlen]; decide)
  refine ⟨verboseLines s w (pbkdf2Key hmac (stringBytes w) s.ssid 4096 32) ptk,
    verboseLines_not_report s w _ ptk, ?_⟩
  rw [main.loop, hpmk]
  dsimp only
  rw [hptk]
  dsimp only
  rw [hkck]
  dsimp only
  rw [hmic]
  dsimp only
  rw [micMatches, hpmk]
  dsimp only
  rw [hptk]
  dsimp only
  simp only [bytesCompare_eq_zero_iff, decide_eq_true_eq]

/-- What the cracking loop leaves behind, under the HMAC size of 20 bytes: the reports in
its output, the lines it evaluated, and its return. -/
theorem main.loop_spec (hmac : List Nat → List Nat → List Nat)
    (hlen : ∀ k d, (hmac k d).length = 20) (s : State) :
    ∀ ws : List String,
      (main.loop hmac s ws).stdout.filter isReportLine =
          ((ws.find? (micMatches hmac s)).map correctLine).toList ∧
        (main.loop hmac s ws).evaluated =
          ws.takeWhile (fun w => !micMatches hmac s w) ++
            (ws.find? (micMatches hmac s)).toList ∧
        (main.loop hmac s ws).exit = .returned
  | [] => by simp [main.loop]
  | w :: ws => by
    obtain ⟨out, hout, heq⟩ := main.loop_cons hmac hlen s w ws
    obtain ⟨ih1, ih2, ih3⟩ := main.loop_spec hmac hlen s ws
    rw [heq]
    by_cases hm : micMatches hmac s w = true
    · simp [hm, List.filter_append, filter_isReportLine_eq_nil hout,
        isReportLine_correctLine]
    · simp only [Bool.not_eq_true] at hm
      simp [hm, Run.after, List.filter_append, filter_isReportLine_eq_nil hout, ih1, ih2, ih3]

/-- The first element satisfying `m`, found by position: everything before position `i`
fails `m` and the element at position `i` satisfies it. -/
theorem find_first_at {α : Type} (m : α → Bool) :
    ∀ (ws : List α) (i : Nat) (p : α), ws[i]? = some p → m p = true →
      (∀ j, j < i → ∀ q, ws[j]? = some q → m q = false) →
      ws.find? m = some p ∧ ws.takeWhile (fun w => !m w) = ws.take i
  | [], i, p, hi, _, _ => by simp at hi
  | w :: ws, 0, p, hi, hp, _ => by
    simp only [List.getElem?_cons_zero, Option.some.injEq] at hi
    subst hi
    simp [List.find?, List.takeWhile, hp]
  | w :: ws, i + 1, p, hi, hp, hbefore => by
    have hw : m w = false := hbefore 0 (Nat.succ_pos i) w (by simp)
    have ih := find_first_at m ws i p (by simpa using hi) hp
      (fun j hj q hq => hbefore (j + 1) (Nat.succ_lt_succ hj) q (by simpa using hq))
    simp [List.find?, List.takeWhile, hw, ih.1, ih.2]

/-- C1: under the HMAC size of 20 bytes, for every state left by the extraction and every
wordlist, the cracking loop writes `Correct Password: p` if and only if `p` is the
earliest line whose computed tag matches `firstMIC`; its output holds at most one
report; and the lines it evaluates are those before the first match followed by the first
match itself, so no line after the first match is evaluated: when the line at position
`i` is the first to match, the evaluated lines are the first `i + 1` lines and the only
report is that of line `i`. -/
theorem main.loop_first_match (hmac : List Nat → List Nat → List Nat)
    (hlen : ∀ k d, (hmac k d).length = 20) (s : State) (ws : List String) :
    (∀ p, correctLine p ∈ (main.loop hmac s ws).stdout ↔
        ws.find? (micMatches hmac s) = some p) ∧
      ((main.loop hmac s ws).stdout.filter isReportLine).length ≤ 1 ∧
      (main.loop hmac s ws).evaluated =
        ws.takeWhile (fun w => !micMatches hmac s w) ++
          (ws.find? (micMatches hmac s)).toList ∧
      (∀ i p, ws[i]? = some p → micMatches hmac s p = true →
        (∀ j, j < i → ∀ q, ws[j]? = some q → micMatches hmac s q = false) →
        (main.loop hmac s ws).evaluated = ws.take (i + 1) ∧
          (main.loop hmac s ws).stdout.filter isReportLine = [correctLine p]) := by
  obtain ⟨h1, h2, _⟩ := main.loop_spec hmac hlen s ws
  refine ⟨fun p => ?_, ?_, h2, fun i p hi hp hbefore => ?_⟩
  · have hmem : correctLine p ∈ (main.loop hmac s ws).stdout ↔
        correctLine p ∈ (main.loop hmac s ws).stdout.filter isReportLine := by
      rw [List.mem_filter]
      exact ⟨fun h => ⟨h, isReportLine_correctLine p⟩, fun h => h.1⟩
    rw [hmem, h1]
    cases hf : ws.find? (micMatches hmac s) with
    | none => simp
    | some q =>
      simp only [Option.map_some', Option.toList_some, List.mem_singleton, Option.some.injEq]
      exact ⟨fun h => (correctLine_injective h).symm, fun h => by rw [h]⟩
  · rw [h1]
    cases ws.find? (micMatches hmac s) <;> simp
  · obtain ⟨hf, ht⟩ := find_first_at (micMatches hmac s) ws i p hi hp hbefore
    rw [h1, h2, hf, ht, List.take_succ, hi]
    exact ⟨rfl, rfl⟩

theorem main.loop_first_match_witness :
    (∀ k d, (sumMac k d).length = 20) ∧
      (∀ p, correctLine p ∈
          (main.loop sumMac State.initial ["password", "12345678", "letmein!"]).stdout ↔
        ["password", "12345678", "letmein!"].find? (micMatches sumMac State.initial) =
          some p) ∧
      ((main.loop sumMac State.initial ["password", "12345678", "letmein!"]).stdout.filter
        isReportLine).length ≤ 1 ∧
      (main.loop sumMac State.initial ["password", "12345678", "letmein!"]).evaluated =
        ["password", "12345678", "letmein!"].takeWhile
            (fun w => !micMatches sumMac State.initial w) ++
          (["password", "12345678", "letmein!"].find?
            (micMatches sumMac State.initial)).toList :=
  ⟨sumMac_length,
    (main.loop_first_match sumMac sumMac_length State.initial
      ["password", "12345678", "letmein!"]).1,
    (main.loop_first_match sumMac sumMac_length State.initial
      ["password", "12345678", "letmein!"]).2.1,
    (main.loop_first_match sumMac sumMac_length State.initial
      ["password", "12345678", "letmein!"]).2.2.1⟩

/-- The comparison made for one wordlist line, under the HMAC size of 20 bytes: the tag is
keyed with the first 16 bytes of the HMAC block with counter 0. -/
theorem micMatches_iff (hmac : List Nat → List Nat → List Nat)
    (hlen : ∀ k d, (hmac k d).length = 20) (s : State) (password : String) :
    micMatches hmac s password = true ↔
      (hmac ((hmac (pbkdf2Key hmac (stringBytes password) s.ssid 4096 32)
        (stringBytes "Pairwise key expansion" ++ [0x00] ++
          generateB s.APMac s.ClientMac s.ANonce s.SNonce ++ [0x00])).take 16)
        s.micData).take 16 = s.firstMIC := by
  have hpmk := generatePMKFromPassphrase_some hmac hlen s.ssid password
  obtain ⟨ptk, hptk, _, _, hptkLen, hkck⟩ := PRFX_512_blocks hmac hlen
    (pbkdf2Key hmac (stringBytes password) s.ssid 4096 32) s.APMac s.ClientMac s.ANonce
    s.SNonce
  have htake : ptk.take 16 = (hmac (pbkdf2Key hmac (stringBytes password) s.ssid 4096 32)
      (stringBytes "Pairwise key expansion" ++ [0x00] ++
        generateB s.APMac s.ClientMac s.ANonce s.SNonce ++ [0x00])).take 16 := by
    rw [sliceTo_of_le (by rw [hptkLen]; decide), Option.some.injEq] at hkck
    exact hkck
  rw [micMatches, hpmk]
  dsimp only
  rw [hptk]
  dsimp only
  rw [decide_eq_true_eq, htake]

theorem handleFirstMessage_ANonce (packet : Packet) (s : State) :
    (handleFirstMessage packet s).ANonce =
      match packet.eapolKey with
      | some eapol => eapol.Nonce
      | none => s.ANonce := by
  unfold handleFirstMessage
  cases packet.dot11 <;> cases packet.eapolKey <;> rfl

theorem verbosePrint_ANonce (s : State) (text : String) :
    (s.verbosePrint text).ANonce = s.ANonce := by
  unfold State.verbosePrint
  split <;> rfl

theorem handleSecondMessage.keyFrame_ANonce (packet : Packet) (s : State) :
    (handleSecondMessage.keyFrame packet s).ANonce = s.ANonce := by
  unfold handleSecondMessage.keyFrame
  cases packet.eapolKey with
  | none => rfl
  | some e => exact verbosePrint_ANonce _ _

/-- The handler `handleSecondMessage` succeeds exactly when the frame has no 802.11 layer or
its 802.11 payload has at least 105 bytes. -/
theorem handleSecondMessage_ok_iff (packet : Packet) (s : State) :
    (∃ s2, handleSecondMessage packet s = .ok s2) ↔
      ∀ d, packet.dot11 = some d → 105 ≤ d.Payload.length := by
  cases hd : packet.dot11 with
  | none =>
    rw [handleSecondMessage_no_dot11 packet s hd]
    exact ⟨fun _ d hd2 => Option.noConfusion hd2, fun _ => ⟨_, rfl⟩⟩
  | some d =>
    rw [handleSecondMessage_dot11 packet s d hd]
    by_cases h105 : 105 ≤ d.Payload.length
    · rw [if_pos h105]
      refine ⟨fun _ d2 hd2 => ?_, fun _ => ⟨_, rfl⟩⟩
      rw [Option.some.injEq] at hd2
      rw [← hd2]
      exact h105
    · rw [if_neg h105]
      refine ⟨fun h => ?_, fun h => absurd (h d rfl) h105⟩
      obtain ⟨s2, hs2⟩ := h
      exact Except.noConfusion hs2

/-- The handler `handleSecondMessage` never changes `ANonce`. -/
theorem handleSecondMessage_ANonce (packet : Packet) (s s2 : State)
    (h : handleSecondMessage packet s = .ok s2) : s2.ANonce = s.ANonce := by
  cases hd : packet.dot11 with
  | none =>
    rw [handleSecondMessage_no_dot11 packet s hd, Except.ok.injEq] at h
    rw [← h]
    exact handleSecondMessage.keyFrame_ANonce packet s
  | some d =>
    rw [handleSecondMessage_dot11 packet s d hd] at h
    by_cases h105 : 105 ≤ d.Payload.length
    · rw [if_pos h105, Except.ok.injEq] at h
      rw [← h]
      exact handleSecondMessage.keyFrame_ANonce packet s
    · rw [if_neg h105] at h
      exact Except.noConfusion h

theorem handleThirdMessage_eq (packet : Packet) (s : State) (eapol : EAPOLKey)
    (h3 : packet.eapolKey = some eapol) :
    handleThirdMessage packet s =
      if eapol.Nonce = s.ANonce then
        .ok (s.verbosePrint ("2. MIC: " ++ hex eapol.MIC ++ " \n"))
      else .error (nonceMismatchMsg, s) := by
  unfold handleThirdMessage
  rw [h3]
  by_cases h : eapol.Nonce = s.ANonce <;> simp [h]

theorem handleThirdMessage_none (packet : Packet) (s : State) (h3 : packet.eapolKey = none) :
    handleThirdMessage packet s = .ok s := by
  unfold handleThirdMessage
  rw [h3]

theorem main.handshake_four (s : State) (packet1 packet2 packet3 packet4 : Packet)
    (more : List Packet) :
    main.handshake s (packet1 :: packet2 :: packet3 :: packet4 :: more) =
      match handleSecondMessage packet2 (handleFirstMessage packet1 s) with
      | .error p => .error p
      | .ok s2 =>
        match handleThirdMessage packet3 s2 with
        | .error p => .error p
        | .ok s3 => .ok (handleFourthMessage packet4 s3) := by
  simp only [main.handshake]

/-- Four frames are extracted without a fatal error exactly when the 802.11 payload of
message 2, if the layer is present, has at least 105 bytes and the nonce of message 3, if
the layer is present, is the recorded `ANonce`. -/
theorem main.handshake_ok (s : State) (packet1 packet2 packet3 packet4 : Packet)
    (more : List Packet) :
    (∃ s4, main.handshake s (packet1 :: packet2 :: packet3 :: packet4 :: more) = .ok s4) ↔
      (∀ d, packet2.dot11 = some d → 105 ≤ d.Payload.length) ∧
        (∀ e, packet3.eapolKey = some e → e.Nonce = (handleFirstMessage packet1 s).ANonce) := by
  rw [main.handshake_four, ← handleSecondMessage_ok_iff packet2 (handleFirstMessage packet1 s)]
  cases h2 : handleSecondMessage packet2 (handleFirstMessage packet1 s) with
  | error p =>
    exact ⟨fun ⟨_, h⟩ => Except.noConfusion h, fun ⟨⟨_, h⟩, _⟩ => Except.noConfusion h⟩
  | ok s2 =>
    dsimp only
    have hA := handleSecondMessage_ANonce packet2 _ s2 h2
    cases h3 : packet3.eapolKey with
    | none =>
      rw [handleThirdMessage_none packet3 s2 h3]
      exact ⟨fun _ => ⟨⟨s2, rfl⟩, fun e he => Option.noConfusion he⟩, fun _ => ⟨_, rfl⟩⟩
    | some e =>
      rw [handleThirdMessage_eq packet3 s2 e h3, hA]
      by_cases hn : e.Nonce = (handleFirstMessage packet1 s).ANonce
      · rw [if_pos hn]
        refine ⟨fun _ => ⟨⟨s2, rfl⟩, fun e2 he2 => ?_⟩, fun _ => ⟨_, rfl⟩⟩
        rw [Option.some.injEq] at he2
        rw [← he2]
        exact hn
      · rw [if_neg hn]
        exact ⟨fun ⟨_, h⟩ => Except.noConfusion h, fun ⟨_, h⟩ => absurd (h e rfl) hn⟩

theorem main_of_handshake_ok (hmac : List Nat → List Nat → List Nat) (ssidString : String)
    (verboseFlag : Bool) (packets : List Packet) (lines : List String) (s4 : State)
    (hssid : (trimSpace ssidString).length ≠ 0)
    (h : main.handshake (State.start ssidString verboseFlag) packets = .ok s4) :
    main hmac ssidString verboseFlag (.ok packets) (.ok lines) =
      Run.after s4.stdout [] (main.loop hmac s4 lines) := by
  unfold main
  rw [if_neg hssid]
  dsimp only
  rw [h]

theorem main_of_handshake_error (hmac : List Nat → List Nat → List Nat) (ssidString : String)
    (verboseFlag : Bool) (packets : List Packet) (wordFile : Except String (List String))
    (p : Panic) (h : main.handshake (State.start ssidString verboseFlag) packets = .error p) :
    (main hmac ssidString verboseFlag (.ok packets) wordFile).evaluated = [] ∧
      (main hmac ssidString verboseFlag (.ok packets) wordFile).exit ≠ .returned ∧
      ((trimSpace ssidString).length ≠ 0 → ∀ lines, wordFile = .ok lines →
        (main hmac ssidString verboseFlag (.ok packets) wordFile).exit = .panicked p.1) := by
  unfold main
  by_cases hssid : (trimSpace ssidString).length = 0
  · rw [if_pos hssid]
    exact ⟨rfl, fun hh => Exit.noConfusion hh, fun hc => absurd hssid hc⟩
  · rw [if_neg hssid]
    dsimp only
    cases wordFile with
    | error err =>
      exact ⟨rfl, fun hh => Exit.noConfusion hh, fun _ lines hl => Except.noConfusion hl⟩
    | ok lines =>
      dsimp only
      rw [h]
      exact ⟨rfl, fun hh => Exit.noConfusion hh, fun _ _ _ => rfl⟩

/-- A frame whose 802.11 payload has under 105 bytes stops the extraction in
`handleSecondMessage`, with the panic of an out-of-range slice. -/
theorem main.handshake_short_second (s : State) (packet1 packet2 packet3 packet4 : Packet)
    (more : List Packet) (d : Dot11) (hd : packet2.dot11 = some d)
    (hshort : ¬ 105 ≤ d.Payload.length) :
    main.handshake s (packet1 :: packet2 :: packet3 :: packet4 :: more) =
      .error (sliceBoundsMsg,
        handleSecondMessage.keyFrame packet2 (handleFirstMessage packet1 s)) := by
  rw [main.handshake_four, handleSecondMessage_dot11 packet2 _ d hd, if_neg hshort]

/-- C9 (as amended): a message 3 whose key-exchange nonce differs from `ANonce` makes
`handleThirdMessage` panic, and one whose nonce equals `ANonce` does not. For every capture
of four frames in which the nonce of message 3 differs from the nonce recorded from
message 1 the extraction ends in a panic, the run does not end normally and no wordlist
line is evaluated. The panic is the one of `handleThirdMessage` when `handleSecondMessage`
has returned, that is, when message 2 has no 802.11 layer or an 802.11 payload of at least
105 bytes; otherwise it is the slice panic of `handleSecondMessage`. -/
theorem handleThirdMessage_nonce_check (hmac : List Nat → List Nat → List Nat)
    (ssidString : String) (verboseFlag : Bool) (wordFile : Except String (List String))
    (packet1 packet2 packet3 packet4 : Packet) (more : List Packet) (eapol : EAPOLKey)
    (h3 : packet3.eapolKey = some eapol) :
    (∀ s : State, eapol.Nonce = s.ANonce → ∃ s3, handleThirdMessage packet3 s = .ok s3) ∧
      (∀ s : State, eapol.Nonce ≠ s.ANonce →
        handleThirdMessage packet3 s = .error (nonceMismatchMsg, s)) ∧
      (eapol.Nonce ≠ (handleFirstMessage packet1 State.initial).ANonce →
        (∃ p, main.handshake (State.start ssidString verboseFlag)
          (packet1 :: packet2 :: packet3 :: packet4 :: more) = .error p) ∧
        ((∀ d, packet2.dot11 = some d → 105 ≤ d.Payload.length) →
          ∃ s2, handleSecondMessage packet2
              (handleFirstMessage packet1 (State.start ssidString verboseFlag)) = .ok s2 ∧
            main.handshake (State.start ssidString verboseFlag)
              (packet1 :: packet2 :: packet3 :: packet4 :: more) =
                .error (nonceMismatchMsg, s2) ∧
            ((trimSpace ssidString).length ≠ 0 → ∀ lines, wordFile = .ok lines →
              (main hmac ssidString verboseFlag
                (.ok (packet1 :: packet2 :: packet3 :: packet4 :: more)) wordFile).exit =
                  .panicked nonceMismatchMsg)) ∧
        (∀ d, packet2.dot11 = some d → ¬ 105 ≤ d.Payload.length →
          main.handshake (State.start ssidString verboseFlag)
              (packet1 :: packet2 :: packet3 :: packet4 :: more) =
            .error (sliceBoundsMsg, handleSecondMessage.keyFrame packet2
              (handleFirstMessage packet1 (State.start ssidString verboseFlag))) ∧
          ((trimSpace ssidString).length ≠ 0 → ∀ lines, wordFile = .ok lines →
            (main hmac ssidString verboseFlag
              (.ok (packet1 :: packet2 :: packet3 :: packet4 :: more)) wordFile).exit =
                .panicked sliceBoundsMsg)) ∧
        (main hmac ssidString verboseFlag
          (.ok (packet1 :: packet2 :: packet3 :: packet4 :: more)) wordFile).evaluated = [] ∧
        (main hmac ssidString verboseFlag
          (.ok (packet1 :: packet2 :: packet3 :: packet4 :: more)) wordFile).exit ≠
            .returned) := by
  refine ⟨fun s hs => ?_, fun s hs => ?_, fun hne => ?_⟩
  · rw [handleThirdMessage_eq packet3 s eapol h3, if_pos hs]
    exact ⟨_, rfl⟩
  · rw [handleThirdMessage_eq packet3 s eapol h3, if_neg hs]
  · have hrec : (handleFirstMessage packet1 (State.start ssidString verboseFlag)).ANonce =
        (handleFirstMessage packet1 State.initial).ANonce := by
      rw [handleFirstMessage_ANonce, handleFirstMessage_ANonce]
      rfl
    have hsnd : ∀ s2, handleSecondMessage packet2
          (handleFirstMessage packet1 (State.start ssidString verboseFlag)) = .ok s2 →
        main.handshake (State.start ssidString verboseFlag)
          (packet1 :: packet2 :: packet3 :: packet4 :: more) =
            .error (nonceMismatchMsg, s2) := by
      intro s2 h2
      have hA := handleSecondMessage_ANonce packet2 _ s2 h2
      rw [main.handshake_four, h2]
      dsimp only
      rw [handleThirdMessage_eq packet3 s2 eapol h3, if_neg (by rw [hA, hrec]; exact hne)]
    have herr : ∃ p, main.handshake (State.start ssidString verboseFlag)
        (packet1 :: packet2 :: packet3 :: packet4 :: more) = .error p := by
      cases h2 : handleSecondMessage packet2
          (handleFirstMessage packet1 (State.start ssidString verboseFlag)) with
      | error p => exact ⟨p, by rw [main.handshake_four, h2]⟩
      | ok s2 => exact ⟨_, hsnd s2 h2⟩
    obtain ⟨p, hp⟩ := herr
    have hmain := main_of_handshake_error hmac ssidString verboseFlag _ wordFile p hp
    refine ⟨⟨p, hp⟩, fun hlong => ?_, fun d hd hshort => ?_, hmain.1, hmain.2.1⟩
    · obtain ⟨s2, h2⟩ := (handleSecondMessage_ok_iff packet2
        (handleFirstMessage packet1 (State.start ssidString verboseFlag))).mpr hlong
      exact ⟨s2, h2, hsnd s2 h2,
        (main_of_handshake_error hmac ssidString verboseFlag _ wordFile _ (hsnd s2 h2)).2.2⟩
    · have hs := main.handshake_short_second (State.start ssidString verboseFlag) packet1
        packet2 packet3 packet4 more d hd hshort
      exact ⟨hs, (main_of_handshake_error hmac ssidString verboseFlag _ wordFile _ hs).2.2⟩

theorem handleThirdMessage_nonce_check_witness :
    (⟨none, some ⟨List.replicate 32 2, List.replicate 16 0⟩⟩ : Packet).eapolKey =
        some ⟨List.replicate 32 2, List.replicate 16 0⟩ ∧
      (⟨List.replicate 32 2, List.replicate 16 0⟩ : EAPOLKey).Nonce ≠
        (handleFirstMessage ⟨none, some ⟨List.replicate 32 1, []⟩⟩ State.initial).ANonce ∧
      (∀ d, (⟨some ⟨[], [], List.replicate 105 0⟩, none⟩ : Packet).dot11 = some d →
        105 ≤ d.Payload.length) ∧
      (trimSpace "net").length ≠ 0 ∧
      (main sumMac "net" false
        (.ok [⟨none, some ⟨List.replicate 32 1, []⟩⟩,
          ⟨some ⟨[], [], List.replicate 105 0⟩, none⟩,
          ⟨none, some ⟨List.replicate 32 2, List.replicate 16 0⟩⟩, ⟨none, none⟩])
        (.ok ["password"])).exit = .panicked nonceMismatchMsg ∧
      (main sumMac "net" false
        (.ok [⟨none, some ⟨List.replicate 32 1, []⟩⟩,
          ⟨some ⟨[], [], List.replicate 105 0⟩, none⟩,
          ⟨none, some ⟨List.replicate 32 2, List.replicate 16 0⟩⟩, ⟨none, none⟩])
        (.ok ["password"])).evaluated = [] :=
  ⟨rfl, by decide, fun d hd => by cases hd; decide, by decide,
    Exists.elim
      (((handleThirdMessage_nonce_check sumMac "net" false (.ok ["password"])
        ⟨none, some ⟨List.replicate 32 1, []⟩⟩ ⟨some ⟨[], [], List.replicate 105 0⟩, none⟩
        ⟨none, some ⟨List.replicate 32 2, List.replicate 16 0⟩⟩ ⟨none, none⟩ []
        ⟨List.replicate 32 2, List.replicate 16 0⟩ rfl).2.2 (by decide)).2.1
          (fun d hd => by cases hd; decide))
      (fun _ h => h.2.2 (by decide) ["password"] rfl),
    ((handleThirdMessage_nonce_check sumMac "net" false (.ok ["password"])
      ⟨none, some ⟨List.replicate 32 1, []⟩⟩ ⟨some ⟨[], [], List.replicate 105 0⟩, none⟩
      ⟨none, some ⟨List.replicate 32 2, List.replicate 16 0⟩⟩ ⟨none, none⟩ []
      ⟨List.replicate 32 2, List.replicate 16 0⟩ rfl).2.2 (by decide)).2.2.2.1⟩

/-- C9 (counterexample): in this capture of four frames the nonce of message 3 differs
from the nonce recorded from message 1, and message 2 has an 802.11 layer with an empty
payload. The extraction aborts in `handleSecondMessage` with the panic of an out-of-range
slice; `handleThirdMessage` is not reached and its panic is not raised. -/
theorem nonce_mismatch_aborts_in_second_handler :
    (⟨List.replicate 32 2, List.replicate 16 0⟩ : EAPOLKey).Nonce ≠
        (handleFirstMessage ⟨none, some ⟨List.replicate 32 1, []⟩⟩ State.initial).ANonce ∧
      main.handshake (State.start "net" false)
          [⟨none, some ⟨List.replicate 32 1, []⟩⟩, ⟨some ⟨[], [], []⟩, none⟩,
            ⟨none, some ⟨List.replicate 32 2, List.replicate 16 0⟩⟩, ⟨none, none⟩] =
        .error (sliceBoundsMsg, handleSecondMessage.keyFrame ⟨some ⟨[], [], []⟩, none⟩
          (handleFirstMessage ⟨none, some ⟨List.replicate 32 1, []⟩⟩
            (State.start "net" false))) ∧
      (main sumMac "net" false
        (.ok [⟨none, some ⟨List.replicate 32 1, []⟩⟩, ⟨some ⟨[], [], []⟩, none⟩,
          ⟨none, some ⟨List.replicate 32 2, List.replicate 16 0⟩⟩, ⟨none, none⟩])
        (.ok ["password"])).exit = .panicked sliceBoundsMsg ∧
      sliceBoundsMsg ≠ nonceMismatchMsg := by
  have hs := main.handshake_short_second (State.start "net" false)
    ⟨none, some ⟨List.replicate 32 1, []⟩⟩ ⟨some ⟨[], [], []⟩, none⟩
    ⟨none, some ⟨List.replicate 32 2, List.replicate 16 0⟩⟩ ⟨none, none⟩ [] ⟨[], [], []⟩ rfl
    (by decide)
  exact ⟨by decide, hs,
    (main_of_handshake_error sumMac "net" false _ (.ok ["password"]) _ hs).2.2 (by decide)
      ["password"] rfl,
    by decide⟩

/-- C10 (counterexample): four frames without any 802.11 or key-exchange layer are
extracted without a fatal error, all variables keeping their zero values, and the
cracking loop is entered: the wordlist line is evaluated and the run ends normally. -/
theorem missing_layers_not_fatal :
    main.handshake (State.start "net" false)
        [⟨none, none⟩, ⟨none, none⟩, ⟨none, none⟩, ⟨none, none⟩] =
        .ok (State.start "net" false) ∧
      (main sumMac "net" false (.ok [⟨none, none⟩, ⟨none, none⟩, ⟨none, none⟩, ⟨none, none⟩])
        (.ok ["password"])).evaluated = ["password"] ∧
      (main sumMac "net" false (.ok [⟨none, none⟩, ⟨none, none⟩, ⟨none, none⟩, ⟨none, none⟩])
        (.ok ["password"])).exit = .returned := by
  have hs : main.handshake (State.start "net" false)
      [⟨none, none⟩, ⟨none, none⟩, ⟨none, none⟩, ⟨none, none⟩] =
      .ok (State.start "net" false) := rfl
  have hm := main_of_handshake_ok sumMac "net" false _ ["password"] _ (by decide) hs
  obtain ⟨_, h2, h3⟩ := main.loop_spec sumMac sumMac_length (State.start "net" false)
    ["password"]
  refine ⟨hs, ?_, ?_⟩
  · rw [hm]
    simp only [Run.after, List.nil_append, h2]
    cases hmm : micMatches sumMac (State.start "net" false) "password" <;>
      simp [List.takeWhile, List.find?, hmm]
  · rw [hm]
    simp only [Run.after]
    exact h3

/-- C10 (as amended): a frame that lacks an expected layer is skipped and is not a fatal
error. A handler leaves the variables of an absent layer unchanged and returns; four
frames are extracted without a fatal error exactly when the 802.11 payload of message 2,
where that layer is present, has at least 105 bytes and the nonce of message 3, where its
key-exchange layer is present, equals the recorded `ANonce`; and after such an extraction
`main`, given a non-blank network identifier and a readable wordlist, enters the cracking
loop. -/
theorem main.handshake_skips_missing_layers (s : State)
    (packet1 packet2 packet3 packet4 : Packet) (more : List Packet) :
    ((∃ s4, main.handshake s (packet1 :: packet2 :: packet3 :: packet4 :: more) = .ok s4) ↔
        (∀ d, packet2.dot11 = some d → 105 ≤ d.Payload.length) ∧
          (∀ e, packet3.eapolKey = some e →
            e.Nonce = (handleFirstMessage packet1 s).ANonce)) ∧
      (packet1.dot11 = none → (handleFirstMessage packet1 s).APMac = s.APMac ∧
        (handleFirstMessage packet1 s).ClientMac = s.ClientMac) ∧
      (packet1.eapolKey = none → (handleFirstMessage packet1 s).ANonce = s.ANonce) ∧
      (packet2.eapolKey = none → handleSecondMessage.keyFrame packet2 s = s) ∧
      (packet2.dot11 = none →
        handleSecondMessage packet2 s = .ok (handleSecondMessage.keyFrame packet2 s)) ∧
      (packet3.eapolKey = none → handleThirdMessage packet3 s = .ok s) ∧
      (∀ (hmac : List Nat → List Nat → List Nat) (ssidString : String) (verboseFlag : Bool)
          (lines : List String) (s4 : State),
        (trimSpace ssidString).length ≠ 0 →
        main.handshake (State.start ssidString verboseFlag)
          (packet1 :: packet2 :: packet3 :: packet4 :: more) = .ok s4 →
        main hmac ssidString verboseFlag
            (.ok (packet1 :: packet2 :: packet3 :: packet4 :: more)) (.ok lines) =
          Run.after s4.stdout [] (main.loop hmac s4 lines)) := by
  refine ⟨main.handshake_ok s packet1 packet2 packet3 packet4 more, ?_, ?_, ?_,
    handleSecondMessage_no_dot11 packet2 s, handleThirdMessage_none packet3 s, ?_⟩
  · intro h
    unfold handleFirstMessage
    rw [h]
    cases packet1.eapolKey <;> exact ⟨rfl, rfl⟩
  · intro h
    rw [handleFirstMessage_ANonce, h]
  · intro h
    unfold handleSecondMessage.keyFrame
    rw [h]
  · intro hmac ssidString verboseFlag lines s4 hssid h
    exact main_of_handshake_ok hmac ssidString verboseFlag _ lines s4 hssid h

theorem main.handshake_skips_missing_layers_witness :
    (⟨none, none⟩ : Packet).dot11 = none ∧ (⟨none, none⟩ : Packet).eapolKey = none ∧
      (handleFirstMessage ⟨none, none⟩ State.initial).APMac = State.initial.APMac ∧
      (handleFirstMessage ⟨none, none⟩ State.initial).ClientMac = State.initial.ClientMac ∧
      (handleFirstMessage ⟨none, none⟩ State.initial).ANonce = State.initial.ANonce ∧
      handleSecondMessage ⟨none, none⟩ State.initial =
        .ok (handleSecondMessage.keyFrame ⟨none, none⟩ State.initial) ∧
      handleThirdMessage ⟨none, none⟩ State.initial = .ok State.initial :=
  ⟨rfl, rfl,
    ((main.handshake_skips_missing_layers State.initial ⟨none, none⟩ ⟨none, none⟩
      ⟨none, none⟩ ⟨none, none⟩ []).2.1 rfl).1,
    ((main.handshake_skips_missing_layers State.initial ⟨none, none⟩ ⟨none, none⟩
      ⟨none, none⟩ ⟨none, none⟩ []).2.1 rfl).2,
    (main.handshake_skips_missing_layers State.initial ⟨none, none⟩ ⟨none, none⟩
      ⟨none, none⟩ ⟨none, none⟩ []).2.2.1 rfl,
    (main.handshake_skips_missing_layers State.initial ⟨none, none⟩ ⟨none, none⟩
      ⟨none, none⟩ ⟨none, none⟩ []).2.2.2.2.1 rfl,
    (main.handshake_skips_missing_layers State.initial ⟨none, none⟩ ⟨none, none⟩
      ⟨none, none⟩ ⟨none, none⟩ []).2.2.2.2.2.1 rfl⟩

/-! ## Prefixes of the pseudo-random function -/

theorem PRFX.loop_prefix (hmac : List Nat → List Nat → List Nat) (key a b : List Nat)
    {n m : Nat} (hnm : n ≤ m) :
    PRFX.loop hmac key a b n 0 [] <+: PRFX.loop hmac key a b m 0 [] := by
  obtain ⟨d, rfl⟩ : ∃ d, m = d + n := ⟨m - n, by omega⟩
  rw [PRFX.loop_eq, PRFX.loop_eq, List.nil_append, List.nil_append,
    ← List.range'_append_1 0 n d, List.map_append, List.flatten_append]
  exact List.prefix_append _ _

/-- C17 (as amended): for bit counts `x1 ≤ x2` with `x2 + 159` not above the largest `int`,
both calls of `PRFX` return and the result for `x1` is a prefix of the result for `x2`. -/
theorem PRFX_prefix (hmac : List Nat → List Nat → List Nat)
    (hlen : ∀ k d, (hmac k d).length = 20) (key a b : List Nat) (x1 x2 : Nat)
    (h12 : x1 ≤ x2) (hx : (x2 : Int) + 159 ≤ maxInt) :
    ∃ r1 r2, PRFX hmac key a b (x1 : Int) = some r1 ∧
      PRFX hmac key a b (x2 : Int) = some r2 ∧ r1 <+: r2 := by
  have hx1 : (x1 : Int) + 159 ≤ maxInt := by omega
  have hin1 := PRFX.slice_in_range hmac hlen key a b x1
  have hin2 := PRFX.slice_in_range hmac hlen key a b x2
  refine ⟨_, _, (PRFX_natCast hmac key a b x1 hx1).trans (sliceTo_of_le hin1),
    (PRFX_natCast hmac key a b x2 hx).trans (sliceTo_of_le hin2), ?_⟩
  obtain ⟨t, ht⟩ := PRFX.loop_prefix hmac key a b
    (show (x1 + 159) / 160 ≤ (x2 + 159) / 160 by omega)
  have h1 : (PRFX.loop hmac key a b ((x1 + 159) / 160) 0 []).take (x1 / 8) =
      (PRFX.loop hmac key a b ((x2 + 159) / 160) 0 []).take (x1 / 8) := by
    rw [← ht, List.take_append_of_le_length hin1]
  rw [h1]
  exact List.take_prefix_take_left _ (by omega)

theorem PRFX_prefix_witness :
    (∀ k d, (sumMac k d).length = 20) ∧ 100 ≤ 512 ∧ ((512 : Nat) : Int) + 159 ≤ maxInt ∧
      ∃ r1 r2, PRFX sumMac [1] [2] [3] ((100 : Nat) : Int) = some r1 ∧
        PRFX sumMac [1] [2] [3] ((512 : Nat) : Int) = some r2 ∧ r1 <+: r2 :=
  ⟨sumMac_length, by decide, by decide,
    PRFX_prefix sumMac sumMac_length [1] [2] [3] 100 512 (by decide) (by decide)⟩

/-- C17 (counterexample): with `x1 = 8 ≤ x2 = 2^63 - 1` the call for `x1` returns one byte
while the call for `x2` panics (the sum `x2 + 159` wraps), so there is no result of which
the first could be a prefix. -/
theorem PRFX_prefix_fails_at_maxInt :
    (8 : Int) ≤ 2 ^ 63 - 1 ∧
      (∃ r1, PRFX sumMac [1] [2] [3] 8 = some r1 ∧ r1.length = 1) ∧
      PRFX sumMac [1] [2] [3] (2 ^ 63 - 1) = none := by
  refine ⟨by decide, ⟨(sumMac [1] ([2] ++ [0] ++ [3] ++ [0])).take 1, by decide, by decide⟩,
    by decide⟩

/-! ## The bound of 105 bytes -/

/-- C18: when message 2 has an 802.11 layer, `handleSecondMessage` succeeds if and only if
the 802.11 payload has at least 105 bytes; for a shorter payload one of the slice
expressions at offsets 8, 81 and 97 is out of range and the handler panics, leaving
`micData` as it was. -/
theorem handleSecondMessage_ok_iff_105 (packet : Packet) (s : State) (dot11 : Dot11)
    (hd : packet.dot11 = some dot11) :
    ((∃ s2, handleSecondMessage packet s = .ok s2) ↔ 105 ≤ dot11.Payload.length) ∧
      (dot11.Payload.length < 105 →
        (sliceFrom dot11.Payload 8 = none ∨ sliceTo (dot11.Payload.drop 8) 81 = none ∨
          sliceFrom (dot11.Payload.drop 8) 97 = none) ∧
        ∃ p, handleSecondMessage packet s = .error p ∧ p.1 = sliceBoundsMsg ∧
          p.2.micData = s.micData) := by
  have hmic : (handleSecondMessage.keyFrame packet s).micData = s.micData := by
    unfold handleSecondMessage.keyFrame
    cases packet.eapolKey with
    | none => rfl
    | some e =>
      dsimp only
      unfold State.verbosePrint
      split <;> rfl
  rw [handleSecondMessage_dot11 packet s dot11 hd]
  by_cases h105 : 105 ≤ dot11.Payload.length
  · rw [if_pos h105]
    exact ⟨⟨fun _ => h105, fun _ => ⟨_, rfl⟩⟩, fun hlt => absurd h105 (by omega)⟩
  · rw [if_neg h105]
    refine ⟨⟨fun ⟨_, h⟩ => Except.noConfusion h, fun h => absurd h h105⟩, fun _ => ⟨?_, ?_⟩⟩
    · by_cases h8 : 8 ≤ dot11.Payload.length
      · right; right
        exact if_neg (by rw [List.length_drop]; omega)
      · left
        exact if_neg h8
    · exact ⟨_, rfl, rfl, hmic⟩

theorem handleSecondMessage_ok_iff_105_witness :
    (⟨some ⟨[], [], List.replicate 104 7⟩, none⟩ : Packet).dot11 =
        some ⟨[], [], List.replicate 104 7⟩ ∧
      (List.replicate 104 7).length < 105 ∧
      ∃ p, handleSecondMessage ⟨some ⟨[], [], List.replicate 104 7⟩, none⟩ State.initial =
          .error p ∧ p.1 = sliceBoundsMsg ∧ p.2.micData = State.initial.micData :=
  ⟨rfl, by simp,
    ((handleSecondMessage_ok_iff_105 ⟨some ⟨[], [], List.replicate 104 7⟩, none⟩
      State.initial ⟨[], [], List.replicate 104 7⟩ rfl).2 (by simp)).2⟩

/-! ## Independence of the recorded order -/

theorem generateB_swap_macs (a b n1 n2 : List Nat) :
    generateB a b n1 n2 = generateB b a n1 n2 := by
  rw [generateB_eq, generateB_eq, min_comm a b, max_comm a b]

theorem generateB_swap_nonces (a b n1 n2 : List Nat) :
    generateB a b n1 n2 = generateB a b n2 n1 := by
  rw [generateB_eq, generateB_eq, min_comm n1 n2, max_comm n1 n2]

/-- C15: the address pair and the nonce pair of `generateB` can be swapped independently;
hence the PTK, the computed tag and the comparison of every candidate are the same when
`APMac` and `ClientMac` are exchanged, which is the state `handleFirstMessage` leaves when
`Address1` and `Address2` of the frame are exchanged. -/
theorem generateB_swap_independent (hmac : List Nat → List Nat → List Nat)
    (a b n1 n2 pmk : List Nat) (s : State) (password : String) (dot11 : Dot11)
    (eapolKey : Option EAPOLKey) :
    generateB a b n1 n2 = generateB b a n1 n2 ∧
      generateB a b n1 n2 = generateB a b n2 n1 ∧
      PRFX hmac pmk (stringBytes "Pairwise key expansion")
          (generateB s.ClientMac s.APMac s.ANonce s.SNonce) 512 =
        PRFX hmac pmk (stringBytes "Pairwise key expansion")
          (generateB s.APMac s.ClientMac s.ANonce s.SNonce) 512 ∧
      computedMIC hmac { s with APMac := s.ClientMac, ClientMac := s.APMac } password =
        computedMIC hmac s password ∧
      micMatches hmac { s with APMac := s.ClientMac, ClientMac := s.APMac } password =
        micMatches hmac s password ∧
      handleFirstMessage ⟨some ⟨dot11.Address2, dot11.Address1, dot11.Payload⟩, eapolKey⟩ s =
        { handleFirstMessage ⟨some dot11, eapolKey⟩ s with
          APMac := (handleFirstMessage ⟨some dot11, eapolKey⟩ s).ClientMac,
          ClientMac := (handleFirstMessage ⟨some dot11, eapolKey⟩ s).APMac } := by
  refine ⟨generateB_swap_macs a b n1 n2, generateB_swap_nonces a b n1 n2, ?_, ?_, ?_, ?_⟩
  · rw [generateB_swap_macs]
  · unfold computedMIC
    dsimp only
    rw [generateB_swap_macs s.ClientMac s.APMac]
  · unfold micMatches
    dsimp only
    rw [generateB_swap_macs s.ClientMac s.APMac]
  · unfold handleFirstMessage
    cases eapolKey <;> rfl

/-! ## The network identifier -/

theorem trimSpace_length_eq_zero_iff (s : String) :
    (trimSpace s).length = 0 ↔ ∀ c ∈ s.data, isSpace c = true := by
  unfold trimSpace
  show (((s.data.dropWhile isSpace).reverse.dropWhile isSpace).reverse).length = 0 ↔ _
  rw [List.length_eq_zero, List.reverse_eq_nil_iff]
  constructor
  · intro h
    by_cases hd : s.data.dropWhile isSpace = []
    · exact List.dropWhile_eq_nil_iff.mp hd
    · exfalso
      have hhead := List.head_dropWhile_not isSpace s.data hd
      have hall := List.dropWhile_eq_nil_iff.mp h
      have hmem : (s.data.dropWhile isSpace).head hd ∈ (s.data.dropWhile isSpace).reverse :=
        List.mem_reverse.mpr (List.head_mem hd)
      rw [hall _ hmem] at hhead
      exact Bool.noConfusion hhead
  · intro h
    rw [List.dropWhile_eq_nil_iff.mpr h]
    rfl

/-- C13: a network identifier that is empty or consists of white space only makes `main`
write the request for an SSID and exit with status 1, whatever the capture file and
the wordlist are and without any line being evaluated; an identifier with a character
that is not white space passes the check, and `main` goes on with `ssid` holding its
bytes unchanged. -/
theorem main_rejects_blank_ssid (hmac : List Nat → List Nat → List Nat) (ssidString : String)
    (verboseFlag : Bool) (pcapFile : Except String (List Packet))
    (wordFile : Except String (List String)) :
    ((∀ c ∈ ssidString.data, isSpace c = true) →
        main hmac ssidString verboseFlag pcapFile wordFile =
          { stdout := ["Please provide an SSID via -ssid <SSID>\n"], evaluated := [],
            exit := .exit 1 }) ∧
      ((∃ c ∈ ssidString.data, isSpace c = false) →
        (State.start ssidString verboseFlag).ssid = stringBytes ssidString ∧
        main hmac ssidString verboseFlag pcapFile wordFile =
          match pcapFile with
          | .error err => { stdout := [err ++ "\n"], evaluated := [], exit := .returned }
          | .ok packets =>
            match wordFile with
            | .error err => { stdout := [], evaluated := [], exit := .logFatal err }
            | .ok lines =>
              match main.handshake (State.start ssidString verboseFlag) packets with
              | .error (msg, s) =>
                { stdout := s.stdout, evaluated := [], exit := .panicked msg }
              | .ok s => Run.after s.stdout [] (main.loop hmac s lines)) := by
  constructor
  · intro h
    unfold main
    rw [if_pos ((trimSpace_length_eq_zero_iff ssidString).mpr h)]
  · rintro ⟨c, hc, hns⟩
    have hne : ¬ (trimSpace ssidString).length = 0 := by
      rw [trimSpace_length_eq_zero_iff]
      intro hall
      rw [hall c hc] at hns
      exact Bool.noConfusion hns
    refine ⟨rfl, ?_⟩
    unfold main
    rw [if_neg hne]

theorem main_rejects_blank_ssid_witness :
    (∀ c ∈ " \t ".data, isSpace c = true) ∧
      main sumMac " \t " false (.ok []) (.ok ["password"]) =
        { stdout := ["Please provide an SSID via -ssid <SSID>\n"], evaluated := [],
          exit := .exit 1 } ∧
      (∃ c ∈ " my net ".data, isSpace c = false) ∧
      (State.start " my net " false).ssid = stringBytes " my net " :=
  ⟨by decide,
    (main_rejects_blank_ssid sumMac " \t " false (.ok []) (.ok ["password"])).1 (by decide),
    by decide,
    ((main_rejects_blank_ssid sumMac " my net " false (.ok []) (.ok ["password"])).2
      (by decide)).1⟩

/-! ## Exhaustion, line lengths and the captured tag -/

/-- One iteration of the cracking loop outside verbose mode: nothing is written but the
report. -/
theorem main.loop_cons_quiet (hmac : List Nat → List Nat → List Nat)
    (hlen : ∀ k d, (hmac k d).length = 20) (s : State) (hq : s.verboseMode = false)
    (w : String) (ws : List String) :
    main.loop hmac s (w :: ws) =
      if micMatches hmac s w = true then
        { stdout := [correctLine w], evaluated := [w], exit := .returned }
      else Run.after [] [w] (main.loop hmac s ws) := by
  have hpmk := generatePMKFromPassphrase_some hmac hlen s.ssid w
  obtain ⟨ptk, hptk, hptkLen⟩ := PRFX_512 hmac hlen
    (pbkdf2Key hmac (stringBytes w) s.ssid 4096 32) (stringBytes "Pairwise key expansion")
    (generateB s.APMac s.ClientMac s.ANonce s.SNonce)
  have hkck : sliceTo ptk 16 = some (ptk.take 16) :=
    sliceTo_of_le (by rw [hptkLen]; decide)
  have hmic : sliceTo (hmac (ptk.take 16) s.micData) 16 =
      some ((hmac (ptk.take 16) s.micData).take 16) :=
    sliceTo_of_le (by rw [hlen]; decide)
  have hv : verboseLines s w (pbkdf2Key hmac (stringBytes w) s.ssid 4096 32) ptk = [] := by
    unfold verboseLines
    rw [hq]
    rfl
  rw [main.loop, hpmk]
  dsimp only
  rw [hptk]
  dsimp only
  rw [hkck]
  dsimp only
  rw [hmic]
  dsimp only
  rw [micMatches, hpmk]
  dsimp only
  rw [hptk]
  dsimp only
  rw [hv]
  simp only [bytesCompare_eq_zero_iff, decide_eq_true_eq, List.nil_append]

/-- Outside verbose mode the output of the cracking loop is the report of the first match,
or nothing. -/
theorem main.loop_quiet (hmac : List Nat → List Nat → List Nat)
    (hlen : ∀ k d, (hmac k d).length = 20) (s : State) (hq : s.verboseMode = false) :
    ∀ ws : List String,
      (main.loop hmac s ws).stdout = ((ws.find? (micMatches hmac s)).map correctLine).toList
  | [] => by simp [main.loop]
  | w :: ws => by
    rw [main.loop_cons_quiet hmac hlen s hq w ws]
    by_cases hm : micMatches hmac s w = true
    · simp [hm]
    · simp only [Bool.not_eq_true] at hm
      simp [hm, Run.after, main.loop_quiet hmac hlen s hq ws]

/-- The value compared with `firstMIC`, under the HMAC size of 20 bytes: no slice fails,
and the tag is keyed with the first 16 bytes of the HMAC block with counter 0. -/
theorem computedMIC_eq (hmac : List Nat → List Nat → List Nat)
    (hlen : ∀ k d, (hmac k d).length = 20) (s : State) (password : String) :
    computedMIC hmac s password =
      some ((hmac ((hmac (pbkdf2Key hmac (stringBytes password) s.ssid 4096 32)
        (stringBytes "Pairwise key expansion" ++ [0x00] ++
          generateB s.APMac s.ClientMac s.ANonce s.SNonce ++ [0x00])).take 16)
        s.micData).take 16) := by
  have hpmk := generatePMKFromPassphrase_some hmac hlen s.ssid password
  obtain ⟨ptk, hptk, _, _, hptkLen, hkck⟩ := PRFX_512_blocks hmac hlen
    (pbkdf2Key hmac (stringBytes password) s.ssid 4096 32) s.APMac s.ClientMac s.ANonce
    s.SNonce
  rw [computedMIC, hpmk]
  dsimp only
  rw [hptk]
  dsimp only
  rw [hkck]
  dsimp only
  rw [sliceTo_of_le (by rw [hlen]; decide)]

theorem micMatches_iff_computedMIC (hmac : List Nat → List Nat → List Nat)
    (hlen : ∀ k d, (hmac k d).length = 20) (s : State) (password : String) :
    micMatches hmac s password = true ↔ computedMIC hmac s password = some s.firstMIC := by
  rw [micMatches_iff hmac hlen, computedMIC_eq hmac hlen, Option.some.injEq]

theorem computedMIC_length (hmac : List Nat → List Nat → List Nat)
    (hlen : ∀ k d, (hmac k d).length = 20) (s : State) (password : String) (mic : List Nat)
    (h : computedMIC hmac s password = some mic) : mic.length = 16 := by
  rw [computedMIC_eq hmac hlen, Option.some.injEq] at h
  rw [← h, List.length_take, hlen]
  rfl

theorem micMatches_false_of_length (hmac : List Nat → List Nat → List Nat)
    (hlen : ∀ k d, (hmac k d).length = 20) (s : State) (h16 : s.firstMIC.length ≠ 16)
    (password : String) : micMatches hmac s password = false := by
  rw [← Bool.not_eq_true, micMatches_iff_computedMIC hmac hlen]
  intro h
  exact h16 (computedMIC_length hmac hlen s password _ h)

theorem find?_eq_none_of_all_false {α : Type} (m : α → Bool) :
    ∀ ws : List α, (∀ w ∈ ws, m w = false) →
      ws.find? m = none ∧ ws.takeWhile (fun w => !m w) = ws
  | [], _ => by simp
  | w :: ws, h => by
    have hw : m w = false := h w (List.mem_cons_self w ws)
    have ih := find?_eq_none_of_all_false m ws
      (fun x hx => h x (List.mem_cons_of_mem w hx))
    simp [List.find?, List.takeWhile, hw, ih.1, ih.2]

theorem sumMac_take_ne_zeros (key data : List Nat) :
    (sumMac key data).take 16 ≠ List.replicate 16 0 := by
  intro h
  have h0 := congrArg (fun l : List Nat => l[0]?) h
  have h1 := congrArg (fun l : List Nat => l[1]?) h
  simp [sumMac, List.getElem?_take, List.getElem?_replicate] at h0 h1
  omega

/-- C11 (as amended): when no line of the wordlist matches, the cracking loop evaluates
every line exactly once, in order, and returns normally without a report: its output holds
no `Correct Password` text and, outside verbose mode, is empty. -/
theorem main.loop_exhausted (hmac : List Nat → List Nat → List Nat)
    (hlen : ∀ k d, (hmac k d).length = 20) (s : State) (ws : List String)
    (hno : ∀ w ∈ ws, micMatches hmac s w = false) :
    (main.loop hmac s ws).evaluated = ws ∧
      (main.loop hmac s ws).exit = .returned ∧
      (main.loop hmac s ws).stdout.filter isReportLine = [] ∧
      (s.verboseMode = false → (main.loop hmac s ws).stdout = []) := by
  obtain ⟨h1, h2, h3⟩ := main.loop_spec hmac hlen s ws
  obtain ⟨hf, ht⟩ := find?_eq_none_of_all_false (micMatches hmac s) ws hno
  refine ⟨?_, h3, ?_, fun hq => ?_⟩
  · rw [h2, hf, ht]
    simp
  · rw [h1, hf]
    rfl
  · rw [main.loop_quiet hmac hlen s hq ws, hf]
    rfl

theorem main.loop_exhausted_witness :
    (∀ k d, (sumMac k d).length = 20) ∧
      (∀ w ∈ ["password", "12345678"], micMatches sumMac State.initial w = false) ∧
      (main.loop sumMac State.initial ["password", "12345678"]).evaluated =
        ["password", "12345678"] ∧
      (main.loop sumMac State.initial ["password", "12345678"]).exit = .returned :=
  ⟨sumMac_length,
    fun w _ => micMatches_false_of_length sumMac sumMac_length State.initial (by decide) w,
    (main.loop_exhausted sumMac sumMac_length State.initial ["password", "12345678"]
      (fun w _ =>
        micMatches_false_of_length sumMac sumMac_length State.initial (by decide) w)).1,
    (main.loop_exhausted sumMac sumMac_length State.initial ["password", "12345678"]
      (fun w _ =>
        micMatches_false_of_length sumMac sumMac_length State.initial (by decide) w)).2.1⟩

/-- C11 (counterexample): for the sample capture, whose 16-byte tag no line matches, the
loop evaluates both lines of the wordlist and returns with an empty output: nothing
reports the exhaustion. -/
theorem exhaustion_is_silent :
    (∀ w ∈ ["password", "12345678"], micMatches sumMac State.sample w = false) ∧
      (main.loop sumMac State.sample ["password", "12345678"]).evaluated =
        ["password", "12345678"] ∧
      (main.loop sumMac State.sample ["password", "12345678"]).stdout = [] ∧
      (main.loop sumMac State.sample ["password", "12345678"]).exit = .returned := by
  have hno : ∀ w ∈ ["password", "12345678"], micMatches sumMac State.sample w = false := by
    intro w _
    rw [← Bool.not_eq_true, micMatches_iff sumMac sumMac_length]
    exact sumMac_take_ne_zeros _ _
  obtain ⟨_, h2, h3⟩ := main.loop_spec sumMac sumMac_length State.sample
    ["password", "12345678"]
  obtain ⟨hf, ht⟩ := find?_eq_none_of_all_false (micMatches sumMac State.sample) _ hno
  refine ⟨hno, ?_, ?_, h3⟩
  · rw [h2, hf, ht]
    rfl
  · rw [main.loop_quiet sumMac sumMac_length State.sample rfl, hf]
    rfl

/-- The value compared with `firstMIC` does not depend on `firstMIC`. -/
theorem computedMIC_firstMIC (hmac : List Nat → List Nat → List Nat) (s : State)
    (mic : List Nat) (password : String) :
    computedMIC hmac { s with firstMIC := mic } password = computedMIC hmac s password := by
  unfold computedMIC
  rfl

/-- The lines evaluated by the loop, by position: a line with no matching line before it
is evaluated. -/
theorem getElem?_takeWhile_append_find? {α : Type} (m : α → Bool) :
    ∀ (ws : List α) (i : Nat) (w : α), ws[i]? = some w →
      (∀ j, j < i → ∀ q, ws[j]? = some q → m q = false) →
      (ws.takeWhile (fun w => !m w) ++ (ws.find? m).toList)[i]? = some w
  | [], i, w, hi, _ => by simp at hi
  | x :: xs, 0, w, hi, _ => by
    simp only [List.getElem?_cons_zero, Option.some.injEq] at hi
    subst hi
    cases hx : m x <;> simp [List.takeWhile, List.find?, hx]
  | x :: xs, i + 1, w, hi, hbefore => by
    have hx : m x = false := hbefore 0 (Nat.succ_pos i) x (by simp)
    have ih := getElem?_takeWhile_append_find? m xs i w (by simpa using hi)
      (fun j hj q hq => hbefore (j + 1) (Nat.succ_lt_succ hj) q (by simpa using hq))
    simpa [List.takeWhile, List.find?, hx] using ih

/-- The lines evaluated by the loop, by position: no line behind a matching line is
evaluated. -/
theorem getElem?_takeWhile_append_find?_none {α : Type} (m : α → Bool) :
    ∀ (ws : List α) (i : Nat), (∃ j, j < i ∧ ∃ q, ws[j]? = some q ∧ m q = true) →
      (ws.takeWhile (fun w => !m w) ++ (ws.find? m).toList)[i]? = none
  | [], i, ⟨j, _, q, hq, _⟩ => by simp at hq
  | x :: xs, 0, ⟨j, hj, _⟩ => absurd hj (Nat.not_lt_zero j)
  | x :: xs, i + 1, ⟨j, hj, q, hq, hm⟩ => by
    cases hx : m x with
    | true => simp [List.takeWhile, List.find?, hx]
    | false =>
      cases j with
      | zero =>
        simp only [List.getElem?_cons_zero, Option.some.injEq] at hq
        rw [hq, hm] at hx
        exact Bool.noConfusion hx
      | succ j =>
        have ih := getElem?_takeWhile_append_find?_none m xs i
          ⟨j, Nat.lt_of_succ_lt_succ hj, q, by simpa using hq, hm⟩
        simpa [List.takeWhile, List.find?, hx] using ih

/-- The loop writes the report of `p` exactly when `p` is the first matching line. -/
theorem main.loop_report_iff (hmac : List Nat → List Nat → List Nat)
    (hlen : ∀ k d, (hmac k d).length = 20) (s : State) (ws : List String) (p : String) :
    correctLine p ∈ (main.loop hmac s ws).stdout ↔ ws.find? (micMatches hmac s) = some p := by
  obtain ⟨h1, _, _⟩ := main.loop_spec hmac hlen s ws
  have hmem : correctLine p ∈ (main.loop hmac s ws).stdout ↔
      correctLine p ∈ (main.loop hmac s ws).stdout.filter isReportLine := by
    rw [List.mem_filter]
    exact ⟨fun h => ⟨h, isReportLine_correctLine p⟩, fun h => h.1⟩
  rw [hmem, h1]
  cases hf : ws.find? (micMatches hmac s) with
  | none => simp
  | some q =>
    simp only [Option.map_some', Option.toList_some, List.mem_singleton, Option.some.injEq]
    exact ⟨fun h => (correctLine_injective h).symm, fun h => by rw [h]⟩

/-- C12 (as amended): the cracking loop makes no length check. Every wordlist line that
the loop reaches, that is, every line with no matching line before it, goes through the
loop body whatever its length: it is evaluated, the keys are derived and the 16-byte tag
is computed, and the line is reported as the correct password exactly when its computed
tag equals `firstMIC`. The lines behind the first match are not evaluated. -/
theorem main.loop_ignores_length (hmac : List Nat → List Nat → List Nat)
    (hlen : ∀ k d, (hmac k d).length = 20) (s : State) (ws : List String) :
    (∀ (i : Nat) (w : String), ws[i]? = some w →
        (∀ j, j < i → ∀ q, ws[j]? = some q → micMatches hmac s q = false) →
        (main.loop hmac s ws).evaluated[i]? = some w ∧
          (∃ mic, computedMIC hmac s w = some mic ∧ mic.length = 16) ∧
          (correctLine w ∈ (main.loop hmac s ws).stdout ↔
            computedMIC hmac s w = some s.firstMIC)) ∧
      (∀ i : Nat, (∃ j, j < i ∧ ∃ q, ws[j]? = some q ∧ micMatches hmac s q = true) →
        (main.loop hmac s ws).evaluated[i]? = none) := by
  obtain ⟨_, h2, _⟩ := main.loop_spec hmac hlen s ws
  refine ⟨fun i w hi hbefore => ⟨?_, ?_, ?_⟩, fun i hi => ?_⟩
  · rw [h2]
    exact getElem?_takeWhile_append_find? (micMatches hmac s) ws i w hi hbefore
  · exact ⟨_, computedMIC_eq hmac hlen s w,
      computedMIC_length hmac hlen s w _ (computedMIC_eq hmac hlen s w)⟩
  · rw [main.loop_report_iff hmac hlen s ws w, ← micMatches_iff_computedMIC hmac hlen]
    refine ⟨fun h => List.find?_some h, fun h => ?_⟩
    exact (find_first_at (micMatches hmac s) ws i w hi h hbefore).1
  · rw [h2]
    exact getElem?_takeWhile_append_find?_none (micMatches hmac s) ws i hi

/-- In the sample capture the tag of no line is the captured tag of sixteen zero bytes. -/
theorem micMatches_sample (w : String) : micMatches sumMac State.sample w = false := by
  rw [← Bool.not_eq_true, micMatches_iff sumMac sumMac_length]
  exact sumMac_take_ne_zeros _ _

theorem main.loop_ignores_length_witness :
    (∀ k d, (sumMac k d).length = 20) ∧
      (stringBytes "abc").length = 3 ∧
      (main.loop sumMac State.sample ["abc", "12345678"]).evaluated[0]? = some "abc" ∧
      (∃ mic, computedMIC sumMac State.sample "abc" = some mic ∧ mic.length = 16) ∧
      (main.loop sumMac State.sample ["abc", "12345678"]).evaluated[1]? =
        some "12345678" :=
  ⟨sumMac_length, by decide,
    ((main.loop_ignores_length sumMac sumMac_length State.sample ["abc", "12345678"]).1
      0 "abc" rfl (fun j hj => absurd hj (Nat.not_lt_zero j))).1,
    ((main.loop_ignores_length sumMac sumMac_length State.sample ["abc", "12345678"]).1
      0 "abc" rfl (fun j hj => absurd hj (Nat.not_lt_zero j))).2.1,
    ((main.loop_ignores_length sumMac sumMac_length State.sample ["abc", "12345678"]).1
      1 "12345678" rfl (fun _ _ q _ => micMatches_sample q)).1⟩

/-- A line whose computed tag was taken as the captured tag matches. -/
theorem micMatches_own_tag (hmac : List Nat → List Nat → List Nat)
    (hlen : ∀ k d, (hmac k d).length = 20) (s : State) (w : String) :
    micMatches hmac { s with firstMIC := (computedMIC hmac s w).getD [] } w = true := by
  rw [micMatches_iff_computedMIC hmac hlen, computedMIC_firstMIC]
  obtain ⟨mic, hmic⟩ : ∃ mic, computedMIC hmac s w = some mic :=
    ⟨_, computedMIC_eq hmac hlen s w⟩
  simp only [hmic, Option.getD_some]

/-- A matching first line is the only line evaluated and is reported. -/
theorem main.loop_reports_head (hmac : List Nat → List Nat → List Nat)
    (hlen : ∀ k d, (hmac k d).length = 20) (s : State) (w : String) (ws : List String)
    (hm : micMatches hmac s w = true) :
    (main.loop hmac s (w :: ws)).evaluated = [w] ∧
      correctLine w ∈ (main.loop hmac s (w :: ws)).stdout := by
  obtain ⟨out, _, heq⟩ := main.loop_cons hmac hlen s w ws
  rw [heq, if_pos hm]
  exact ⟨rfl, List.mem_append_right _ (List.mem_singleton.mpr rfl)⟩

/-- C12 (counterexample): in the sample capture with the tag made from the 3-byte line
`abc`, the loop evaluates that line, derives its keys and reports it as the correct
password. -/
theorem short_line_is_reported :
    (stringBytes "abc").length = 3 ∧
      (main.loop sumMac
        { State.sample with firstMIC := (computedMIC sumMac State.sample "abc").getD [] }
        ["abc", "12345678"]).evaluated = ["abc"] ∧
      correctLine "abc" ∈ (main.loop sumMac
        { State.sample with firstMIC := (computedMIC sumMac State.sample "abc").getD [] }
        ["abc", "12345678"]).stdout :=
  ⟨by decide,
    main.loop_reports_head sumMac sumMac_length _ "abc" ["12345678"]
      (micMatches_own_tag sumMac sumMac_length State.sample "abc")⟩

/-! ## The captured tag and the output of the handlers -/

theorem verbosePrint_firstMIC (s : State) (text : String) :
    (s.verbosePrint text).firstMIC = s.firstMIC := by
  unfold State.verbosePrint
  split <;> rfl

theorem verbosePrint_not_report (s : State) (text : String)
    (hs : ∀ l ∈ s.stdout, isReportLine l = false) (ht : isReportLine text = false) :
    ∀ l ∈ (s.verbosePrint text).stdout, isReportLine l = false := by
  unfold State.verbosePrint
  split
  · intro l hl
    rcases List.mem_append.mp hl with h | h
    · exact hs l h
    · rw [List.mem_singleton.mp h]
      exact ht
  · exact hs

theorem handleFirstMessage_keeps (packet : Packet) (s : State) :
    (handleFirstMessage packet s).stdout = s.stdout ∧
      (handleFirstMessage packet s).firstMIC = s.firstMIC := by
  unfold handleFirstMessage
  cases packet.dot11 <;> cases packet.eapolKey <;> exact ⟨rfl, rfl⟩

theorem handleSecondMessage.keyFrame_keeps (packet : Packet) (s : State)
    (hs : ∀ l ∈ s.stdout, isReportLine l = false) :
    (∀ l ∈ (handleSecondMessage.keyFrame packet s).stdout, isReportLine l = false) ∧
      (packet.eapolKey = none →
        (handleSecondMessage.keyFrame packet s).firstMIC = s.firstMIC) := by
  unfold handleSecondMessage.keyFrame
  cases packet.eapolKey with
  | none => exact ⟨hs, fun _ => rfl⟩
  | some e =>
    refine ⟨?_, fun h => Option.noConfusion h⟩
    dsimp only
    exact verbosePrint_not_report _ _ hs
      (@isReportLine_of_head _ '1' ((". MIC: " ++ hex e.MIC ++ " \n").data)
        (by simp [String.data_append]) (by decide))

/-- The four handlers write no report, whether the extraction ends normally or in a
panic, and leave `firstMIC` alone when message 2 has no key-exchange layer. -/
theorem main.handshake_keeps (s : State) (packet1 packet2 packet3 packet4 : Packet)
    (more : List Packet) (hs : ∀ l ∈ s.stdout, isReportLine l = false) :
    (∀ p, main.handshake s (packet1 :: packet2 :: packet3 :: packet4 :: more) = .error p →
        ∀ l ∈ p.2.stdout, isReportLine l = false) ∧
      (∀ s4, main.handshake s (packet1 :: packet2 :: packet3 :: packet4 :: more) = .ok s4 →
        (∀ l ∈ s4.stdout, isReportLine l = false) ∧
        (packet2.eapolKey = none → s4.firstMIC = s.firstMIC)) := by
  have h1 := handleFirstMessage_keeps packet1 s
  have hk := handleSecondMessage.keyFrame_keeps packet2 (handleFirstMessage packet1 s)
    (by rw [h1.1]; exact hs)
  rw [h1.2] at hk
  -- the state after message 2, when the handler returns, and the state of its panic
  have h2 : (∀ p, handleSecondMessage packet2 (handleFirstMessage packet1 s) = .error p →
        ∀ l ∈ p.2.stdout, isReportLine l = false) ∧
      (∀ s2, handleSecondMessage packet2 (handleFirstMessage packet1 s) = .ok s2 →
        (∀ l ∈ s2.stdout, isReportLine l = false) ∧
        (packet2.eapolKey = none → s2.firstMIC = s.firstMIC)) := by
    cases hd : packet2.dot11 with
    | none =>
      rw [handleSecondMessage_no_dot11 _ _ hd]
      refine ⟨fun p h => Except.noConfusion h, fun s2 h => ?_⟩
      rw [Except.ok.injEq] at h
      rw [← h]
      exact hk
    | some d =>
      rw [handleSecondMessage_dot11 _ _ d hd]
      by_cases h105 : 105 ≤ d.Payload.length
      · rw [if_pos h105]
        refine ⟨fun p h => Except.noConfusion h, fun s2 h => ?_⟩
        rw [Except.ok.injEq] at h
        rw [← h]
        exact hk
      · rw [if_neg h105]
        refine ⟨fun p h => ?_, fun s2 h => Except.noConfusion h⟩
        rw [Except.error.injEq] at h
        rw [← h]
        exact hk.1
  rw [main.handshake_four]
  cases hsnd : handleSecondMessage packet2 (handleFirstMessage packet1 s) with
  | error p =>
    refine ⟨fun q hq => ?_, fun s4 h => Except.noConfusion h⟩
    rw [Except.error.injEq] at hq
    rw [← hq]
    exact h2.1 p hsnd
  | ok s2 =>
    obtain ⟨hs2, hmic2⟩ := h2.2 s2 hsnd
    dsimp only
    have h3 : (∀ p, handleThirdMessage packet3 s2 = .error p →
          ∀ l ∈ p.2.stdout, isReportLine l = false) ∧
        (∀ s3, handleThirdMessage packet3 s2 = .ok s3 →
          (∀ l ∈ s3.stdout, isReportLine l = false) ∧ s3.firstMIC = s2.firstMIC) := by
      cases he : packet3.eapolKey with
      | none =>
        rw [handleThirdMessage_none _ _ he]
        refine ⟨fun p h => Except.noConfusion h, fun s3 h => ?_⟩
        rw [Except.ok.injEq] at h
        rw [← h]
        exact ⟨hs2, rfl⟩
      | some e =>
        rw [handleThirdMessage_eq _ _ e he]
        by_cases hn : e.Nonce = s2.ANonce
        · rw [if_pos hn]
          refine ⟨fun p h => Except.noConfusion h, fun s3 h => ?_⟩
          rw [Except.ok.injEq] at h
          rw [← h]
          exact ⟨verbosePrint_not_report _ _ hs2
            (@isReportLine_of_head _ '2' ((". MIC: " ++ hex e.MIC ++ " \n").data)
              (by simp [String.data_append]) (by decide)), verbosePrint_firstMIC _ _⟩
        · rw [if_neg hn]
          refine ⟨fun p h => ?_, fun s3 h => Except.noConfusion h⟩
          rw [Except.error.injEq] at h
          rw [← h]
          exact hs2
    cases hthird : handleThirdMessage packet3 s2 with
    | error p =>
      refine ⟨fun q hq => ?_, fun s4 h => Except.noConfusion h⟩
      rw [Except.error.injEq] at hq
      rw [← hq]
      exact h3.1 p hthird
    | ok s3 =>
      obtain ⟨hs3, hmic3⟩ := h3.2 s3 hthird
      refine ⟨fun q hq => Except.noConfusion hq, fun s4 h => ?_⟩
      rw [Except.ok.injEq] at h
      rw [← h]
      unfold handleFourthMessage
      cases packet4.eapolKey with
      | none => exact ⟨hs3, fun hn => (hmic3.trans (hmic2 hn))⟩
      | some e =>
        exact ⟨verbosePrint_not_report _ _ hs3
          (@isReportLine_of_head _ '3' ((". MIC: " ++ hex e.MIC ++ " \n").data)
            (by simp [String.data_append]) (by decide)),
          fun hn => (verbosePrint_firstMIC _ _).trans (hmic3.trans (hmic2 hn))⟩

theorem not_mem_of_filter_isReportLine_eq_nil {out : List String}
    (h : out.filter isReportLine = []) (p : String) : correctLine p ∉ out := by
  intro hp
  have hin : correctLine p ∈ out.filter isReportLine :=
    List.mem_filter.mpr ⟨hp, isReportLine_correctLine p⟩
  rw [h] at hin
  exact List.not_mem_nil _ hin

/-- C16: under the HMAC size of 20 bytes, when `firstMIC` does not have exactly 16 bytes the
16-byte value `mic[:16]` computed for a line never equals it, so for every wordlist the
loop evaluates every line and reports none. In particular, when message 2 of the capture
has no key-exchange layer, `firstMIC` is still empty after the extraction and the output
of `main` holds no report. -/
theorem firstMIC_length_no_report (hmac : List Nat → List Nat → List Nat)
    (hlen : ∀ k d, (hmac k d).length = 20) :
    (∀ (s : State) (ws : List String), s.firstMIC.length ≠ 16 →
        (∀ w mic, computedMIC hmac s w = some mic → mic.length = 16 ∧ mic ≠ s.firstMIC) ∧
        (∀ p, correctLine p ∉ (main.loop hmac s ws).stdout) ∧
        (main.loop hmac s ws).stdout.filter isReportLine = [] ∧
        (main.loop hmac s ws).evaluated = ws) ∧
      (∀ (ssidString : String) (verboseFlag : Bool)
          (packet1 packet2 packet3 packet4 : Packet) (more : List Packet)
          (wordFile : Except String (List String)),
        packet2.eapolKey = none →
        (main hmac ssidString verboseFlag
          (.ok (packet1 :: packet2 :: packet3 :: packet4 :: more)) wordFile).stdout.filter
            isReportLine = [] ∧
        ∀ p, correctLine p ∉ (main hmac ssidString verboseFlag
          (.ok (packet1 :: packet2 :: packet3 :: packet4 :: more)) wordFile).stdout) := by
  have hloop : ∀ (s : State) (ws : List String), s.firstMIC.length ≠ 16 →
      (main.loop hmac s ws).stdout.filter isReportLine = [] ∧
        (main.loop hmac s ws).evaluated = ws := by
    intro s ws h16
    obtain ⟨h1, h2, _⟩ := main.loop_spec hmac hlen s ws
    obtain ⟨hf, ht⟩ := find?_eq_none_of_all_false (micMatches hmac s) ws
      (fun w _ => micMatches_false_of_length hmac hlen s h16 w)
    rw [h1, h2, hf, ht]
    exact ⟨rfl, by simp⟩
  refine ⟨fun s ws h16 => ⟨fun w mic hmic => ?_, ?_, (hloop s ws h16).1, (hloop s ws h16).2⟩,
    ?_⟩
  · have hl := computedMIC_length hmac hlen s w mic hmic
    refine ⟨hl, fun heq => h16 ?_⟩
    rw [← heq]
    exact hl
  · exact not_mem_of_filter_isReportLine_eq_nil (hloop s ws h16).1
  · intro ssidString verboseFlag packet1 packet2 packet3 packet4 more wordFile h2
    have hfilter : (main hmac ssidString verboseFlag
        (.ok (packet1 :: packet2 :: packet3 :: packet4 :: more)) wordFile).stdout.filter
          isReportLine = [] := by
      obtain ⟨herr, hok⟩ := main.handshake_keeps (State.start ssidString verboseFlag)
        packet1 packet2 packet3 packet4 more (fun l hl => absurd hl (List.not_mem_nil l))
      unfold main
      by_cases hssid : (trimSpace ssidString).length = 0
      · rw [if_pos hssid]
        exact filter_isReportLine_eq_nil (fun l hl => by
          rw [List.mem_singleton.mp hl]
          exact @isReportLine_of_head _ 'P' ("lease provide an SSID via -ssid <SSID>\n".data)
            rfl (by decide))
      · rw [if_neg hssid]
        dsimp only
        cases wordFile with
        | error err => rfl
        | ok lines =>
          dsimp only
          cases hh : main.handshake (State.start ssidString verboseFlag)
              (packet1 :: packet2 :: packet3 :: packet4 :: more) with
          | error p => exact filter_isReportLine_eq_nil (herr p hh)
          | ok s4 =>
            obtain ⟨hout, hmic⟩ := hok s4 hh
            have h16 : s4.firstMIC.length ≠ 16 := by
              rw [hmic h2]
              exact fun h => Nat.noConfusion h
            simp only [Run.after, List.filter_append, filter_isReportLine_eq_nil hout,
              (hloop s4 lines h16).1, List.append_nil]
    exact ⟨hfilter, not_mem_of_filter_isReportLine_eq_nil hfilter⟩

theorem firstMIC_length_no_report_witness :
    (∀ k d, (sumMac k d).length = 20) ∧ State.initial.firstMIC.length ≠ 16 ∧
      (∀ p, correctLine p ∉ (main.loop sumMac State.initial ["password"]).stdout) ∧
      (main.loop sumMac State.initial ["password"]).evaluated = ["password"] ∧
      (⟨none, none⟩ : Packet).eapolKey = none ∧
      (main sumMac "net" false
        (.ok [⟨none, some ⟨List.replicate 32 1, []⟩⟩, ⟨none, none⟩, ⟨none, none⟩,
          ⟨none, none⟩]) (.ok ["password"])).stdout.filter isReportLine = [] :=
  ⟨sumMac_length, by decide,
    ((firstMIC_length_no_report sumMac sumMac_length).1 State.initial ["password"]
      (by decide)).2.1,
    ((firstMIC_length_no_report sumMac sumMac_length).1 State.initial ["password"]
      (by decide)).2.2.2,
    rfl,
    ((firstMIC_length_no_report sumMac sumMac_length).2 "net" false
      ⟨none, some ⟨List.replicate 32 1, []⟩⟩ ⟨none, none⟩ ⟨none, none⟩ ⟨none, none⟩ []
      (.ok ["password"]) rfl).1⟩

/-! ## SHA-1: the rounds call their continuation once -/

theorem seqNat_eq {α : Type} (n : Nat) (k : Nat → α) : seqNat n k = k n := by
  cases n <;> rfl

theorem sha1.round_comp {α β : Type} (f : Nat → Nat → Nat → Nat) (K : Nat) (g : α → β)
    (k : sha1.Cont α) :
    sha1.round f K (fun a b c d e w0 w1 w2 w3 w4 w5 w6 w7 w8 w9 w10 w11 w12 w13 w14 w15 => g (k a b
        c d e w0 w1 w2 w3 w4 w5 w6 w7 w8 w9 w10 w11 w12 w13 w14 w15)) =
      fun a b c d e w0 w1 w2 w3 w4 w5 w6 w7 w8 w9 w10 w11 w12 w13 w14 w15 => g (sha1.round f K k a b
          c d e w0 w1 w2 w3 w4 w5 w6 w7 w8 w9 w10 w11 w12 w13 w14 w15) :=
  rfl

theorem sha1.round5_comp {α β : Type} (f : Nat → Nat → Nat → Nat) (K : Nat) (g : α → β)
    (k : sha1.Cont α) :
    sha1.round5 f K (fun a b c d e w0 w1 w2 w3 w4 w5 w6 w7 w8 w9 w10 w11 w12 w13 w14 w15 => g (k a b
        c d e w0 w1 w2 w3 w4 w5 w6 w7 w8 w9 w10 w11 w12 w13 w14 w15)) =
      fun a b c d e w0 w1 w2 w3 w4 w5 w6 w7 w8 w9 w10 w11 w12 w13 w14 w15 => g (sha1.round5 f K k a
          b c d e w0 w1 w2 w3 w4 w5 w6 w7 w8 w9 w10 w11 w12 w13 w14 w15) := by
  unfold sha1.round5
  rw [sha1.round_comp f K g k,
    sha1.round_comp f K g (sha1.round f K k),
    sha1.round_comp f K g (sha1.round f K (sha1.round f K k)),
    sha1.round_comp f K g (sha1.round f K (sha1.round f K (sha1.round f K k))),
    sha1.round_comp f K g (sha1.round f K (sha1.round f K (sha1.round f K (sha1.round f K k))))]

theorem sha1.round20_comp {α β : Type} (f : Nat → Nat → Nat → Nat) (K : Nat) (g : α → β)
    (k : sha1.Cont α) :
    sha1.round20 f K (fun a b c d e w0 w1 w2 w3 w4 w5 w6 w7 w8 w9 w10 w11 w12 w13 w14 w15 => g (k a
        b c d e w0 w1 w2 w3 w4 w5 w6 w7 w8 w9 w10 w11 w12 w13 w14 w15)) =
      fun a b c d e w0 w1 w2 w3 w4 w5 w6 w7 w8 w9 w10 w11 w12 w13 w14 w15 => g (sha1.round20 f K k a
          b c d e w0 w1 w2 w3 w4 w5 w6 w7 w8 w9 w10 w11 w12 w13 w14 w15) := by
  unfold sha1.round20
  rw [sha1.round5_comp f K g k,
    sha1.round5_comp f K g (sha1.round5 f K k),
    sha1.round5_comp f K g (sha1.round5 f K (sha1.round5 f K k)),
    sha1.round5_comp f K g (sha1.round5 f K (sha1.round5 f K (sha1.round5 f K k)))]

theorem sha1.round80_comp {α β : Type} (g : α → β) (k : sha1.Cont α) :
    sha1.round80 (fun a b c d e w0 w1 w2 w3 w4 w5 w6 w7 w8 w9 w10 w11 w12 w13 w14 w15 => g (k a b c
        d e w0 w1 w2 w3 w4 w5 w6 w7 w8 w9 w10 w11 w12 w13 w14 w15)) =
      fun a b c d e w0 w1 w2 w3 w4 w5 w6 w7 w8 w9 w10 w11 w12 w13 w14 w15 => g (sha1.round80 k a b c
          d e w0 w1 w2 w3 w4 w5 w6 w7 w8 w9 w10 w11 w12 w13 w14 w15) := by
  unfold sha1.round80
  rw [sha1.round20_comp sha1.parity 0xCA62C1D6 g k,
    sha1.round20_comp sha1.maj 0x8F1BBCDC g (sha1.round20 sha1.parity 0xCA62C1D6 k),
    sha1.round20_comp sha1.parity 0x6ED9EBA1 g
      (sha1.round20 sha1.maj 0x8F1BBCDC (sha1.round20 sha1.parity 0xCA62C1D6 k)),
    sha1.round20_comp sha1.ch 0x5A827999 g
      (sha1.round20 sha1.parity 0x6ED9EBA1
        (sha1.round20 sha1.maj 0x8F1BBCDC (sha1.round20 sha1.parity 0xCA62C1D6 k)))]

theorem sha1.round80_comp_apply {α β : Type} (g : α → β) (k : sha1.Cont α)
    (a b c d e w0 w1 w2 w3 w4 w5 w6 w7 w8 w9 w10 w11 w12 w13 w14 w15 : Nat) :
    sha1.round80 (fun a b c d e w0 w1 w2 w3 w4 w5 w6 w7 w8 w9 w10 w11 w12 w13 w14 w15 => g (k a b c
        d e w0 w1 w2 w3 w4 w5 w6 w7 w8 w9 w10 w11 w12 w13 w14 w15))
        a b c d e w0 w1 w2 w3 w4 w5 w6 w7 w8 w9 w10 w11 w12 w13 w14 w15 =
      g (sha1.round80 k a b c d e w0 w1 w2 w3 w4 w5 w6 w7 w8 w9 w10 w11 w12 w13 w14 w15) := by
  rw [sha1.round80_comp]

/-- The compression of a block hands five words below `2 ^ 32` to its continuation, and
they do not depend on the continuation. -/
theorem sha1.compress_eq (h0 h1 h2 h3 h4 w0 w1 w2 w3 w4 w5 w6 w7 w8 w9 w10 w11 w12 w13 w14 w15 :
    Nat) :
    ∃ x0 x1 x2 x3 x4 : Nat, x0 < 2 ^ 32 ∧ x1 < 2 ^ 32 ∧ x2 < 2 ^ 32 ∧ x3 < 2 ^ 32 ∧
      x4 < 2 ^ 32 ∧ ∀ (α : Type) (k : Nat → Nat → Nat → Nat → Nat → α),
        sha1.compress h0 h1 h2 h3 h4 w0 w1 w2 w3 w4 w5 w6 w7 w8 w9 w10 w11 w12 w13 w14 w15 k = k x0
            x1 x2 x3 x4 := by
  have hM : ∀ x : Nat, Nat.land x 4294967295 < 2 ^ 32 := fun x =>
    Nat.and_lt_two_pow x (by decide)
  obtain ⟨r, hr⟩ : ∃ r : Nat × Nat × Nat × Nat × Nat,
      r = sha1.round80 (fun a b c d e _ _ _ _ _ _ _ _ _ _ _ _ _ _ _ _ => (a, b, c, d, e))
        h0 h1 h2 h3 h4 w0 w1 w2 w3 w4 w5 w6 w7 w8 w9 w10 w11 w12 w13 w14 w15 := ⟨_, rfl⟩
  refine ⟨Nat.land (Nat.add h0 r.1) 4294967295, Nat.land (Nat.add h1 r.2.1) 4294967295,
    Nat.land (Nat.add h2 r.2.2.1) 4294967295, Nat.land (Nat.add h3 r.2.2.2.1) 4294967295,
    Nat.land (Nat.add h4 r.2.2.2.2) 4294967295, hM _, hM _, hM _, hM _, hM _, fun α k => ?_⟩
  refine (sha1.round80_comp_apply
    (fun p : Nat × Nat × Nat × Nat × Nat =>
      seqNat (Nat.land (Nat.add h0 p.1) 4294967295) fun x0 =>
      seqNat (Nat.land (Nat.add h1 p.2.1) 4294967295) fun x1 =>
      seqNat (Nat.land (Nat.add h2 p.2.2.1) 4294967295) fun x2 =>
      seqNat (Nat.land (Nat.add h3 p.2.2.2.1) 4294967295) fun x3 =>
      seqNat (Nat.land (Nat.add h4 p.2.2.2.2) 4294967295) fun x4 => k x0 x1 x2 x3 x4)
    (fun a b c d e _ _ _ _ _ _ _ _ _ _ _ _ _ _ _ _ => (a, b, c, d, e))
    h0 h1 h2 h3 h4 w0 w1 w2 w3 w4 w5 w6 w7 w8 w9 w10 w11 w12 w13 w14 w15).trans ?_
  rw [← hr]
  simp only [seqNat_eq]

/-! ## SHA-1 and HMAC-SHA1 on bytes and on words -/

theorem sha1.words_be32_append (w : Nat) (hw : w < 2 ^ 32) (rest : List Nat) :
    sha1.words (be32 w ++ rest) = w :: sha1.words rest := by
  simp only [be32, List.cons_append, List.nil_append, sha1.words]
  congr 1
  omega

theorem sha1.words_bytes_append (ws : List Nat) (hws : ∀ w ∈ ws, w < 2 ^ 32)
    (rest : List Nat) : sha1.words (sha1.bytes ws ++ rest) = ws ++ sha1.words rest := by
  induction ws with
  | nil => rfl
  | cons w ws ih =>
    have ih1 := ih fun x hx => hws x (List.mem_cons_of_mem _ hx)
    simp only [sha1.bytes, List.flatMap_cons, List.append_assoc] at ih1 ⊢
    rw [sha1.words_be32_append w (hws w (List.mem_cons_self _ _)), ih1]
    rfl

theorem sha1.bytes_length (ws : List Nat) : (sha1.bytes ws).length = 4 * ws.length :=
  length_flatMap_const be32 4 (fun _ => rfl) ws

theorem sha1.block_cons (h0 h1 h2 h3 h4 w0 w1 w2 w3 w4 w5 w6 w7 w8 w9 w10 w11 w12 w13 w14 w15 : Nat)
    (p : List Nat) (hp : sha1.words p = [w0, w1, w2, w3, w4, w5, w6, w7, w8, w9, w10, w11, w12, w13,
        w14, w15]) :
    sha1.block [h0, h1, h2, h3, h4] p =
      sha1.compress h0 h1 h2 h3 h4 w0 w1 w2 w3 w4 w5 w6 w7 w8 w9 w10 w11 w12 w13 w14 w15
        fun x0 x1 x2 x3 x4 => [x0, x1, x2, x3, x4] := by
  unfold sha1.block
  rw [hp]

theorem sha1.block_length (h p : List Nat) (hh : h.length = 5) :
    (sha1.block h p).length = 5 := by
  unfold sha1.block
  split
  · rename_i h0 h1 h2 h3 h4 w0 w1 w2 w3 w4 w5 w6 w7 w8 w9 w10 w11 w12 w13 w14 w15 _
    obtain ⟨x0, x1, x2, x3, x4, -, -, -, -, -, hk⟩ :=
      sha1.compress_eq h0 h1 h2 h3 h4 w0 w1 w2 w3 w4 w5 w6 w7 w8 w9 w10 w11 w12 w13 w14 w15
    rw [hk]
    rfl
  · exact hh

theorem sha1.blocks_length : ∀ (n : Nat) (h p : List Nat), h.length = 5 →
    (sha1.blocks n h p).length = 5
  | 0, _, _, hh => hh
  | n + 1, h, p, hh => by
    rw [sha1.blocks]
    exact sha1.blocks_length n _ _ (sha1.block_length h _ hh)

theorem sha1.Sum_length (data : List Nat) : (sha1.Sum data).length = 20 := by
  unfold sha1.Sum
  simp only []
  rw [← sha1.bytes, sha1.bytes_length, sha1.blocks_length _ sha1.init _ rfl]

/-- The result of HMAC-SHA1 has `sha1.Size = 20` bytes. -/
theorem hmacSha1_length (key data : List Nat) : (hmacSha1 key data).length = 20 :=
  sha1.Sum_length _

/-- The digest of an 84-byte message: two blocks, the second one holding the last twenty
bytes of the message and the padding. -/
theorem sha1.Sum_two_blocks (x m : List Nat) (hx : x.length = 64) (hm : m.length = 20) :
    sha1.Sum (x ++ m) =
      sha1.bytes (sha1.block (sha1.block sha1.init x) (m ++ sha1.padding 84)) := by
  have hpad : (sha1.padding 84).length = 44 := by decide
  have hl : (x ++ m).length = 84 := by rw [List.length_append, hx, hm]
  have h2 : ∀ h p : List Nat,
      sha1.blocks 2 h p = sha1.block (sha1.block h (p.take 64)) ((p.drop 64).take 64) :=
    fun _ _ => rfl
  unfold sha1.Sum
  simp only []
  rw [hl]
  have hlen : (x ++ m ++ sha1.padding 84).length / 64 = 2 := by
    rw [List.length_append, hl, hpad]
  rw [hlen, h2, List.append_assoc, List.take_left' hx, List.drop_left' hx,
    List.take_of_length_le (by rw [List.length_append, hm, hpad])]
  rfl

/-- The last block of the digest of an 84-byte message whose last twenty bytes are the
words `v0 .. v4`. -/
theorem sha1.block_final (h0 h1 h2 h3 h4 v0 v1 v2 v3 v4 : Nat) (hv0 : v0 < 2 ^ 32)
    (hv1 : v1 < 2 ^ 32) (hv2 : v2 < 2 ^ 32) (hv3 : v3 < 2 ^ 32) (hv4 : v4 < 2 ^ 32) :
    sha1.block [h0, h1, h2, h3, h4] (sha1.bytes [v0, v1, v2, v3, v4] ++ sha1.padding 84) =
      sha1.compress h0 h1 h2 h3 h4 v0 v1 v2 v3 v4 0x80000000 0 0 0 0 0 0 0 0 0 672
        fun x0 x1 x2 x3 x4 => [x0, x1, x2, x3, x4] := by
  have hpad : sha1.words (sha1.padding 84) = [0x80000000, 0, 0, 0, 0, 0, 0, 0, 0, 0, 672] := by
    decide
  apply sha1.block_cons
  rw [sha1.words_bytes_append _ _ _, hpad]
  · rfl
  · intro w hw
    simp only [List.mem_cons, List.mem_singleton, List.not_mem_nil, or_false] at hw
    rcases hw with rfl | rfl | rfl | rfl | rfl <;> assumption

/-- The word-level HMAC computes the library HMAC of a 20-byte message, for a key of at
most 64 bytes whose inner and outer key blocks lead to the chaining values `i0 .. i4` and
`o0 .. o4`. -/
theorem hmacSha1_words (key : List Nat) (hkey : key.length ≤ 64) (i0 i1 i2 i3 i4 o0 o1 o2 o3 o4 :
    Nat)
    (hi : sha1.block sha1.init
      ((key ++ List.replicate (64 - key.length) 0).map (Nat.xor 0x36)) = [i0, i1, i2, i3, i4])
    (ho : sha1.block sha1.init
      ((key ++ List.replicate (64 - key.length) 0).map (Nat.xor 0x5c)) = [o0, o1, o2, o3, o4])
    (u0 u1 u2 u3 u4 : Nat) (hu0 : u0 < 2 ^ 32) (hu1 : u1 < 2 ^ 32) (hu2 : u2 < 2 ^ 32)
    (hu3 : u3 < 2 ^ 32) (hu4 : u4 < 2 ^ 32) :
    ∃ y0 y1 y2 y3 y4 : Nat, y0 < 2 ^ 32 ∧ y1 < 2 ^ 32 ∧ y2 < 2 ^ 32 ∧ y3 < 2 ^ 32 ∧
      y4 < 2 ^ 32 ∧
      hmacSha1 key (sha1.bytes [u0, u1, u2, u3, u4]) = sha1.bytes [y0, y1, y2, y3, y4] ∧
      ∀ (α : Type) (k : Nat → Nat → Nat → Nat → Nat → α),
        hmacSha1.words i0 i1 i2 i3 i4 o0 o1 o2 o3 o4 u0 u1 u2 u3 u4 k = k y0 y1 y2 y3 y4 := by
  obtain ⟨x0, x1, x2, x3, x4, hx0, hx1, hx2, hx3, hx4, hx⟩ :=
    sha1.compress_eq i0 i1 i2 i3 i4 u0 u1 u2 u3 u4 0x80000000 0 0 0 0 0 0 0 0 0 672
  obtain ⟨y0, y1, y2, y3, y4, hy0, hy1, hy2, hy3, hy4, hy⟩ :=
    sha1.compress_eq o0 o1 o2 o3 o4 x0 x1 x2 x3 x4 0x80000000 0 0 0 0 0 0 0 0 0 672
  have h20 : ∀ v0 v1 v2 v3 v4 : Nat, (sha1.bytes [v0, v1, v2, v3, v4]).length = 20 :=
    fun _ _ _ _ _ => rfl
  have hlen : ∀ c : Nat,
      ((key ++ List.replicate (64 - key.length) 0).map (Nat.xor c)).length = 64 := by
    intro c
    rw [List.length_map, List.length_append, List.length_replicate]
    omega
  refine ⟨y0, y1, y2, y3, y4, hy0, hy1, hy2, hy3, hy4, ?_, fun α k => ?_⟩
  · unfold hmacSha1
    simp only [if_neg (not_lt.mpr hkey)]
    rw [sha1.Sum_two_blocks _ _ (hlen _) (h20 _ _ _ _ _), hi,
      sha1.block_final i0 i1 i2 i3 i4 u0 u1 u2 u3 u4 hu0 hu1 hu2 hu3 hu4, hx,
      sha1.Sum_two_blocks _ _ (hlen _) (h20 _ _ _ _ _), ho,
      sha1.block_final o0 o1 o2 o3 o4 x0 x1 x2 x3 x4 hx0 hx1 hx2 hx3 hx4, hy]
  · unfold hmacSha1.words
    rw [hx, hy]

/-! ## Published test vectors of the hash -/

/-- The digest of `abc` (FIPS 180, example of a one-block message). -/
theorem sha1.Sum_abc :
    hex (sha1.Sum (stringBytes "abc")) = "a9993e364706816aba3e25717850c26c9cd0d89d" := by
  set_option maxRecDepth 10000000 in decide!

/-- The digest of a 56-byte message, which takes two blocks (FIPS 180, second example). -/
theorem sha1.Sum_two_block_message :
    hex (sha1.Sum (stringBytes "abcdbcdecdefdefgefghfghighijhijkijkljklmklmnlmnomnopnopq")) =
      "84983e441c3bd26ebaae4aa1f95129e5e54670f1" := by
  set_option maxRecDepth 10000000 in decide!

/-- Test case 2 of RFC 2202 for HMAC-SHA1. -/
theorem hmacSha1_rfc2202_case2 :
    hex (hmacSha1 (stringBytes "Jefe") (stringBytes "what do ya want for nothing?")) =
      "effcdf6ae5eb2fa2d27416d5f184df9c259a7c79" := by
  set_option maxRecDepth 10000000 in decide!

/-- Test case 6 of RFC 2202 for HMAC-SHA1: a key longer than a block. -/
theorem hmacSha1_rfc2202_case6 :
    hex (hmacSha1 (List.replicate 80 0xaa)
        (stringBytes "Test Using Larger Than Block-Size Key - Hash Key First")) =
      "aa4ae5e15272d00e95705637ce8a3b55ed402112" := by
  set_option maxRecDepth 10000000 in decide!

/-! ## PBKDF2 with HMAC-SHA1 on words -/

theorem xor_div_mod (a b k : Nat) :
    Nat.xor a b / 2 ^ k % 256 = Nat.xor (a / 2 ^ k % 256) (b / 2 ^ k % 256) := by
  show (a ^^^ b) / 2 ^ k % 2 ^ 8 = (a / 2 ^ k % 2 ^ 8) ^^^ (b / 2 ^ k % 2 ^ 8)
  apply Nat.eq_of_testBit_eq
  intro i
  simp only [← Nat.shiftRight_eq_div_pow, Nat.testBit_mod_two_pow, Nat.testBit_shiftRight,
    Nat.testBit_xor]
  by_cases h : i < 8 <;> simp [h]

theorem be32_xor (a b : Nat) :
    be32 (Nat.xor a b) = List.zipWith Nat.xor (be32 a) (be32 b) := by
  have h0 := xor_div_mod a b 0
  rw [Nat.pow_zero, Nat.div_one, Nat.div_one, Nat.div_one] at h0
  simp only [be32, List.zipWith_cons_cons, List.zipWith_nil_right, xor_div_mod, h0]

theorem sha1.bytes_xor (t0 t1 t2 t3 t4 y0 y1 y2 y3 y4 : Nat) :
    List.zipWith Nat.xor (sha1.bytes [t0, t1, t2, t3, t4]) (sha1.bytes [y0, y1, y2, y3, y4]) =
      sha1.bytes [Nat.xor t0 y0, Nat.xor t1 y1, Nat.xor t2 y2, Nat.xor t3 y3,
        Nat.xor t4 y4] := by
  simp only [sha1.bytes, List.flatMap_cons, List.flatMap_nil, be32_xor, List.append_nil]
  simp only [be32, List.cons_append, List.nil_append, List.zipWith_cons_cons,
    List.zipWith_nil_right]

/-- The word-level loop follows the loop of `pbkdf2.Key`: when `n` iterations on words lead
from `U`, `T` to the words `U1`, `T1`, then `n + m` iterations of the library loop from the
bytes of `U`, `T` are `m` iterations from the bytes of `U1`, `T1`. -/
theorem pbkdf2Iterate_words (key : List Nat) (hkey : key.length ≤ 64) (i0 i1 i2 i3 i4 o0 o1 o2 o3 o4
    : Nat)
    (hi : sha1.block sha1.init
      ((key ++ List.replicate (64 - key.length) 0).map (Nat.xor 0x36)) = [i0, i1, i2, i3, i4])
    (ho : sha1.block sha1.init
      ((key ++ List.replicate (64 - key.length) 0).map (Nat.xor 0x5c)) = [o0, o1, o2, o3, o4])
    (m : Nat) :
    ∀ (n u0 u1 u2 u3 u4 t0 t1 t2 t3 t4 : Nat), u0 < 2 ^ 32 → u1 < 2 ^ 32 → u2 < 2 ^ 32 → u3 < 2 ^ 32
        →
      u4 < 2 ^ 32 → ∀ (a0 a1 a2 a3 a4 b0 b1 b2 b3 b4 : Nat),
      pbkdf2Iterate.words i0 i1 i2 i3 i4 o0 o1 o2 o3 o4 n u0 u1 u2 u3 u4 t0 t1 t2 t3 t4 =
        [a0, a1, a2, a3, a4, b0, b1, b2, b3, b4] →
      pbkdf2Iterate hmacSha1 key (n + m) (sha1.bytes [u0, u1, u2, u3, u4])
          (sha1.bytes [t0, t1, t2, t3, t4]) =
        pbkdf2Iterate hmacSha1 key m (sha1.bytes [a0, a1, a2, a3, a4])
          (sha1.bytes [b0, b1, b2, b3, b4]) := by
  intro n
  induction n with
  | zero =>
    intro u0 u1 u2 u3 u4 t0 t1 t2 t3 t4 _ _ _ _ _ a0 a1 a2 a3 a4 b0 b1 b2 b3 b4 h
    simp only [pbkdf2Iterate.words, List.cons.injEq, and_true] at h
    obtain ⟨rfl, rfl, rfl, rfl, rfl, rfl, rfl, rfl, rfl, rfl⟩ := h
    rw [Nat.zero_add]
  | succ n ih =>
    intro u0 u1 u2 u3 u4 t0 t1 t2 t3 t4 hu0 hu1 hu2 hu3 hu4 a0 a1 a2 a3 a4 b0 b1 b2 b3 b4 h
    obtain ⟨y0, y1, y2, y3, y4, hy0, hy1, hy2, hy3, hy4, hb, hw⟩ :=
      hmacSha1_words key hkey i0 i1 i2 i3 i4 o0 o1 o2 o3 o4 hi ho u0 u1 u2 u3 u4 hu0 hu1 hu2 hu3 hu4
    rw [pbkdf2Iterate.words, hw] at h
    simp only [seqNat_eq] at h
    have h1 := ih y0 y1 y2 y3 y4 _ _ _ _ _ hy0 hy1 hy2 hy3 hy4 _ _ _ _ _ _ _ _ _ _ h
    rw [show n + 1 + m = (n + m) + 1 by omega, pbkdf2Iterate, hb, sha1.bytes_xor]
    exact h1

/-- One run of the word-level loop as a step of the library loop. -/
theorem pbkdf2Iterate_chunk (key : List Nat) (hkey : key.length ≤ 64) (i0 i1 i2 i3 i4 o0 o1 o2 o3 o4
    : Nat)
    (hi : sha1.block sha1.init
      ((key ++ List.replicate (64 - key.length) 0).map (Nat.xor 0x36)) = [i0, i1, i2, i3, i4])
    (ho : sha1.block sha1.init
      ((key ++ List.replicate (64 - key.length) 0).map (Nat.xor 0x5c)) = [o0, o1, o2, o3, o4])
    (N n m : Nat) (hN : N = n + m) (u0 u1 u2 u3 u4 t0 t1 t2 t3 t4 : Nat) (hu0 : u0 < 2 ^ 32) (hu1 :
        u1 < 2 ^ 32)
    (hu2 : u2 < 2 ^ 32) (hu3 : u3 < 2 ^ 32) (hu4 : u4 < 2 ^ 32)
    (a0 a1 a2 a3 a4 b0 b1 b2 b3 b4 : Nat)
    (h : pbkdf2Iterate.words i0 i1 i2 i3 i4 o0 o1 o2 o3 o4 n u0 u1 u2 u3 u4 t0 t1 t2 t3 t4 =
      [a0, a1, a2, a3, a4, b0, b1, b2, b3, b4]) :
    pbkdf2Iterate hmacSha1 key N (sha1.bytes [u0, u1, u2, u3, u4])
        (sha1.bytes [t0, t1, t2, t3, t4]) =
      pbkdf2Iterate hmacSha1 key m (sha1.bytes [a0, a1, a2, a3, a4])
        (sha1.bytes [b0, b1, b2, b3, b4]) := by
  subst hN
  exact pbkdf2Iterate_words key hkey i0 i1 i2 i3 i4 o0 o1 o2 o3 o4 hi ho m n u0 u1 u2 u3 u4 t0 t1 t2
      t3 t4 hu0 hu1 hu2 hu3 hu4
    a0 a1 a2 a3 a4 b0 b1 b2 b3 b4 h
/-! ## The derivation for the network `IEEE` and the passphrase `password`

The 4096 iterations of each of the two blocks are evaluated on words, in runs of 45
iterations; every statement below is closed and is decided by evaluation. -/

theorem password_length : (stringBytes "password").length ≤ 64 := by
  decide

theorem password_inner :
    sha1.block sha1.init
        (((stringBytes "password") ++
            List.replicate (64 - (stringBytes "password").length) 0).map (Nat.xor 0x36)) =
      [139374863, 2134623672, 1533741889, 1322582083, 4293336901] := by
  set_option maxRecDepth 10000000 in decide!

theorem password_outer :
    sha1.block sha1.init
        (((stringBytes "password") ++
            List.replicate (64 - (stringBytes "password").length) 0).map (Nat.xor 0x5c)) =
      [4038823909, 3047407014, 2661199257, 2870972474, 2287869599] := by
  set_option maxRecDepth 10000000 in decide!

theorem pbkdf2Block_succ (hmac : List Nat → List Nat → List Nat) (password salt : List Nat)
    (n block : Nat) :
    pbkdf2Block hmac password salt (n + 1) block =
      pbkdf2Iterate hmac password n (hmac password (salt ++ be32 block))
        (hmac password (salt ++ be32 block)) :=
  rfl

theorem pbkdf2Iterate_zero (hmac : List Nat → List Nat → List Nat) (password U T : List Nat) :
    pbkdf2Iterate hmac password 0 U T = T :=
  rfl

/-- The first HMAC of block 1. -/
theorem hmacSha1_first_1 :
    hmacSha1 (stringBytes "password") (stringBytes "IEEE" ++ be32 1) =
      sha1.bytes [1695092035, 3573678276, 4033521371, 840965328, 4157012238] := by
  set_option maxRecDepth 10000000 in decide!

theorem pbkdf2Iterate_run_1_0 :
    pbkdf2Iterate hmacSha1 (stringBytes "password") 4095
        (sha1.bytes [1695092035, 3573678276, 4033521371, 840965328, 4157012238])
        (sha1.bytes [1695092035, 3573678276, 4033521371, 840965328, 4157012238]) =
      pbkdf2Iterate hmacSha1 (stringBytes "password") 4050
        (sha1.bytes [2132940183, 2520570032, 2144483349, 1339744788, 3532146891])
        (sha1.bytes [2067989472, 837154199, 2993941636, 3852784541, 61761604]) :=
  pbkdf2Iterate_chunk _ password_length _ _ _ _ _ _ _ _ _ _ password_inner password_outer
    4095 45 4050 (by decide) _ _ _ _ _ _ _ _ _ _
    (by decide) (by decide) (by decide) (by decide) (by decide) _ _ _ _ _ _ _ _ _ _
    (by set_option maxRecDepth 10000000 in decide!)

theorem pbkdf2Iterate_run_1_1 :
    pbkdf2Iterate hmacSha1 (stringBytes "password") 4050
        (sha1.bytes [2132940183, 2520570032, 2144483349, 1339744788, 3532146891])
        (sha1.bytes [2067989472, 837154199, 2993941636, 3852784541, 61761604]) =
      pbkdf2Iterate hmacSha1 (stringBytes "password") 4005
        (sha1.bytes [3691465605, 1162309896, 1847750059, 557789993, 502409857])
        (sha1.bytes [166072242, 1467825988, 3041911407, 1203277820, 1607525982]) :=
  pbkdf2Iterate_chunk _ password_length _ _ _ _ _ _ _ _ _ _ password_inner password_outer
    4050 45 4005 (by decide) _ _ _ _ _ _ _ _ _ _
    (by decide) (by decide) (by decide) (by decide) (by decide) _ _ _ _ _ _ _ _ _ _
    (by set_option maxRecDepth 10000000 in decide!)

theorem pbkdf2Iterate_run_1_2 :
    pbkdf2Iterate hmacSha1 (stringBytes "password") 4005
        (sha1.bytes [3691465605, 1162309896, 1847750059, 557789993, 502409857])
        (sha1.bytes [166072242, 1467825988, 3041911407, 1203277820, 1607525982]) =
      pbkdf2Iterate hmacSha1 (stringBytes "password") 3960
        (sha1.bytes [2676512914, 1944931680, 102309748, 802725532, 1636678582])
        (sha1.bytes [3582848651, 759525641, 1472495551, 4086082174, 1554344947]) :=
  pbkdf2Iterate_chunk _ password_length _ _ _ _ _ _ _ _ _ _ password_inner password_outer
    4005 45 3960 (by decide) _ _ _ _ _ _ _ _ _ _
    (by decide) (by decide) (by decide) (by decide) (by decide) _ _ _ _ _ _ _ _ _ _
    (by set_option maxRecDepth 10000000 in decide!)

theorem pbkdf2Iterate_run_1_3 :
    pbkdf2Iterate hmacSha1 (stringBytes "password") 3960
        (sha1.bytes [2676512914, 1944931680, 102309748, 802725532, 1636678582])
        (sha1.bytes [3582848651, 759525641, 1472495551, 4086082174, 1554344947]) =
      pbkdf2Iterate hmacSha1 (stringBytes "password") 3915
        (sha1.bytes [3409217442, 759931738, 3689943417, 3171625590, 1717136784])
        (sha1.bytes [848482547, 874360594, 1087404652, 1473786870, 2723579502]) :=
  pbkdf2Iterate_chunk _ password_length _ _ _ _ _ _ _ _ _ _ password_inner password_outer
    3960 45 3915 (by decide) _ _ _ _ _ _ _ _ _ _
    (by decide) (by decide) (by decide) (by decide) (by decide) _ _ _ _ _ _ _ _ _ _
    (by set_option maxRecDepth 10000000 in decide!)

theorem pbkdf2Iterate_run_1_4 :
    pbkdf2Iterate hmacSha1 (stringBytes "password") 3915
        (sha1.bytes [3409217442, 759931738, 3689943417, 3171625590, 1717136784])
        (sha1.bytes [848482547, 874360594, 1087404652, 1473786870, 2723579502]) =
      pbkdf2Iterate hmacSha1 (stringBytes "password") 3870
        (sha1.bytes [63058387, 1498245883, 1120595369, 583740287, 1691086672])
        (sha1.bytes [100887889, 3016815878, 2330001236, 2162339743, 2989529394]) :=
  pbkdf2Iterate_chunk _ password_length _ _ _ _ _ _ _ _ _ _ password_inner password_outer
    3915 45 3870 (by decide) _ _ _ _ _ _ _ _ _ _
    (by decide) (by decide) (by decide) (by decide) (by decide) _ _ _ _ _ _ _ _ _ _
    (by set_option maxRecDepth 10000000 in decide!)

theorem pbkdf2Iterate_run_1_5 :
    pbkdf2Iterate hmacSha1 (stringBytes "password") 3870
        (sha1.bytes [63058387, 1498245883, 1120595369, 583740287, 1691086672])
        (sha1.bytes [100887889, 3016815878, 2330001236, 2162339743, 2989529394]) =
      pbkdf2Iterate hmacSha1 (stringBytes "password") 3825
        (sha1.bytes [2953321441, 2392262135, 2529499074, 572100703, 1533614425])
        (sha1.bytes [1543415479, 75137624, 922933218, 2396515926, 1941942410]) :=
  pbkdf2Iterate_chunk _ password_length _ _ _ _ _ _ _ _ _ _ password_inner password_outer
    3870 45 3825 (by decide) _ _ _ _ _ _ _ _ _ _
    (by decide) (by decide) (by decide) (by decide) (by decide) _ _ _ _ _ _ _ _ _ _
    (by set_option maxRecDepth 10000000 in decide!)

theorem pbkdf2Iterate_run_1_6 :
    pbkdf2Iterate hmacSha1 (stringBytes "password") 3825
        (sha1.bytes [2953321441, 2392262135, 2529499074, 572100703, 1533614425])
        (sha1.bytes [1543415479, 75137624, 922933218, 2396515926, 1941942410]) =
      pbkdf2Iterate hmacSha1 (stringBytes "password") 3780
        (sha1.bytes [3116087016, 562959416, 124568613, 2827237779, 3908784982])
        (sha1.bytes [1380053006, 732280184, 2958695467, 241050103, 2203433641]) :=
  pbkdf2Iterate_chunk _ password_length _ _ _ _ _ _ _ _ _ _ password_inner password_outer
    3825 45 3780 (by decide) _ _ _ _ _ _ _ _ _ _
    (by decide) (by decide) (by decide) (by decide) (by decide) _ _ _ _ _ _ _ _ _ _
    (by set_option maxRecDepth 10000000 in decide!)

theorem pbkdf2Iterate_run_1_7 :
    pbkdf2Iterate hmacSha1 (stringBytes "password") 3780
        (sha1.bytes [3116087016, 562959416, 124568613, 2827237779, 3908784982])
        (sha1.bytes [1380053006, 732280184, 2958695467, 241050103, 2203433641]) =
      pbkdf2Iterate hmacSha1 (stringBytes "password") 3735
        (sha1.bytes [1081227263, 2972877926, 1707171983, 3910971238, 2185068769])
        (sha1.bytes [2352617046, 2614087043, 3413996845, 1449873988, 2048836662]) :=
  pbkdf2Iterate_chunk _ password_length _ _ _ _ _ _ _ _ _ _ password_inner password_outer
    3780 45 3735 (by decide) _ _ _ _ _ _ _ _ _ _
    (by decide) (by decide) (by decide) (by decide) (by decide) _ _ _ _ _ _ _ _ _ _
    (by set_option maxRecDepth 10000000 in decide!)

theorem pbkdf2Iterate_run_1_8 :
    pbkdf2Iterate hmacSha1 (stringBytes "password") 3735
        (sha1.bytes [1081227263, 2972877926, 1707171983, 3910971238, 2185068769])
        (sha1.bytes [2352617046, 2614087043, 3413996845, 1449873988, 2048836662]) =
      pbkdf2Iterate hmacSha1 (stringBytes "password") 3690
        (sha1.bytes [2407991394, 1853982380, 17041159, 298570245, 109242974])
        (sha1.bytes [4019399855, 693768495, 2687952096, 1616522042, 1605159645]) :=
  pbkdf2Iterate_chunk _ password_length _ _ _ _ _ _ _ _ _ _ password_inner password_outer
    3735 45 3690 (by decide) _ _ _ _ _ _ _ _ _ _
    (by decide) (by decide) (by decide) (by decide) (by decide) _ _ _ _ _ _ _ _ _ _
    (by set_option maxRecDepth 10000000 in decide!)

theorem pbkdf2Iterate_run_1_9 :
    pbkdf2Iterate hmacSha1 (stringBytes "password") 3690
        (sha1.bytes [2407991394, 1853982380, 17041159, 298570245, 109242974])
        (sha1.bytes [4019399855, 693768495, 2687952096, 1616522042, 1605159645]) =
      pbkdf2Iterate hmacSha1 (stringBytes "password") 3645
        (sha1.bytes [4108213549, 778216897, 2996528926, 997923045, 1800983110])
        (sha1.bytes [610697626, 3477772891, 4118616732, 3095672755, 1422280814]) :=
  pbkdf2Iterate_chunk _ password_length _ _ _ _ _ _ _ _ _ _ password_inner password_outer
    3690 45 3645 (by decide) _ _ _ _ _ _ _ _ _ _
    (by decide) (by decide) (by decide) (by decide) (by decide) _ _ _ _ _ _ _ _ _ _
    (by set_option maxRecDepth 10000000 in decide!)

theorem pbkdf2Iterate_run_1_10 :
    pbkdf2Iterate hmacSha1 (stringBytes "password") 3645
        (sha1.bytes [4108213549, 778216897, 2996528926, 997923045, 1800983110])
        (sha1.bytes [610697626, 3477772891, 4118616732, 3095672755, 1422280814]) =
      pbkdf2Iterate hmacSha1 (stringBytes "password") 3600
        (sha1.bytes [503319625, 2895352191, 2029702408, 399355970, 813902127])
        (sha1.bytes [2298682944, 2477046412, 243848343, 2834646658, 3141860438]) :=
  pbkdf2Iterate_chunk _ password_length _ _ _ _ _ _ _ _ _ _ password_inner password_outer
    3645 45 3600 (by decide) _ _ _ _ _ _ _ _ _ _
    (by decide) (by decide) (by decide) (by decide) (by decide) _ _ _ _ _ _ _ _ _ _
    (by set_option maxRecDepth 10000000 in decide!)

theorem pbkdf2Iterate_run_1_11 :
    pbkdf2Iterate hmacSha1 (stringBytes "password") 3600
        (sha1.bytes [503319625, 2895352191, 2029702408, 399355970, 813902127])
        (sha1.bytes [2298682944, 2477046412, 243848343, 2834646658, 3141860438]) =
      pbkdf2Iterate hmacSha1 (stringBytes "password") 3555
        (sha1.bytes [2729813526, 853422373, 3389982936, 2128955678, 3791007826])
        (sha1.bytes [3832073785, 250164341, 2563139043, 399881149, 2559565657]) :=
  pbkdf2Iterate_chunk _ password_length _ _ _ _ _ _ _ _ _ _ password_inner password_outer
    3600 45 3555 (by decide) _ _ _ _ _ _ _ _ _ _
    (by decide) (by decide) (by decide) (by decide) (by decide) _ _ _ _ _ _ _ _ _ _
    (by set_option maxRecDepth 10000000 in decide!)

theorem pbkdf2Iterate_run_1_12 :
    pbkdf2Iterate hmacSha1 (stringBytes "password") 3555
        (sha1.bytes [2729813526, 853422373, 3389982936, 2128955678, 3791007826])
        (sha1.bytes [3832073785, 250164341, 2563139043, 399881149, 2559565657]) =
      pbkdf2Iterate hmacSha1 (stringBytes "password") 3510
        (sha1.bytes [3128231162, 172445527, 2201921341, 3619872836, 175444616])
        (sha1.bytes [1817120545, 1407975139, 534285328, 4111423467, 2116059989]) :=
  pbkdf2Iterate_chunk _ password_length _ _ _ _ _ _ _ _ _ _ password_inner password_outer
    3555 45 3510 (by decide) _ _ _ _ _ _ _ _ _ _
    (by decide) (by decide) (by decide) (by decide) (by decide) _ _ _ _ _ _ _ _ _ _
    (by set_option maxRecDepth 10000000 in decide!)

theorem pbkdf2Iterate_run_1_13 :
    pbkdf2Iterate hmacSha1 (stringBytes "password") 3510
        (sha1.bytes [3128231162, 172445527, 2201921341, 3619872836, 175444616])
        (sha1.bytes [1817120545, 1407975139, 534285328, 4111423467, 2116059989]) =
      pbkdf2Iterate hmacSha1 (stringBytes "password") 3465
        (sha1.bytes [3292059527, 2742264971, 1079023876, 1052224079, 1296918798])
        (sha1.bytes [4049176233, 2301725657, 3102678640, 3194845173, 15991926]) :=
  pbkdf2Iterate_chunk _ password_length _ _ _ _ _ _ _ _ _ _ password_inner password_outer
    3510 45 3465 (by decide) _ _ _ _ _ _ _ _ _ _
    (by decide) (by decide) (by decide) (by decide) (by decide) _ _ _ _ _ _ _ _ _ _
    (by set_option maxRecDepth 10000000 in decide!)

theorem pbkdf2Iterate_run_1_14 :
    pbkdf2Iterate hmacSha1 (stringBytes "password") 3465
        (sha1.bytes [3292059527, 2742264971, 1079023876, 1052224079, 1296918798])
        (sha1.bytes [4049176233, 2301725657, 3102678640, 3194845173, 15991926]) =
      pbkdf2Iterate hmacSha1 (stringBytes "password") 3420
        (sha1.bytes [2061364874, 3537407684, 1489226200, 3619446178, 2590896723])
        (sha1.bytes [3469803426, 2013328881, 122952351, 990659485, 293204592]) :=
  pbkdf2Iterate_chunk _ password_length _ _ _ _ _ _ _ _ _ _ password_inner password_outer
    3465 45 3420 (by decide) _ _ _ _ _ _ _ _ _ _
    (by decide) (by decide) (by decide) (by decide) (by decide) _ _ _ _ _ _ _ _ _ _
    (by set_option maxRecDepth 10000000 in decide!)

theorem pbkdf2Iterate_run_1_15 :
    pbkdf2Iterate hmacSha1 (stringBytes "password") 3420
        (sha1.bytes [2061364874, 3537407684, 1489226200, 3619446178, 2590896723])
        (sha1.bytes [3469803426, 2013328881, 122952351, 990659485, 293204592]) =
      pbkdf2Iterate hmacSha1 (stringBytes "password") 3375
        (sha1.bytes [2683722834, 2335734156, 3988896102, 1969411283, 304244736])
        (sha1.bytes [4072678326, 3914841953, 3492961973, 2256436919, 2067589828]) :=
  pbkdf2Iterate_chunk _ password_length _ _ _ _ _ _ _ _ _ _ password_inner password_outer
    3420 45 3375 (by decide) _ _ _ _ _ _ _ _ _ _
    (by decide) (by decide) (by decide) (by decide) (by decide) _ _ _ _ _ _ _ _ _ _
    (by set_option maxRecDepth 10000000 in decide!)

theorem pbkdf2Iterate_run_1_16 :
    pbkdf2Iterate hmacSha1 (stringBytes "password") 3375
        (sha1.bytes [2683722834, 2335734156, 3988896102, 1969411283, 304244736])
        (sha1.bytes [4072678326, 3914841953, 3492961973, 2256436919, 2067589828]) =
      pbkdf2Iterate hmacSha1 (stringBytes "password") 3330
        (sha1.bytes [3119479906, 619963379, 2001123966, 2552583163, 1173997900])
        (sha1.bytes [3549649593, 1354357362, 1651498643, 2933141658, 3962767776]) :=
  pbkdf2Iterate_chunk _ password_length _ _ _ _ _ _ _ _ _ _ password_inner password_outer
    3375 45 3330 (by decide) _ _ _ _ _ _ _ _ _ _
    (by decide) (by decide) (by decide) (by decide) (by decide) _ _ _ _ _ _ _ _ _ _
    (by set_option maxRecDepth 10000000 in decide!)

theorem pbkdf2Iterate_run_1_17 :
    pbkdf2Iterate hmacSha1 (stringBytes "password") 3330
        (sha1.bytes [3119479906, 619963379, 2001123966, 2552583163, 1173997900])
        (sha1.bytes [3549649593, 1354357362, 1651498643, 2933141658, 3962767776]) =
      pbkdf2Iterate hmacSha1 (stringBytes "password") 3285
        (sha1.bytes [1481667581, 1280940172, 2597399809, 3753984952, 4223677848])
        (sha1.bytes [68136786, 2471949367, 3167049474, 723866207, 2783287600]) :=
  pbkdf2Iterate_chunk _ password_length _ _ _ _ _ _ _ _ _ _ password_inner password_outer
    3330 45 3285 (by decide) _ _ _ _ _ _ _ _ _ _
    (by decide) (by decide) (by decide) (by decide) (by decide) _ _ _ _ _ _ _ _ _ _
    (by set_option maxRecDepth 10000000 in decide!)

theorem pbkdf2Iterate_run_1_18 :
    pbkdf2Iterate hmacSha1 (stringBytes "password") 3285
        (sha1.bytes [1481667581, 1280940172, 2597399809, 3753984952, 4223677848])
        (sha1.bytes [68136786, 2471949367, 3167049474, 723866207, 2783287600]) =
      pbkdf2Iterate hmacSha1 (stringBytes "password") 3240
        (sha1.bytes [142656360, 4213072719, 3895638948, 814577705, 1425946199])
        (sha1.bytes [1736542744, 3055695711, 4125586465, 657263332, 3841406295]) :=
  pbkdf2Iterate_chunk _ password_length _ _ _ _ _ _ _ _ _ _ password_inner password_outer
    3285 45 3240 (by decide) _ _ _ _ _ _ _ _ _ _
    (by decide) (by decide) (by decide) (by decide) (by decide) _ _ _ _ _ _ _ _ _ _
    (by set_option maxRecDepth 10000000 in decide!)

theorem pbkdf2Iterate_run_1_19 :
    pbkdf2Iterate hmacSha1 (stringBytes "password") 3240
        (sha1.bytes [142656360, 4213072719, 3895638948, 814577705, 1425946199])
        (sha1.bytes [1736542744, 3055695711, 4125586465, 657263332, 3841406295]) =
      pbkdf2Iterate hmacSha1 (stringBytes "password") 3195
        (sha1.bytes [1105711609, 1671989647, 1679739274, 408800757, 4132207161])
        (sha1.bytes [55340722, 1790545816, 519404224, 390431587, 3643996096]) :=
  pbkdf2Iterate_chunk _ password_length _ _ _ _ _ _ _ _ _ _ password_inner password_outer
    3240 45 3195 (by decide) _ _ _ _ _ _ _ _ _ _
    (by decide) (by decide) (by decide) (by decide) (by decide) _ _ _ _ _ _ _ _ _ _
    (by set_option maxRecDepth 10000000 in decide!)

theorem pbkdf2Iterate_run_1_20 :
    pbkdf2Iterate hmacSha1 (stringBytes "password") 3195
        (sha1.bytes [1105711609, 1671989647, 1679739274, 408800757, 4132207161])
        (sha1.bytes [55340722, 1790545816, 519404224, 390431587, 3643996096]) =
      pbkdf2Iterate hmacSha1 (stringBytes "password") 3150
        (sha1.bytes [3668100250, 3807968554, 3101000438, 3829201894, 1341053771])
        (sha1.bytes [618078978, 49147322, 2320640530, 2779614725, 1331443769]) :=
  pbkdf2Iterate_chunk _ password_length _ _ _ _ _ _ _ _ _ _ password_inner password_outer
    3195 45 3150 (by decide) _ _ _ _ _ _ _ _ _ _
    (by decide) (by decide) (by decide) (by decide) (by decide) _ _ _ _ _ _ _ _ _ _
    (by set_option maxRecDepth 10000000 in decide!)

theorem pbkdf2Iterate_run_1_21 :
    pbkdf2Iterate hmacSha1 (stringBytes "password") 3150
        (sha1.bytes [3668100250, 3807968554, 3101000438, 3829201894, 1341053771])
        (sha1.bytes [618078978, 49147322, 2320640530, 2779614725, 1331443769]) =
      pbkdf2Iterate hmacSha1 (stringBytes "password") 3105
        (sha1.bytes [3523566123, 4262732395, 4146784106, 2398841552, 2341271535])
        (sha1.bytes [3419577219, 1699697930, 4017823550, 1739744082, 582647893]) :=
  pbkdf2Iterate_chunk _ password_length _ _ _ _ _ _ _ _ _ _ password_inner password_outer
    3150 45 3105 (by decide) _ _ _ _ _ _ _ _ _ _
    (by decide) (by decide) (by decide) (by decide) (by decide) _ _ _ _ _ _ _ _ _ _
    (by set_option maxRecDepth 10000000 in decide!)

theorem pbkdf2Iterate_run_1_22 :
    pbkdf2Iterate hmacSha1 (stringBytes "password") 3105
        (sha1.bytes [3523566123, 4262732395, 4146784106, 2398841552, 2341271535])
        (sha1.bytes [3419577219, 1699697930, 4017823550, 1739744082, 582647893]) =
      pbkdf2Iterate hmacSha1 (stringBytes "password") 3060
        (sha1.bytes [3251700512, 1595828966, 515776027, 3599507633, 1349413364])
        (sha1.bytes [349004365, 3727339128, 2838545896, 4150214163, 3730433087]) :=
  pbkdf2Iterate_chunk _ password_length _ _ _ _ _ _ _ _ _ _ password_inner password_outer
    3105 45 3060 (by decide) _ _ _ _ _ _ _ _ _ _
    (by decide) (by decide) (by decide) (by decide) (by decide) _ _ _ _ _ _ _ _ _ _
    (by set_option maxRecDepth 10000000 in decide!)

theorem pbkdf2Iterate_run_1_23 :
    pbkdf2Iterate hmacSha1 (stringBytes "password") 3060
        (sha1.bytes [3251700512, 1595828966, 515776027, 3599507633, 1349413364])
        (sha1.bytes [349004365, 3727339128, 2838545896, 4150214163, 3730433087]) =
      pbkdf2Iterate hmacSha1 (stringBytes "password") 3015
        (sha1.bytes [3560889243, 4065445289, 3757563947, 3720021277, 3020049])
        (sha1.bytes [2855232589, 1959339088, 636936425, 2045388996, 3751338043]) :=
  pbkdf2Iterate_chunk _ password_length _ _ _ _ _ _ _ _ _ _ password_inner password_outer
    3060 45 3015 (by decide) _ _ _ _ _ _ _ _ _ _
    (by decide) (by decide) (by decide) (by decide) (by decide) _ _ _ _ _ _ _ _ _ _
    (by set_option maxRecDepth 10000000 in decide!)

theorem pbkdf2Iterate_run_1_24 :
    pbkdf2Iterate hmacSha1 (stringBytes "password") 3015
        (sha1.bytes [3560889243, 4065445289, 3757563947, 3720021277, 3020049])
        (sha1.bytes [2855232589, 1959339088, 636936425, 2045388996, 3751338043]) =
      pbkdf2Iterate hmacSha1 (stringBytes "password") 2970
        (sha1.bytes [1650417412, 2407850041, 2814376313, 79900906, 2547320559])
        (sha1.bytes [3272406212, 3943252567, 977279866, 168224352, 2744489478]) :=
  pbkdf2Iterate_chunk _ password_length _ _ _ _ _ _ _ _ _ _ password_inner password_outer
    3015 45 2970 (by decide) _ _ _ _ _ _ _ _ _ _
    (by decide) (by decide) (by decide) (by decide) (by decide) _ _ _ _ _ _ _ _ _ _
    (by set_option maxRecDepth 10000000 in decide!)

theorem pbkdf2Iterate_run_1_25 :
    pbkdf2Iterate hmacSha1 (stringBytes "password") 2970
        (sha1.bytes [1650417412, 2407850041, 2814376313, 79900906, 2547320559])
        (sha1.bytes [3272406212, 3943252567, 977279866, 168224352, 2744489478]) =
      pbkdf2Iterate hmacSha1 (stringBytes "password") 2925
        (sha1.bytes [1947083727, 3804557472, 2481669193, 1543209538, 148836467])
        (sha1.bytes [858963899, 8937412, 59305008, 2685862023, 3270170504]) :=
  pbkdf2Iterate_chunk _ password_length _ _ _ _ _ _ _ _ _ _ password_inner password_outer
    2970 45 2925 (by decide) _ _ _ _ _ _ _ _ _ _
    (by decide) (by decide) (by decide) (by decide) (by decide) _ _ _ _ _ _ _ _ _ _
    (by set_option maxRecDepth 10000000 in decide!)

theorem pbkdf2Iterate_run_1_26 :
    pbkdf2Iterate hmacSha1 (stringBytes "password") 2925
        (sha1.bytes [1947083727, 3804557472, 2481669193, 1543209538, 148836467])
        (sha1.bytes [858963899, 8937412, 59305008, 2685862023, 3270170504]) =
      pbkdf2Iterate hmacSha1 (stringBytes "password") 2880
        (sha1.bytes [3372268661, 2368314076, 624890340, 1184646518, 2478893965])
        (sha1.bytes [4245790393, 414184717, 392766563, 2977616302, 1811893030]) :=
  pbkdf2Iterate_chunk _ password_length _ _ _ _ _ _ _ _ _ _ password_inner password_outer
    2925 45 2880 (by decide) _ _ _ _ _ _ _ _ _ _
    (by decide) (by decide) (by decide) (by decide) (by decide) _ _ _ _ _ _ _ _ _ _
    (by set_option maxRecDepth 10000000 in decide!)

theorem pbkdf2Iterate_run_1_27 :
    pbkdf2Iterate hmacSha1 (stringBytes "password") 2880
        (sha1.bytes [3372268661, 2368314076, 624890340, 1184646518, 2478893965])
        (sha1.bytes [4245790393, 414184717, 392766563, 2977616302, 1811893030]) =
      pbkdf2Iterate hmacSha1 (stringBytes "password") 2835
        (sha1.bytes [4227291313, 2032158014, 373565453, 3268546496, 2387222466])
        (sha1.bytes [3169911394, 2845374842, 3562403440, 2460970422, 1520101515]) :=
  pbkdf2Iterate_chunk _ password_length _ _ _ _ _ _ _ _ _ _ password_inner password_outer
    2880 45 2835 (by decide) _ _ _ _ _ _ _ _ _ _
    (by decide) (by decide) (by decide) (by decide) (by decide) _ _ _ _ _ _ _ _ _ _
    (by set_option maxRecDepth 10000000 in decide!)

theorem pbkdf2Iterate_run_1_28 :
    pbkdf2Iterate hmacSha1 (stringBytes "password") 2835
        (sha1.bytes [4227291313, 2032158014, 373565453, 3268546496, 2387222466])
        (sha1.bytes [3169911394, 2845374842, 3562403440, 2460970422, 1520101515]) =
      pbkdf2Iterate hmacSha1 (stringBytes "password") 2790
        (sha1.bytes [541244090, 3067333885, 2009644799, 3622199324, 2665242960])
        (sha1.bytes [111574352, 1583460270, 1042768541, 2950116203, 2551808460]) :=
  pbkdf2Iterate_chunk _ password_length _ _ _ _ _ _ _ _ _ _ password_inner password_outer
    2835 45 2790 (by decide) _ _ _ _ _ _ _ _ _ _
    (by decide) (by decide) (by decide) (by decide) (by decide) _ _ _ _ _ _ _ _ _ _
    (by set_option maxRecDepth 10000000 in decide!)

theorem pbkdf2Iterate_run_1_29 :
    pbkdf2Iterate hmacSha1 (stringBytes "password") 2790
        (sha1.bytes [541244090, 3067333885, 2009644799, 3622199324, 2665242960])
        (sha1.bytes [111574352, 1583460270, 1042768541, 2950116203, 2551808460]) =
      pbkdf2Iterate hmacSha1 (stringBytes "password") 2745
        (sha1.bytes [1010736616, 3851596828, 2247270854, 2131549535, 2219214605])
        (sha1.bytes [4048804410, 1688728583, 1945621647, 2641480422, 2052795513]) :=
  pbkdf2Iterate_chunk _ password_length _ _ _ _ _ _ _ _ _ _ password_inner password_outer
    2790 45 2745 (by decide) _ _ _ _ _ _ _ _ _ _
    (by decide) (by decide) (by decide) (by decide) (by decide) _ _ _ _ _ _ _ _ _ _
    (by set_option maxRecDepth 10000000 in decide!)

theorem pbkdf2Iterate_run_1_30 :
    pbkdf2Iterate hmacSha1 (stringBytes "password") 2745
        (sha1.bytes [1010736616, 3851596828, 2247270854, 2131549535, 2219214605])
        (sha1.bytes [4048804410, 1688728583, 1945621647, 2641480422, 2052795513]) =
      pbkdf2Iterate hmacSha1 (stringBytes "password") 2700
        (sha1.bytes [116658502, 3382071, 411651278, 775432855, 2525234396])
        (sha1.bytes [2319501412, 2905302261, 3761771225, 3037352545, 167153654]) :=
  pbkdf2Iterate_chunk _ password_length _ _ _ _ _ _ _ _ _ _ password_inner password_outer
    2745 45 2700 (by decide) _ _ _ _ _ _ _ _ _ _
    (by decide) (by decide) (by decide) (by decide) (by decide) _ _ _ _ _ _ _ _ _ _
    (by set_option maxRecDepth 10000000 in decide!)

theorem pbkdf2Iterate_run_1_31 :
    pbkdf2Iterate hmacSha1 (stringBytes "password") 2700
        (sha1.bytes [116658502, 3382071, 411651278, 775432855, 2525234396])
        (sha1.bytes [2319501412, 2905302261, 3761771225, 3037352545, 167153654]) =
      pbkdf2Iterate hmacSha1 (stringBytes "password") 2655
        (sha1.bytes [2173913466, 4273629931, 1476168673, 331050059, 2567040789])
        (sha1.bytes [3591141232, 462690133, 3113575721, 1640873291, 2531133404]) :=
  pbkdf2Iterate_chunk _ password_length _ _ _ _ _ _ _ _ _ _ password_inner password_outer
    2700 45 2655 (by decide) _ _ _ _ _ _ _ _ _ _
    (by decide) (by decide) (by decide) (by decide) (by decide) _ _ _ _ _ _ _ _ _ _
    (by set_option maxRecDepth 10000000 in decide!)

theorem pbkdf2Iterate_run_1_32 :
    pbkdf2Iterate hmacSha1 (stringBytes "password") 2655
        (sha1.bytes [2173913466, 4273629931, 1476168673, 331050059, 2567040789])
        (sha1.bytes [3591141232, 462690133, 3113575721, 1640873291, 2531133404]) =
      pbkdf2Iterate hmacSha1 (stringBytes "password") 2610
        (sha1.bytes [2104067371, 4041491244, 1362158687, 1635279068, 2035091547])
        (sha1.bytes [1706451113, 836851406, 1938007492, 1718355398, 1056305281]) :=
  pbkdf2Iterate_chunk _ password_length _ _ _ _ _ _ _ _ _ _ password_inner password_outer
    2655 45 2610 (by decide) _ _ _ _ _ _ _ _ _ _
    (by decide) (by decide) (by decide) (by decide) (by decide) _ _ _ _ _ _ _ _ _ _
    (by set_option maxRecDepth 10000000 in decide!)

theorem pbkdf2Iterate_run_1_33 :
    pbkdf2Iterate hmacSha1 (stringBytes "password") 2610
        (sha1.bytes [2104067371, 4041491244, 1362158687, 1635279068, 2035091547])
        (sha1.bytes [1706451113, 836851406, 1938007492, 1718355398, 1056305281]) =
      pbkdf2Iterate hmacSha1 (stringBytes "password") 2565
        (sha1.bytes [2495399945, 2919276243, 810929145, 1491360376, 2635115729])
        (sha1.bytes [4225431627, 2737401053, 1065818343, 2461595269, 42387837]) :=
  pbkdf2Iterate_chunk _ password_length _ _ _ _ _ _ _ _ _ _ password_inner password_outer
    2610 45 2565 (by decide) _ _ _ _ _ _ _ _ _ _
    (by decide) (by decide) (by decide) (by decide) (by decide) _ _ _ _ _ _ _ _ _ _
    (by set_option maxRecDepth 10000000 in decide!)

theorem pbkdf2Iterate_run_1_34 :
    pbkdf2Iterate hmacSha1 (stringBytes "password") 2565
        (sha1.bytes [2495399945, 2919276243, 810929145, 1491360376, 2635115729])
        (sha1.bytes [4225431627, 2737401053, 1065818343, 2461595269, 42387837]) =
      pbkdf2Iterate hmacSha1 (stringBytes "password") 2520
        (sha1.bytes [2550647548, 1950106914, 4277763311, 2718093731, 2038948748])
        (sha1.bytes [2382696626, 2379923917, 430505325, 1478168407, 1774923817]) :=
  pbkdf2Iterate_chunk _ password_length _ _ _ _ _ _ _ _ _ _ password_inner password_outer
    2565 45 2520 (by decide) _ _ _ _ _ _ _ _ _ _
    (by decide) (by decide) (by decide) (by decide) (by decide) _ _ _ _ _ _ _ _ _ _
    (by set_option maxRecDepth 10000000 in decide!)

theorem pbkdf2Iterate_run_1_35 :
    pbkdf2Iterate hmacSha1 (stringBytes "password") 2520
        (sha1.bytes [2550647548, 1950106914, 4277763311, 2718093731, 2038948748])
        (sha1.bytes [2382696626, 2379923917, 430505325, 1478168407, 1774923817]) =
      pbkdf2Iterate hmacSha1 (stringBytes "password") 2475
        (sha1.bytes [4111784377, 3591888369, 3557147684, 3950533771, 3486853235])
        (sha1.bytes [406436206, 3853077508, 2599779679, 2364157675, 3509771012]) :=
  pbkdf2Iterate_chunk _ password_length _ _ _ _ _ _ _ _ _ _ password_inner password_outer
    2520 45 2475 (by decide) _ _ _ _ _ _ _ _ _ _
    (by decide) (by decide) (by decide) (by decide) (by decide) _ _ _ _ _ _ _ _ _ _
    (by set_option maxRecDepth 10000000 in decide!)

theorem pbkdf2Iterate_run_1_36 :
    pbkdf2Iterate hmacSha1 (stringBytes "password") 2475
        (sha1.bytes [4111784377, 3591888369, 3557147684, 3950533771, 3486853235])
        (sha1.bytes [406436206, 3853077508, 2599779679, 2364157675, 3509771012]) =
      pbkdf2Iterate hmacSha1 (stringBytes "password") 2430
        (sha1.bytes [1873972622, 4238361236, 1488612721, 1224926548, 2962072912])
        (sha1.bytes [3310151337, 4009765213, 3582984741, 3059066621, 2235596184]) :=
  pbkdf2Iterate_chunk _ password_length _ _ _ _ _ _ _ _ _ _ password_inner password_outer
    2475 45 2430 (by decide) _ _ _ _ _ _ _ _ _ _
    (by decide) (by decide) (by decide) (by decide) (by decide) _ _ _ _ _ _ _ _ _ _
    (by set_option maxRecDepth 10000000 in decide!)

theorem pbkdf2Iterate_run_1_37 :
    pbkdf2Iterate hmacSha1 (stringBytes "password") 2430
        (sha1.bytes [1873972622, 4238361236, 1488612721, 1224926548, 2962072912])
        (sha1.bytes [3310151337, 4009765213, 3582984741, 3059066621, 2235596184]) =
      pbkdf2Iterate hmacSha1 (stringBytes "password") 2385
        (sha1.bytes [1855974043, 2421051339, 90982451, 1165532034, 1651480181])
        (sha1.bytes [1510498502, 486980163, 570610212, 1432174530, 3237430269]) :=
  pbkdf2Iterate_chunk _ password_length _ _ _ _ _ _ _ _ _ _ password_inner password_outer
    2430 45 2385 (by decide) _ _ _ _ _ _ _ _ _ _
    (by decide) (by decide) (by decide) (by decide) (by decide) _ _ _ _ _ _ _ _ _ _
    (by set_option maxRecDepth 10000000 in decide!)

theorem pbkdf2Iterate_run_1_38 :
    pbkdf2Iterate hmacSha1 (stringBytes "password") 2385
        (sha1.bytes [1855974043, 2421051339, 90982451, 1165532034, 1651480181])
        (sha1.bytes [1510498502, 486980163, 570610212, 1432174530, 3237430269]) =
      pbkdf2Iterate hmacSha1 (stringBytes "password") 2340
        (sha1.bytes [534201388, 2037643681, 72458312, 1508044632, 2096994873])
        (sha1.bytes [462110885, 2679466763, 1540642108, 2936556500, 2655134899]) :=
  pbkdf2Iterate_chunk _ password_length _ _ _ _ _ _ _ _ _ _ password_inner password_outer
    2385 45 2340 (by decide) _ _ _ _ _ _ _ _ _ _
    (by decide) (by decide) (by decide) (by decide) (by decide) _ _ _ _ _ _ _ _ _ _
    (by set_option maxRecDepth 10000000 in decide!)

theorem pbkdf2Iterate_run_1_39 :
    pbkdf2Iterate hmacSha1 (stringBytes "password") 2340
        (sha1.bytes [534201388, 2037643681, 72458312, 1508044632, 2096994873])
        (sha1.bytes [462110885, 2679466763, 1540642108, 2936556500, 2655134899]) =
      pbkdf2Iterate hmacSha1 (stringBytes "password") 2295
        (sha1.bytes [1278799547, 2305881683, 2177207298, 3016247058, 2126120463])
        (sha1.bytes [1650004545, 2313731753, 3908511009, 4279091006, 4135969306]) :=
  pbkdf2Iterate_chunk _ password_length _ _ _ _ _ _ _ _ _ _ password_inner password_outer
    2340 45 2295 (by decide) _ _ _ _ _ _ _ _ _ _
    (by decide) (by decide) (by decide) (by decide) (by decide) _ _ _ _ _ _ _ _ _ _
    (by set_option maxRecDepth 10000000 in decide!)

theorem pbkdf2Iterate_run_1_40 :
    pbkdf2Iterate hmacSha1 (stringBytes "password") 2295
        (sha1.bytes [1278799547, 2305881683, 2177207298, 3016247058, 2126120463])
        (sha1.bytes [1650004545, 2313731753, 3908511009, 4279091006, 4135969306]) =
      pbkdf2Iterate hmacSha1 (stringBytes "password") 2250
        (sha1.bytes [2282428661, 689994190, 1501504493, 2830755106, 3792241211])
        (sha1.bytes [2615953521, 2111093716, 3235179271, 265089647, 502160429]) :=
  pbkdf2Iterate_chunk _ password_length _ _ _ _ _ _ _ _ _ _ password_inner password_outer
    2295 45 2250 (by decide) _ _ _ _ _ _ _ _ _ _
    (by decide) (by decide) (by decide) (by decide) (by decide) _ _ _ _ _ _ _ _ _ _
    (by set_option maxRecDepth 10000000 in decide!)

theorem pbkdf2Iterate_run_1_41 :
    pbkdf2Iterate hmacSha1 (stringBytes "password") 2250
        (sha1.bytes [2282428661, 689994190, 1501504493, 2830755106, 3792241211])
        (sha1.bytes [2615953521, 2111093716, 3235179271, 265089647, 502160429]) =
      pbkdf2Iterate hmacSha1 (stringBytes "password") 2205
        (sha1.bytes [3876556962, 2931318634, 1480279120, 3479506797, 2938900533])
        (sha1.bytes [3554706772, 3196288133, 727608995, 3399464339, 2868721457]) :=
  pbkdf2Iterate_chunk _ password_length _ _ _ _ _ _ _ _ _ _ password_inner password_outer
    2250 45 2205 (by decide) _ _ _ _ _ _ _ _ _ _
    (by decide) (by decide) (by decide) (by decide) (by decide) _ _ _ _ _ _ _ _ _ _
    (by set_option maxRecDepth 10000000 in decide!)

theorem pbkdf2Iterate_run_1_42 :
    pbkdf2Iterate hmacSha1 (stringBytes "password") 2205
        (sha1.bytes [3876556962, 2931318634, 1480279120, 3479506797, 2938900533])
        (sha1.bytes [3554706772, 3196288133, 727608995, 3399464339, 2868721457]) =
      pbkdf2Iterate hmacSha1 (stringBytes "password") 2160
        (sha1.bytes [2076790780, 2375280045, 495456911, 2437150909, 2073521968])
        (sha1.bytes [2385787244, 2409378363, 4073921356, 4208207148, 3714922202]) :=
  pbkdf2Iterate_chunk _ password_length _ _ _ _ _ _ _ _ _ _ password_inner password_outer
    2205 45 2160 (by decide) _ _ _ _ _ _ _ _ _ _
    (by decide) (by decide) (by decide) (by decide) (by decide) _ _ _ _ _ _ _ _ _ _
    (by set_option maxRecDepth 10000000 in decide!)

theorem pbkdf2Iterate_run_1_43 :
    pbkdf2Iterate hmacSha1 (stringBytes "password") 2160
        (sha1.bytes [2076790780, 2375280045, 495456911, 2437150909, 2073521968])
        (sha1.bytes [2385787244, 2409378363, 4073921356, 4208207148, 3714922202]) =
      pbkdf2Iterate hmacSha1 (stringBytes "password") 2115
        (sha1.bytes [2897201731, 3146699611, 1796471962, 4090533562, 3811257035])
        (sha1.bytes [1154738612, 4197107974, 2881397532, 2062241178, 1288108572]) :=
  pbkdf2Iterate_chunk _ password_length _ _ _ _ _ _ _ _ _ _ password_inner password_outer
    2160 45 2115 (by decide) _ _ _ _ _ _ _ _ _ _
    (by decide) (by decide) (by decide) (by decide) (by decide) _ _ _ _ _ _ _ _ _ _
    (by set_option maxRecDepth 10000000 in decide!)

theorem pbkdf2Iterate_run_1_44 :
    pbkdf2Iterate hmacSha1 (stringBytes "password") 2115
        (sha1.bytes [2897201731, 3146699611, 1796471962, 4090533562, 3811257035])
        (sha1.bytes [1154738612, 4197107974, 2881397532, 2062241178, 1288108572]) =
      pbkdf2Iterate hmacSha1 (stringBytes "password") 2070
        (sha1.bytes [3311780808, 2965769997, 710312380, 208471116, 2880535526])
        (sha1.bytes [4102512813, 3535476123, 3248632882, 616695497, 1329042704]) :=
  pbkdf2Iterate_chunk _ password_length _ _ _ _ _ _ _ _ _ _ password_inner password_outer
    2115 45 2070 (by decide) _ _ _ _ _ _ _ _ _ _
    (by decide) (by decide) (by decide) (by decide) (by decide) _ _ _ _ _ _ _ _ _ _
    (by set_option maxRecDepth 10000000 in decide!)

theorem pbkdf2Iterate_run_1_45 :
    pbkdf2Iterate hmacSha1 (stringBytes "password") 2070
        (sha1.bytes [3311780808, 2965769997, 710312380, 208471116, 2880535526])
        (sha1.bytes [4102512813, 3535476123, 3248632882, 616695497, 1329042704]) =
      pbkdf2Iterate hmacSha1 (stringBytes "password") 2025
        (sha1.bytes [2317737461, 2771291254, 1629742005, 2025063468, 371459074])
        (sha1.bytes [4200385025, 605110266, 1578048322, 1069454223, 3124073917]) :=
  pbkdf2Iterate_chunk _ password_length _ _ _ _ _ _ _ _ _ _ password_inner password_outer
    2070 45 2025 (by decide) _ _ _ _ _ _ _ _ _ _
    (by decide) (by decide) (by decide) (by decide) (by decide) _ _ _ _ _ _ _ _ _ _
    (by set_option maxRecDepth 10000000 in decide!)

theorem pbkdf2Iterate_run_1_46 :
    pbkdf2Iterate hmacSha1 (stringBytes "password") 2025
        (sha1.bytes [2317737461, 2771291254, 1629742005, 2025063468, 371459074])
        (sha1.bytes [4200385025, 605110266, 1578048322, 1069454223, 3124073917]) =
      pbkdf2Iterate hmacSha1 (stringBytes "password") 1980
        (sha1.bytes [606371964, 345780714, 4165893221, 3554435542, 2754487213])
        (sha1.bytes [278811643, 2544218661, 662173145, 103790371, 3493007405]) :=
  pbkdf2Iterate_chunk _ password_length _ _ _ _ _ _ _ _ _ _ password_inner password_outer
    2025 45 1980 (by decide) _ _ _ _ _ _ _ _ _ _
    (by decide) (by decide) (by decide) (by decide) (by decide) _ _ _ _ _ _ _ _ _ _
    (by set_option maxRecDepth 10000000 in decide!)

theorem pbkdf2Iterate_run_1_47 :
    pbkdf2Iterate hmacSha1 (stringBytes "password") 1980
        (sha1.bytes [606371964, 345780714, 4165893221, 3554435542, 2754487213])
        (sha1.bytes [278811643, 2544218661, 662173145, 103790371, 3493007405]) =
      pbkdf2Iterate hmacSha1 (stringBytes "password") 1935
        (sha1.bytes [3450655513, 1601727305, 3687040767, 3801934124, 1499080362])
        (sha1.bytes [2404895960, 1990955672, 3183364985, 2444436386, 611439791]) :=
  pbkdf2Iterate_chunk _ password_length _ _ _ _ _ _ _ _ _ _ password_inner password_outer
    1980 45 1935 (by decide) _ _ _ _ _ _ _ _ _ _
    (by decide) (by decide) (by decide) (by decide) (by decide) _ _ _ _ _ _ _ _ _ _
    (by set_option maxRecDepth 10000000 in decide!)

theorem pbkdf2Iterate_run_1_48 :
    pbkdf2Iterate hmacSha1 (stringBytes "password") 1935
        (sha1.bytes [3450655513, 1601727305, 3687040767, 3801934124, 1499080362])
        (sha1.bytes [2404895960, 1990955672, 3183364985, 2444436386, 611439791]) =
      pbkdf2Iterate hmacSha1 (stringBytes "password") 1890
        (sha1.bytes [2635377553, 3771007548, 121304921, 39187678, 3735015156])
        (sha1.bytes [4038644088, 1694048114, 2918828793, 640514378, 3601373370]) :=
  pbkdf2Iterate_chunk _ password_length _ _ _ _ _ _ _ _ _ _ password_inner password_outer
    1935 45 1890 (by decide) _ _ _ _ _ _ _ _ _ _
    (by decide) (by decide) (by decide) (by decide) (by decide) _ _ _ _ _ _ _ _ _ _
    (by set_option maxRecDepth 10000000 in decide!)

theorem pbkdf2Iterate_run_1_49 :
    pbkdf2Iterate hmacSha1 (stringBytes "password") 1890
        (sha1.bytes [2635377553, 3771007548, 121304921, 39187678, 3735015156])
        (sha1.bytes [4038644088, 1694048114, 2918828793, 640514378, 3601373370]) =
      pbkdf2Iterate hmacSha1 (stringBytes "password") 1845
        (sha1.bytes [2080579671, 2826510843, 64145733, 85904243, 3877564507])
        (sha1.bytes [3801792730, 3180205152, 1124500917, 1635286964, 3328883490]) :=
  pbkdf2Iterate_chunk _ password_length _ _ _ _ _ _ _ _ _ _ password_inner password_outer
    1890 45 1845 (by decide) _ _ _ _ _ _ _ _ _ _
    (by decide) (by decide) (by decide) (by decide) (by decide) _ _ _ _ _ _ _ _ _ _
    (by set_option maxRecDepth 10000000 in decide!)

theorem pbkdf2Iterate_run_1_50 :
    pbkdf2Iterate hmacSha1 (stringBytes "password") 1845
        (sha1.bytes [2080579671, 2826510843, 64145733, 85904243, 3877564507])
        (sha1.bytes [3801792730, 3180205152, 1124500917, 1635286964, 3328883490]) =
      pbkdf2Iterate hmacSha1 (stringBytes "password") 1800
        (sha1.bytes [1705749281, 3232788752, 1872027053, 2445505380, 1292450883])
        (sha1.bytes [4239792058, 4140143702, 3730167481, 3104028916, 1532784566]) :=
  pbkdf2Iterate_chunk _ password_length _ _ _ _ _ _ _ _ _ _ password_inner password_outer
    1845 45 1800 (by decide) _ _ _ _ _ _ _ _ _ _
    (by decide) (by decide) (by decide) (by decide) (by decide) _ _ _ _ _ _ _ _ _ _
    (by set_option maxRecDepth 10000000 in decide!)

theorem pbkdf2Iterate_run_1_51 :
    pbkdf2Iterate hmacSha1 (stringBytes "password") 1800
        (sha1.bytes [1705749281, 3232788752, 1872027053, 2445505380, 1292450883])
        (sha1.bytes [4239792058, 4140143702, 3730167481, 3104028916, 1532784566]) =
      pbkdf2Iterate hmacSha1 (stringBytes "password") 1755
        (sha1.bytes [3054076250, 4184044579, 2849468523, 348739218, 944588940])
        (sha1.bytes [4077021606, 4027008428, 2496653961, 3684165595, 2858583510]) :=
  pbkdf2Iterate_chunk _ password_length _ _ _ _ _ _ _ _ _ _ password_inner password_outer
    1800 45 1755 (by decide) _ _ _ _ _ _ _ _ _ _
    (by decide) (by decide) (by decide) (by decide) (by decide) _ _ _ _ _ _ _ _ _ _
    (by set_option maxRecDepth 10000000 in decide!)

theorem pbkdf2Iterate_run_1_52 :
    pbkdf2Iterate hmacSha1 (stringBytes "password") 1755
        (sha1.bytes [3054076250, 4184044579, 2849468523, 348739218, 944588940])
        (sha1.bytes [4077021606, 4027008428, 2496653961, 3684165595, 2858583510]) =
      pbkdf2Iterate hmacSha1 (stringBytes "password") 1710
        (sha1.bytes [3131468801, 2021054289, 1922506827, 3296646704, 3710130573])
        (sha1.bytes [1228069087, 1435090797, 1797840889, 1718430508, 1549453290]) :=
  pbkdf2Iterate_chunk _ password_length _ _ _ _ _ _ _ _ _ _ password_inner password_outer
    1755 45 1710 (by decide) _ _ _ _ _ _ _ _ _ _
    (by decide) (by decide) (by decide) (by decide) (by decide) _ _ _ _ _ _ _ _ _ _
    (by set_option maxRecDepth 10000000 in decide!)

theorem pbkdf2Iterate_run_1_53 :
    pbkdf2Iterate hmacSha1 (stringBytes "password") 1710
        (sha1.bytes [3131468801, 2021054289, 1922506827, 3296646704, 3710130573])
        (sha1.bytes [1228069087, 1435090797, 1797840889, 1718430508, 1549453290]) =
      pbkdf2Iterate hmacSha1 (stringBytes "password") 1665
        (sha1.bytes [4082356315, 3831716586, 305991956, 1588292808, 2365272071])
        (sha1.bytes [4211014360, 2927629087, 3168246304, 3403920337, 2417215250]) :=
  pbkdf2Iterate_chunk _ password_length _ _ _ _ _ _ _ _ _ _ password_inner password_outer
    1710 45 1665 (by decide) _ _ _ _ _ _ _ _ _ _
    (by decide) (by decide) (by decide) (by decide) (by decide) _ _ _ _ _ _ _ _ _ _
    (by set_option maxRecDepth 10000000 in decide!)

theorem pbkdf2Iterate_run_1_54 :
    pbkdf2Iterate hmacSha1 (stringBytes "password") 1665
        (sha1.bytes [4082356315, 3831716586, 305991956, 1588292808, 2365272071])
        (sha1.bytes [4211014360, 2927629087, 3168246304, 3403920337, 2417215250]) =
      pbkdf2Iterate hmacSha1 (stringBytes "password") 1620
        (sha1.bytes [1514229415, 757771729, 1126229963, 68982817, 1117992661])
        (sha1.bytes [1623294435, 3446619976, 4164990122, 2028477941, 2016182385]) :=
  pbkdf2Iterate_chunk _ password_length _ _ _ _ _ _ _ _ _ _ password_inner password_outer
    1665 45 1620 (by decide) _ _ _ _ _ _ _ _ _ _
    (by decide) (by decide) (by decide) (by decide) (by decide) _ _ _ _ _ _ _ _ _ _
    (by set_option maxRecDepth 10000000 in decide!)

theorem pbkdf2Iterate_run_1_55 :
    pbkdf2Iterate hmacSha1 (stringBytes "password") 1620
        (sha1.bytes [1514229415, 757771729, 1126229963, 68982817, 1117992661])
        (sha1.bytes [1623294435, 3446619976, 4164990122, 2028477941, 2016182385]) =
      pbkdf2Iterate hmacSha1 (stringBytes "password") 1575
        (sha1.bytes [2384045421, 2003317839, 2165341675, 2536112812, 2088889660])
        (sha1.bytes [459951833, 3359594494, 1854315629, 3799099454, 2473049122]) :=
  pbkdf2Iterate_chunk _ password_length _ _ _ _ _ _ _ _ _ _ password_inner password_outer
    1620 45 1575 (by decide) _ _ _ _ _ _ _ _ _ _
    (by decide) (by decide) (by decide) (by decide) (by decide) _ _ _ _ _ _ _ _ _ _
    (by set_option maxRecDepth 10000000 in decide!)

theorem pbkdf2Iterate_run_1_56 :
    pbkdf2Iterate hmacSha1 (stringBytes "password") 1575
        (sha1.bytes [2384045421, 2003317839, 2165341675, 2536112812, 2088889660])
        (sha1.bytes [459951833, 3359594494, 1854315629, 3799099454, 2473049122]) =
      pbkdf2Iterate hmacSha1 (stringBytes "password") 1530
        (sha1.bytes [1367981770, 1038596451, 1354534607, 4276491971, 1641241073])
        (sha1.bytes [2743255746, 2793388447, 2319389132, 4229562536, 395929553]) :=
  pbkdf2Iterate_chunk _ password_length _ _ _ _ _ _ _ _ _ _ password_inner password_outer
    1575 45 1530 (by decide) _ _ _ _ _ _ _ _ _ _
    (by decide) (by decide) (by decide) (by decide) (by decide) _ _ _ _ _ _ _ _ _ _
    (by set_option maxRecDepth 10000000 in decide!)

theorem pbkdf2Iterate_run_1_57 :
    pbkdf2Iterate hmacSha1 (stringBytes "password") 1530
        (sha1.bytes [1367981770, 1038596451, 1354534607, 4276491971, 1641241073])
        (sha1.bytes [2743255746, 2793388447, 2319389132, 4229562536, 395929553]) =
      pbkdf2Iterate hmacSha1 (stringBytes "password") 1485
        (sha1.bytes [1400192588, 4179707041, 264321442, 3584323609, 4099917298])
        (sha1.bytes [489725643, 2755155277, 2582690051, 207049568, 3942642236]) :=
  pbkdf2Iterate_chunk _ password_length _ _ _ _ _ _ _ _ _ _ password_inner password_outer
    1530 45 1485 (by decide) _ _ _ _ _ _ _ _ _ _
    (by decide) (by decide) (by decide) (by decide) (by decide) _ _ _ _ _ _ _ _ _ _
    (by set_option maxRecDepth 10000000 in decide!)

theorem pbkdf2Iterate_run_1_58 :
    pbkdf2Iterate hmacSha1 (stringBytes "password") 1485
        (sha1.bytes [1400192588, 4179707041, 264321442, 3584323609, 4099917298])
        (sha1.bytes [489725643, 2755155277, 2582690051, 207049568, 3942642236]) =
      pbkdf2Iterate hmacSha1 (stringBytes "password") 1440
        (sha1.bytes [1906121498, 2521109012, 3080373514, 2949756814, 3329451806])
        (sha1.bytes [865458512, 2712671675, 3033041027, 3303679619, 4012102314]) :=
  pbkdf2Iterate_chunk _ password_length _ _ _ _ _ _ _ _ _ _ password_inner password_outer
    1485 45 1440 (by decide) _ _ _ _ _ _ _ _ _ _
    (by decide) (by decide) (by decide) (by decide) (by decide) _ _ _ _ _ _ _ _ _ _
    (by set_option maxRecDepth 10000000 in decide!)

theorem pbkdf2Iterate_run_1_59 :
    pbkdf2Iterate hmacSha1 (stringBytes "password") 1440
        (sha1.bytes [1906121498, 2521109012, 3080373514, 2949756814, 3329451806])
        (sha1.bytes [865458512, 2712671675, 3033041027, 3303679619, 4012102314]) =
      pbkdf2Iterate hmacSha1 (stringBytes "password") 1395
        (sha1.bytes [3431974446, 4038025805, 1601987334, 1586846977, 3354910667])
        (sha1.bytes [4083600572, 947645736, 299333760, 1428130687, 3607261069]) :=
  pbkdf2Iterate_chunk _ password_length _ _ _ _ _ _ _ _ _ _ password_inner password_outer
    1440 45 1395 (by decide) _ _ _ _ _ _ _ _ _ _
    (by decide) (by decide) (by decide) (by decide) (by decide) _ _ _ _ _ _ _ _ _ _
    (by set_option maxRecDepth 10000000 in decide!)

theorem pbkdf2Iterate_run_1_60 :
    pbkdf2Iterate hmacSha1 (stringBytes "password") 1395
        (sha1.bytes [3431974446, 4038025805, 1601987334, 1586846977, 3354910667])
        (sha1.bytes [4083600572, 947645736, 299333760, 1428130687, 3607261069]) =
      pbkdf2Iterate hmacSha1 (stringBytes "password") 1350
        (sha1.bytes [2379951461, 1701817479, 4195318497, 717785365, 2387779566])
        (sha1.bytes [430798347, 1891558200, 596355061, 2321415484, 2018794258]) :=
  pbkdf2Iterate_chunk _ password_length _ _ _ _ _ _ _ _ _ _ password_inner password_outer
    1395 45 1350 (by decide) _ _ _ _ _ _ _ _ _ _
    (by decide) (by decide) (by decide) (by decide) (by decide) _ _ _ _ _ _ _ _ _ _
    (by set_option maxRecDepth 10000000 in decide!)

theorem pbkdf2Iterate_run_1_61 :
    pbkdf2Iterate hmacSha1 (stringBytes "password") 1350
        (sha1.bytes [2379951461, 1701817479, 4195318497, 717785365, 2387779566])
        (sha1.bytes [430798347, 1891558200, 596355061, 2321415484, 2018794258]) =
      pbkdf2Iterate hmacSha1 (stringBytes "password") 1305
        (sha1.bytes [969261652, 4012689258, 4249901910, 210253373, 743604104])
        (sha1.bytes [2280044100, 775041088, 1821616039, 2202936005, 1052225073]) :=
  pbkdf2Iterate_chunk _ password_length _ _ _ _ _ _ _ _ _ _ password_inner password_outer
    1350 45 1305 (by decide) _ _ _ _ _ _ _ _ _ _
    (by decide) (by decide) (by decide) (by decide) (by decide) _ _ _ _ _ _ _ _ _ _
    (by set_option maxRecDepth 10000000 in decide!)

theorem pbkdf2Iterate_run_1_62 :
    pbkdf2Iterate hmacSha1 (stringBytes "password") 1305
        (sha1.bytes [969261652, 4012689258, 4249901910, 210253373, 743604104])
        (sha1.bytes [2280044100, 775041088, 1821616039, 2202936005, 1052225073]) =
      pbkdf2Iterate hmacSha1 (stringBytes "password") 1260
        (sha1.bytes [38643479, 3121108795, 3461002150, 467504539, 243867081])
        (sha1.bytes [1973520041, 487937342, 892714863, 3115927194, 3134588908]) :=
  pbkdf2Iterate_chunk _ password_length _ _ _ _ _ _ _ _ _ _ password_inner password_outer
    1305 45 1260 (by decide) _ _ _ _ _ _ _ _ _ _
    (by decide) (by decide) (by decide) (by decide) (by decide) _ _ _ _ _ _ _ _ _ _
    (by set_option maxRecDepth 10000000 in decide!)

theorem pbkdf2Iterate_run_1_63 :
    pbkdf2Iterate hmacSha1 (stringBytes "password") 1260
        (sha1.bytes [38643479, 3121108795, 3461002150, 467504539, 243867081])
        (sha1.bytes [1973520041, 487937342, 892714863, 3115927194, 3134588908]) =
      pbkdf2Iterate hmacSha1 (stringBytes "password") 1215
        (sha1.bytes [2782819270, 3173500853, 704915394, 3134562269, 2206962720])
        (sha1.bytes [3389363388, 3682958037, 3948330834, 1074301743, 2905003186]) :=
  pbkdf2Iterate_chunk _ password_length _ _ _ _ _ _ _ _ _ _ password_inner password_outer
    1260 45 1215 (by decide) _ _ _ _ _ _ _ _ _ _
    (by decide) (by decide) (by decide) (by decide) (by decide) _ _ _ _ _ _ _ _ _ _
    (by set_option maxRecDepth 10000000 in decide!)

theorem pbkdf2Iterate_run_1_64 :
    pbkdf2Iterate hmacSha1 (stringBytes "password") 1215
        (sha1.bytes [2782819270, 3173500853, 704915394, 3134562269, 2206962720])
        (sha1.bytes [3389363388, 3682958037, 3948330834, 1074301743, 2905003186]) =
      pbkdf2Iterate hmacSha1 (stringBytes "password") 1170
        (sha1.bytes [2121693632, 2543897717, 1217151587, 294269454, 929097810])
        (sha1.bytes [3308053108, 2740424277, 2020682109, 1679752754, 2599030353]) :=
  pbkdf2Iterate_chunk _ password_length _ _ _ _ _ _ _ _ _ _ password_inner password_outer
    1215 45 1170 (by decide) _ _ _ _ _ _ _ _ _ _
    (by decide) (by decide) (by decide) (by decide) (by decide) _ _ _ _ _ _ _ _ _ _
    (by set_option maxRecDepth 10000000 in decide!)

theorem pbkdf2Iterate_run_1_65 :
    pbkdf2Iterate hmacSha1 (stringBytes "password") 1170
        (sha1.bytes [2121693632, 2543897717, 1217151587, 294269454, 929097810])
        (sha1.bytes [3308053108, 2740424277, 2020682109, 1679752754, 2599030353]) =
      pbkdf2Iterate hmacSha1 (stringBytes "password") 1125
        (sha1.bytes [3828093231, 652317672, 2021121768, 2252016570, 2784995663])
        (sha1.bytes [2830973788, 3531335076, 4164340100, 2609635791, 4065751419]) :=
  pbkdf2Iterate_chunk _ password_length _ _ _ _ _ _ _ _ _ _ password_inner password_outer
    1170 45 1125 (by decide) _ _ _ _ _ _ _ _ _ _
    (by decide) (by decide) (by decide) (by decide) (by decide) _ _ _ _ _ _ _ _ _ _
    (by set_option maxRecDepth 10000000 in decide!)

theorem pbkdf2Iterate_run_1_66 :
    pbkdf2Iterate hmacSha1 (stringBytes "password") 1125
        (sha1.bytes [3828093231, 652317672, 2021121768, 2252016570, 2784995663])
        (sha1.bytes [2830973788, 3531335076, 4164340100, 2609635791, 4065751419]) =
      pbkdf2Iterate hmacSha1 (stringBytes "password") 1080
        (sha1.bytes [628202699, 2530549787, 1748803515, 1257167289, 3198073348])
        (sha1.bytes [719850842, 136964811, 2893022254, 2530249256, 1500649095]) :=
  pbkdf2Iterate_chunk _ password_length _ _ _ _ _ _ _ _ _ _ password_inner password_outer
    1125 45 1080 (by decide) _ _ _ _ _ _ _ _ _ _
    (by decide) (by decide) (by decide) (by decide) (by decide) _ _ _ _ _ _ _ _ _ _
    (by set_option maxRecDepth 10000000 in decide!)

theorem pbkdf2Iterate_run_1_67 :
    pbkdf2Iterate hmacSha1 (stringBytes "password") 1080
        (sha1.bytes [628202699, 2530549787, 1748803515, 1257167289, 3198073348])
        (sha1.bytes [719850842, 136964811, 2893022254, 2530249256, 1500649095]) =
      pbkdf2Iterate hmacSha1 (stringBytes "password") 1035
        (sha1.bytes [3839068731, 3488500192, 1345124354, 1174872621, 2400407225])
        (sha1.bytes [3194773585, 395925812, 908337117, 1414287964, 3489511879]) :=
  pbkdf2Iterate_chunk _ password_length _ _ _ _ _ _ _ _ _ _ password_inner password_outer
    1080 45 1035 (by decide) _ _ _ _ _ _ _ _ _ _
    (by decide) (by decide) (by decide) (by decide) (by decide) _ _ _ _ _ _ _ _ _ _
    (by set_option maxRecDepth 10000000 in decide!)

theorem pbkdf2Iterate_run_1_68 :
    pbkdf2Iterate hmacSha1 (stringBytes "password") 1035
        (sha1.bytes [3839068731, 3488500192, 1345124354, 1174872621, 2400407225])
        (sha1.bytes [3194773585, 395925812, 908337117, 1414287964, 3489511879]) =
      pbkdf2Iterate hmacSha1 (stringBytes "password") 990
        (sha1.bytes [134329064, 2132194750, 693301783, 2306929886, 3047656900])
        (sha1.bytes [504074973, 2813702476, 768977502, 257289789, 3698506954]) :=
  pbkdf2Iterate_chunk _ password_length _ _ _ _ _ _ _ _ _ _ password_inner password_outer
    1035 45 990 (by decide) _ _ _ _ _ _ _ _ _ _
    (by decide) (by decide) (by decide) (by decide) (by decide) _ _ _ _ _ _ _ _ _ _
    (by set_option maxRecDepth 10000000 in decide!)

theorem pbkdf2Iterate_run_1_69 :
    pbkdf2Iterate hmacSha1 (stringBytes "password") 990
        (sha1.bytes [134329064, 2132194750, 693301783, 2306929886, 3047656900])
        (sha1.bytes [504074973, 2813702476, 768977502, 257289789, 3698506954]) =
      pbkdf2Iterate hmacSha1 (stringBytes "password") 945
        (sha1.bytes [1411224690, 1894000696, 2026839908, 664796883, 358735189])
        (sha1.bytes [4152741117, 1142719088, 184717237, 1595420547, 1902952864]) :=
  pbkdf2Iterate_chunk _ password_length _ _ _ _ _ _ _ _ _ _ password_inner password_outer
    990 45 945 (by decide) _ _ _ _ _ _ _ _ _ _
    (by decide) (by decide) (by decide) (by decide) (by decide) _ _ _ _ _ _ _ _ _ _
    (by set_option maxRecDepth 10000000 in decide!)

theorem pbkdf2Iterate_run_1_70 :
    pbkdf2Iterate hmacSha1 (stringBytes "password") 945
        (sha1.bytes [1411224690, 1894000696, 2026839908, 664796883, 358735189])
        (sha1.bytes [4152741117, 1142719088, 184717237, 1595420547, 1902952864]) =
      pbkdf2Iterate hmacSha1 (stringBytes "password") 900
        (sha1.bytes [211205959, 2777512245, 1108776527, 2394329766, 114891223])
        (sha1.bytes [1124994088, 890113388, 3499771168, 3597201129, 2705142784]) :=
  pbkdf2Iterate_chunk _ password_length _ _ _ _ _ _ _ _ _ _ password_inner password_outer
    945 45 900 (by decide) _ _ _ _ _ _ _ _ _ _
    (by decide) (by decide) (by decide) (by decide) (by decide) _ _ _ _ _ _ _ _ _ _
    (by set_option maxRecDepth 10000000 in decide!)

theorem pbkdf2Iterate_run_1_71 :
    pbkdf2Iterate hmacSha1 (stringBytes "password") 900
        (sha1.bytes [211205959, 2777512245, 1108776527, 2394329766, 114891223])
        (sha1.bytes [1124994088, 890113388, 3499771168, 3597201129, 2705142784]) =
      pbkdf2Iterate hmacSha1 (stringBytes "password") 855
        (sha1.bytes [2878206261, 1181768288, 519830634, 4293677505, 1389453566])
        (sha1.bytes [2160685755, 113905825, 2270860117, 2201412869, 2303405582]) :=
  pbkdf2Iterate_chunk _ password_length _ _ _ _ _ _ _ _ _ _ password_inner password_outer
    900 45 855 (by decide) _ _ _ _ _ _ _ _ _ _
    (by decide) (by decide) (by decide) (by decide) (by decide) _ _ _ _ _ _ _ _ _ _
    (by set_option maxRecDepth 10000000 in decide!)

theorem pbkdf2Iterate_run_1_72 :
    pbkdf2Iterate hmacSha1 (stringBytes "password") 855
        (sha1.bytes [2878206261, 1181768288, 519830634, 4293677505, 1389453566])
        (sha1.bytes [2160685755, 113905825, 2270860117, 2201412869, 2303405582]) =
      pbkdf2Iterate hmacSha1 (stringBytes "password") 810
        (sha1.bytes [793215064, 1147399748, 728610541, 2914896755, 4104842858])
        (sha1.bytes [1309092925, 459474492, 3435568283, 4179634339, 92154511]) :=
  pbkdf2Iterate_chunk _ password_length _ _ _ _ _ _ _ _ _ _ password_inner password_outer
    855 45 810 (by decide) _ _ _ _ _ _ _ _ _ _
    (by decide) (by decide) (by decide) (by decide) (by decide) _ _ _ _ _ _ _ _ _ _
    (by set_option maxRecDepth 10000000 in decide!)

theorem pbkdf2Iterate_run_1_73 :
    pbkdf2Iterate hmacSha1 (stringBytes "password") 810
        (sha1.bytes [793215064, 1147399748, 728610541, 2914896755, 4104842858])
        (sha1.bytes [1309092925, 459474492, 3435568283, 4179634339, 92154511]) =
      pbkdf2Iterate hmacSha1 (stringBytes "password") 765
        (sha1.bytes [1722121470, 1510840737, 2727852459, 1395493319, 893439512])
        (sha1.bytes [949540381, 3858213249, 428133421, 112330717, 1604883506]) :=
  pbkdf2Iterate_chunk _ password_length _ _ _ _ _ _ _ _ _ _ password_inner password_outer
    810 45 765 (by decide) _ _ _ _ _ _ _ _ _ _
    (by decide) (by decide) (by decide) (by decide) (by decide) _ _ _ _ _ _ _ _ _ _
    (by set_option maxRecDepth 10000000 in decide!)

theorem pbkdf2Iterate_run_1_74 :
    pbkdf2Iterate hmacSha1 (stringBytes "password") 765
        (sha1.bytes [1722121470, 1510840737, 2727852459, 1395493319, 893439512])
        (sha1.bytes [949540381, 3858213249, 428133421, 112330717, 1604883506]) =
      pbkdf2Iterate hmacSha1 (stringBytes "password") 720
        (sha1.bytes [3889997798, 682710134, 3451967574, 1370933890, 339575657])
        (sha1.bytes [2988313871, 3653723910, 1615310744, 2489684429, 3812120208]) :=
  pbkdf2Iterate_chunk _ password_length _ _ _ _ _ _ _ _ _ _ password_inner password_outer
    765 45 720 (by decide) _ _ _ _ _ _ _ _ _ _
    (by decide) (by decide) (by decide) (by decide) (by decide) _ _ _ _ _ _ _ _ _ _
    (by set_option maxRecDepth 10000000 in decide!)

theorem pbkdf2Iterate_run_1_75 :
    pbkdf2Iterate hmacSha1 (stringBytes "password") 720
        (sha1.bytes [3889997798, 682710134, 3451967574, 1370933890, 339575657])
        (sha1.bytes [2988313871, 3653723910, 1615310744, 2489684429, 3812120208]) =
      pbkdf2Iterate hmacSha1 (stringBytes "password") 675
        (sha1.bytes [3616445850, 3214508742, 3340688586, 1367263652, 199353675])
        (sha1.bytes [4038937742, 948149953, 564793673, 901490874, 333166810]) :=
  pbkdf2Iterate_chunk _ password_length _ _ _ _ _ _ _ _ _ _ password_inner password_outer
    720 45 675 (by decide) _ _ _ _ _ _ _ _ _ _
    (by decide) (by decide) (by decide) (by decide) (by decide) _ _ _ _ _ _ _ _ _ _
    (by set_option maxRecDepth 10000000 in decide!)

theorem pbkdf2Iterate_run_1_76 :
    pbkdf2Iterate hmacSha1 (stringBytes "password") 675
        (sha1.bytes [3616445850, 3214508742, 3340688586, 1367263652, 199353675])
        (sha1.bytes [4038937742, 948149953, 564793673, 901490874, 333166810]) =
      pbkdf2Iterate hmacSha1 (stringBytes "password") 630
        (sha1.bytes [204217525, 3514486653, 2202221652, 778317963, 370890874])
        (sha1.bytes [867392484, 1528488130, 2472493963, 2763412341, 4031377226]) :=
  pbkdf2Iterate_chunk _ password_length _ _ _ _ _ _ _ _ _ _ password_inner password_outer
    675 45 630 (by decide) _ _ _ _ _ _ _ _ _ _
    (by decide) (by decide) (by decide) (by decide) (by decide) _ _ _ _ _ _ _ _ _ _
    (by set_option maxRecDepth 10000000 in decide!)

theorem pbkdf2Iterate_run_1_77 :
    pbkdf2Iterate hmacSha1 (stringBytes "password") 630
        (sha1.bytes [204217525, 3514486653, 2202221652, 778317963, 370890874])
        (sha1.bytes [867392484, 1528488130, 2472493963, 2763412341, 4031377226]) =
      pbkdf2Iterate hmacSha1 (stringBytes "password") 585
        (sha1.bytes [2714108363, 573436000, 4171634599, 1532073803, 1992929850])
        (sha1.bytes [3823919962, 3471551104, 1836823127, 2367482869, 1475310280]) :=
  pbkdf2Iterate_chunk _ password_length _ _ _ _ _ _ _ _ _ _ password_inner password_outer
    630 45 585 (by decide) _ _ _ _ _ _ _ _ _ _
    (by decide) (by decide) (by decide) (by decide) (by decide) _ _ _ _ _ _ _ _ _ _
    (by set_option maxRecDepth 10000000 in decide!)

theorem pbkdf2Iterate_run_1_78 :
    pbkdf2Iterate hmacSha1 (stringBytes "password") 585
        (sha1.bytes [2714108363, 573436000, 4171634599, 1532073803, 1992929850])
        (sha1.bytes [3823919962, 3471551104, 1836823127, 2367482869, 1475310280]) =
      pbkdf2Iterate hmacSha1 (stringBytes "password") 540
        (sha1.bytes [4171651941, 1896766955, 1518951126, 2223517466, 1777628422])
        (sha1.bytes [1169033823, 744774892, 1556495039, 3656935184, 1445257657]) :=
  pbkdf2Iterate_chunk _ password_length _ _ _ _ _ _ _ _ _ _ password_inner password_outer
    585 45 540 (by decide) _ _ _ _ _ _ _ _ _ _
    (by decide) (by decide) (by decide) (by decide) (by decide) _ _ _ _ _ _ _ _ _ _
    (by set_option maxRecDepth 10000000 in decide!)

theorem pbkdf2Iterate_run_1_79 :
    pbkdf2Iterate hmacSha1 (stringBytes "password") 540
        (sha1.bytes [4171651941, 1896766955, 1518951126, 2223517466, 1777628422])
        (sha1.bytes [1169033823, 744774892, 1556495039, 3656935184, 1445257657]) =
      pbkdf2Iterate hmacSha1 (stringBytes "password") 495
        (sha1.bytes [2930359719, 4113828626, 936995546, 1342145932, 705125066])
        (sha1.bytes [3038381400, 3127650825, 3847593285, 3183146945, 2342567541]) :=
  pbkdf2Iterate_chunk _ password_length _ _ _ _ _ _ _ _ _ _ password_inner password_outer
    540 45 495 (by decide) _ _ _ _ _ _ _ _ _ _
    (by decide) (by decide) (by decide) (by decide) (by decide) _ _ _ _ _ _ _ _ _ _
    (by set_option maxRecDepth 10000000 in decide!)

theorem pbkdf2Iterate_run_1_80 :
    pbkdf2Iterate hmacSha1 (stringBytes "password") 495
        (sha1.bytes [2930359719, 4113828626, 936995546, 1342145932, 705125066])
        (sha1.bytes [3038381400, 3127650825, 3847593285, 3183146945, 2342567541]) =
      pbkdf2Iterate hmacSha1 (stringBytes "password") 450
        (sha1.bytes [19433343, 1189269678, 3622392860, 2992854115, 685406583])
        (sha1.bytes [2738642965, 3497766206, 2772772029, 1337478390, 1952953842]) :=
  pbkdf2Iterate_chunk _ password_length _ _ _ _ _ _ _ _ _ _ password_inner password_outer
    495 45 450 (by decide) _ _ _ _ _ _ _ _ _ _
    (by decide) (by decide) (by decide) (by decide) (by decide) _ _ _ _ _ _ _ _ _ _
    (by set_option maxRecDepth 10000000 in decide!)

theorem pbkdf2Iterate_run_1_81 :
    pbkdf2Iterate hmacSha1 (stringBytes "password") 450
        (sha1.bytes [19433343, 1189269678, 3622392860, 2992854115, 685406583])
        (sha1.bytes [2738642965, 3497766206, 2772772029, 1337478390, 1952953842]) =
      pbkdf2Iterate hmacSha1 (stringBytes "password") 405
        (sha1.bytes [2667720690, 387054610, 580786246, 3160121231, 4188806091])
        (sha1.bytes [795149126, 2800672075, 3908877385, 623797039, 3870206223]) :=
  pbkdf2Iterate_chunk _ password_length _ _ _ _ _ _ _ _ _ _ password_inner password_outer
    450 45 405 (by decide) _ _ _ _ _ _ _ _ _ _
    (by decide) (by decide) (by decide) (by decide) (by decide) _ _ _ _ _ _ _ _ _ _
    (by set_option maxRecDepth 10000000 in decide!)

theorem pbkdf2Iterate_run_1_82 :
    pbkdf2Iterate hmacSha1 (stringBytes "password") 405
        (sha1.bytes [2667720690, 387054610, 580786246, 3160121231, 4188806091])
        (sha1.bytes [795149126, 2800672075, 3908877385, 623797039, 3870206223]) =
      pbkdf2Iterate hmacSha1 (stringBytes "password") 360
        (sha1.bytes [919338312, 1804592645, 2720992083, 1930097763, 1566300061])
        (sha1.bytes [2233817454, 4050018901, 4153526869, 3520137982, 578093906]) :=
  pbkdf2Iterate_chunk _ password_length _ _ _ _ _ _ _ _ _ _ password_inner password_outer
    405 45 360 (by decide) _ _ _ _ _ _ _ _ _ _
    (by decide) (by decide) (by decide) (by decide) (by decide) _ _ _ _ _ _ _ _ _ _
    (by set_option maxRecDepth 10000000 in decide!)

theorem pbkdf2Iterate_run_1_83 :
    pbkdf2Iterate hmacSha1 (stringBytes "password") 360
        (sha1.bytes [919338312, 1804592645, 2720992083, 1930097763, 1566300061])
        (sha1.bytes [2233817454, 4050018901, 4153526869, 3520137982, 578093906]) =
      pbkdf2Iterate hmacSha1 (stringBytes "password") 315
        (sha1.bytes [259643944, 689928661, 2013249056, 2267884604, 783273074])
        (sha1.bytes [1900398522, 1494575770, 557209795, 1316987033, 3350530760]) :=
  pbkdf2Iterate_chunk _ password_length _ _ _ _ _ _ _ _ _ _ password_inner password_outer
    360 45 315 (by decide) _ _ _ _ _ _ _ _ _ _
    (by decide) (by decide) (by decide) (by decide) (by decide) _ _ _ _ _ _ _ _ _ _
    (by set_option maxRecDepth 10000000 in decide!)

theorem pbkdf2Iterate_run_1_84 :
    pbkdf2Iterate hmacSha1 (stringBytes "password") 315
        (sha1.bytes [259643944, 689928661, 2013249056, 2267884604, 783273074])
        (sha1.bytes [1900398522, 1494575770, 557209795, 1316987033, 3350530760]) =
      pbkdf2Iterate hmacSha1 (stringBytes "password") 270
        (sha1.bytes [1504606769, 1723274654, 1452369502, 3657542701, 2105913772])
        (sha1.bytes [381619423, 1632028338, 2161229155, 2270661998, 2892556322]) :=
  pbkdf2Iterate_chunk _ password_length _ _ _ _ _ _ _ _ _ _ password_inner password_outer
    315 45 270 (by decide) _ _ _ _ _ _ _ _ _ _
    (by decide) (by decide) (by decide) (by decide) (by decide) _ _ _ _ _ _ _ _ _ _
    (by set_option maxRecDepth 10000000 in decide!)

theorem pbkdf2Iterate_run_1_85 :
    pbkdf2Iterate hmacSha1 (stringBytes "password") 270
        (sha1.bytes [1504606769, 1723274654, 1452369502, 3657542701, 2105913772])
        (sha1.bytes [381619423, 1632028338, 2161229155, 2270661998, 2892556322]) =
      pbkdf2Iterate hmacSha1 (stringBytes "password") 225
        (sha1.bytes [2858150592, 1120069015, 3692272550, 3419591402, 4082664272])
        (sha1.bytes [80286634, 2371693926, 2119338171, 3974933954, 2709316411]) :=
  pbkdf2Iterate_chunk _ password_length _ _ _ _ _ _ _ _ _ _ password_inner password_outer
    270 45 225 (by decide) _ _ _ _ _ _ _ _ _ _
    (by decide) (by decide) (by decide) (by decide) (by decide) _ _ _ _ _ _ _ _ _ _
    (by set_option maxRecDepth 10000000 in decide!)

theorem pbkdf2Iterate_run_1_86 :
    pbkdf2Iterate hmacSha1 (stringBytes "password") 225
        (sha1.bytes [2858150592, 1120069015, 3692272550, 3419591402, 4082664272])
        (sha1.bytes [80286634, 2371693926, 2119338171, 3974933954, 2709316411]) =
      pbkdf2Iterate hmacSha1 (stringBytes "password") 180
        (sha1.bytes [1117323872, 688422741, 3623277605, 2865192675, 2268313999])
        (sha1.bytes [2729890461, 470224628, 3790565645, 565225190, 1420089629]) :=
  pbkdf2Iterate_chunk _ password_length _ _ _ _ _ _ _ _ _ _ password_inner password_outer
    225 45 180 (by decide) _ _ _ _ _ _ _ _ _ _
    (by decide) (by decide) (by decide) (by decide) (by decide) _ _ _ _ _ _ _ _ _ _
    (by set_option maxRecDepth 10000000 in decide!)

theorem pbkdf2Iterate_run_1_87 :
    pbkdf2Iterate hmacSha1 (stringBytes "password") 180
        (sha1.bytes [1117323872, 688422741, 3623277605, 2865192675, 2268313999])
        (sha1.bytes [2729890461, 470224628, 3790565645, 565225190, 1420089629]) =
      pbkdf2Iterate hmacSha1 (stringBytes "password") 135
        (sha1.bytes [2402470627, 3353189380, 1521635025, 610760710, 440270426])
        (sha1.bytes [1031245750, 3917798438, 2023639484, 3769656882, 3004578443]) :=
  pbkdf2Iterate_chunk _ password_length _ _ _ _ _ _ _ _ _ _ password_inner password_outer
    180 45 135 (by decide) _ _ _ _ _ _ _ _ _ _
    (by decide) (by decide) (by decide) (by decide) (by decide) _ _ _ _ _ _ _ _ _ _
    (by set_option maxRecDepth 10000000 in decide!)

theorem pbkdf2Iterate_run_1_88 :
    pbkdf2Iterate hmacSha1 (stringBytes "password") 135
        (sha1.bytes [2402470627, 3353189380, 1521635025, 610760710, 440270426])
        (sha1.bytes [1031245750, 3917798438, 2023639484, 3769656882, 3004578443]) =
      pbkdf2Iterate hmacSha1 (stringBytes "password") 90
        (sha1.bytes [4037284494, 756946744, 1417375374, 2380582566, 1430495696])
        (sha1.bytes [2122613842, 1370175464, 953381049, 2164623928, 435961585]) :=
  pbkdf2Iterate_chunk _ password_length _ _ _ _ _ _ _ _ _ _ password_inner password_outer
    135 45 90 (by decide) _ _ _ _ _ _ _ _ _ _
    (by decide) (by decide) (by decide) (by decide) (by decide) _ _ _ _ _ _ _ _ _ _
    (by set_option maxRecDepth 10000000 in decide!)

theorem pbkdf2Iterate_run_1_89 :
    pbkdf2Iterate hmacSha1 (stringBytes "password") 90
        (sha1.bytes [4037284494, 756946744, 1417375374, 2380582566, 1430495696])
        (sha1.bytes [2122613842, 1370175464, 953381049, 2164623928, 435961585]) =
      pbkdf2Iterate hmacSha1 (stringBytes "password") 45
        (sha1.bytes [2554715663, 3714083784, 1386989847, 2122777710, 3668080037])
        (sha1.bytes [906082290, 1148140642, 1064607285, 348656967, 404569461]) :=
  pbkdf2Iterate_chunk _ password_length _ _ _ _ _ _ _ _ _ _ password_inner password_outer
    90 45 45 (by decide) _ _ _ _ _ _ _ _ _ _
    (by decide) (by decide) (by decide) (by decide) (by decide) _ _ _ _ _ _ _ _ _ _
    (by set_option maxRecDepth 10000000 in decide!)

theorem pbkdf2Iterate_run_1_90 :
    pbkdf2Iterate hmacSha1 (stringBytes "password") 45
        (sha1.bytes [2554715663, 3714083784, 1386989847, 2122777710, 3668080037])
        (sha1.bytes [906082290, 1148140642, 1064607285, 348656967, 404569461]) =
      pbkdf2Iterate hmacSha1 (stringBytes "password") 0
        (sha1.bytes [3237968189, 2641654087, 2244238204, 2928823052, 2721423432])
        (sha1.bytes [4096552901, 770763759, 2663074704, 3012190096, 780402203]) :=
  pbkdf2Iterate_chunk _ password_length _ _ _ _ _ _ _ _ _ _ password_inner password_outer
    45 45 0 (by decide) _ _ _ _ _ _ _ _ _ _
    (by decide) (by decide) (by decide) (by decide) (by decide) _ _ _ _ _ _ _ _ _ _
    (by set_option maxRecDepth 10000000 in decide!)

/-- Block 1 of the derivation: `T_1` after 4096 iterations. -/
theorem pbkdf2Block_IEEE_1 :
    pbkdf2Block hmacSha1 (stringBytes "password") (stringBytes "IEEE") 4096 1 =
      sha1.bytes [4096552901, 770763759, 2663074704, 3012190096, 780402203] :=
  pbkdf2Block_succ hmacSha1 _ _ 4095 1 |>.trans
    (congrArg (fun u => pbkdf2Iterate hmacSha1 (stringBytes "password") 4095 u u)
      hmacSha1_first_1) |>.trans
    pbkdf2Iterate_run_1_0 |>.trans
    pbkdf2Iterate_run_1_1 |>.trans
    pbkdf2Iterate_run_1_2 |>.trans
    pbkdf2Iterate_run_1_3 |>.trans
    pbkdf2Iterate_run_1_4 |>.trans
    pbkdf2Iterate_run_1_5 |>.trans
    pbkdf2Iterate_run_1_6 |>.trans
    pbkdf2Iterate_run_1_7 |>.trans
    pbkdf2Iterate_run_1_8 |>.trans
    pbkdf2Iterate_run_1_9 |>.trans
    pbkdf2Iterate_run_1_10 |>.trans
    pbkdf2Iterate_run_1_11 |>.trans
    pbkdf2Iterate_run_1_12 |>.trans
    pbkdf2Iterate_run_1_13 |>.trans
    pbkdf2Iterate_run_1_14 |>.trans
    pbkdf2Iterate_run_1_15 |>.trans
    pbkdf2Iterate_run_1_16 |>.trans
    pbkdf2Iterate_run_1_17 |>.trans
    pbkdf2Iterate_run_1_18 |>.trans
    pbkdf2Iterate_run_1_19 |>.trans
    pbkdf2Iterate_run_1_20 |>.trans
    pbkdf2Iterate_run_1_21 |>.trans
    pbkdf2Iterate_run_1_22 |>.trans
    pbkdf2Iterate_run_1_23 |>.trans
    pbkdf2Iterate_run_1_24 |>.trans
    pbkdf2Iterate_run_1_25 |>.trans
    pbkdf2Iterate_run_1_26 |>.trans
    pbkdf2Iterate_run_1_27 |>.trans
    pbkdf2Iterate_run_1_28 |>.trans
    pbkdf2Iterate_run_1_29 |>.trans
    pbkdf2Iterate_run_1_30 |>.trans
    pbkdf2Iterate_run_1_31 |>.trans
    pbkdf2Iterate_run_1_32 |>.trans
    pbkdf2Iterate_run_1_33 |>.trans
    pbkdf2Iterate_run_1_34 |>.trans
    pbkdf2Iterate_run_1_35 |>.trans
    pbkdf2Iterate_run_1_36 |>.trans
    pbkdf2Iterate_run_1_37 |>.trans
    pbkdf2Iterate_run_1_38 |>.trans
    pbkdf2Iterate_run_1_39 |>.trans
    pbkdf2Iterate_run_1_40 |>.trans
    pbkdf2Iterate_run_1_41 |>.trans
    pbkdf2Iterate_run_1_42 |>.trans
    pbkdf2Iterate_run_1_43 |>.trans
    pbkdf2Iterate_run_1_44 |>.trans
    pbkdf2Iterate_run_1_45 |>.trans
    pbkdf2Iterate_run_1_46 |>.trans
    pbkdf2Iterate_run_1_47 |>.trans
    pbkdf2Iterate_run_1_48 |>.trans
    pbkdf2Iterate_run_1_49 |>.trans
    pbkdf2Iterate_run_1_50 |>.trans
    pbkdf2Iterate_run_1_51 |>.trans
    pbkdf2Iterate_run_1_52 |>.trans
    pbkdf2Iterate_run_1_53 |>.trans
    pbkdf2Iterate_run_1_54 |>.trans
    pbkdf2Iterate_run_1_55 |>.trans
    pbkdf2Iterate_run_1_56 |>.trans
    pbkdf2Iterate_run_1_57 |>.trans
    pbkdf2Iterate_run_1_58 |>.trans
    pbkdf2Iterate_run_1_59 |>.trans
    pbkdf2Iterate_run_1_60 |>.trans
    pbkdf2Iterate_run_1_61 |>.trans
    pbkdf2Iterate_run_1_62 |>.trans
    pbkdf2Iterate_run_1_63 |>.trans
    pbkdf2Iterate_run_1_64 |>.trans
    pbkdf2Iterate_run_1_65 |>.trans
    pbkdf2Iterate_run_1_66 |>.trans
    pbkdf2Iterate_run_1_67 |>.trans
    pbkdf2Iterate_run_1_68 |>.trans
    pbkdf2Iterate_run_1_69 |>.trans
    pbkdf2Iterate_run_1_70 |>.trans
    pbkdf2Iterate_run_1_71 |>.trans
    pbkdf2Iterate_run_1_72 |>.trans
    pbkdf2Iterate_run_1_73 |>.trans
    pbkdf2Iterate_run_1_74 |>.trans
    pbkdf2Iterate_run_1_75 |>.trans
    pbkdf2Iterate_run_1_76 |>.trans
    pbkdf2Iterate_run_1_77 |>.trans
    pbkdf2Iterate_run_1_78 |>.trans
    pbkdf2Iterate_run_1_79 |>.trans
    pbkdf2Iterate_run_1_80 |>.trans
    pbkdf2Iterate_run_1_81 |>.trans
    pbkdf2Iterate_run_1_82 |>.trans
    pbkdf2Iterate_run_1_83 |>.trans
    pbkdf2Iterate_run_1_84 |>.trans
    pbkdf2Iterate_run_1_85 |>.trans
    pbkdf2Iterate_run_1_86 |>.trans
    pbkdf2Iterate_run_1_87 |>.trans
    pbkdf2Iterate_run_1_88 |>.trans
    pbkdf2Iterate_run_1_89 |>.trans
    pbkdf2Iterate_run_1_90 |>.trans
    (pbkdf2Iterate_zero _ _ _ _)

/-- The first HMAC of block 2. -/
theorem hmacSha1_first_2 :
    hmacSha1 (stringBytes "password") (stringBytes "IEEE" ++ be32 2) =
      sha1.bytes [3871810921, 225035978, 3243764006, 3709611604, 1281118545] := by
  set_option maxRecDepth 10000000 in decide!

theorem pbkdf2Iterate_run_2_0 :
    pbkdf2Iterate hmacSha1 (stringBytes "password") 4095
        (sha1.bytes [3871810921, 225035978, 3243764006, 3709611604, 1281118545])
        (sha1.bytes [3871810921, 225035978, 3243764006, 3709611604, 1281118545]) =
      pbkdf2Iterate hmacSha1 (stringBytes "password") 4050
        (sha1.bytes [3784607527, 1029847455, 3734469860, 3983621391, 2676463706])
        (sha1.bytes [3336966093, 3446661050, 3602099215, 3626234882, 2319980712]) :=
  pbkdf2Iterate_chunk _ password_length _ _ _ _ _ _ _ _ _ _ password_inner password_outer
    4095 45 4050 (by decide) _ _ _ _ _ _ _ _ _ _
    (by decide) (by decide) (by decide) (by decide) (by decide) _ _ _ _ _ _ _ _ _ _
    (by set_option maxRecDepth 10000000 in decide!)

theorem pbkdf2Iterate_run_2_1 :
    pbkdf2Iterate hmacSha1 (stringBytes "password") 4050
        (sha1.bytes [3784607527, 1029847455, 3734469860, 3983621391, 2676463706])
        (sha1.bytes [3336966093, 3446661050, 3602099215, 3626234882, 2319980712]) =
      pbkdf2Iterate hmacSha1 (stringBytes "password") 4005
        (sha1.bytes [4218331012, 3460781881, 10157470, 2691582241, 1244387875])
        (sha1.bytes [1556598872, 2959492369, 1124514896, 1641539029, 3294885721]) :=
  pbkdf2Iterate_chunk _ password_length _ _ _ _ _ _ _ _ _ _ password_inner password_outer
    4050 45 4005 (by decide) _ _ _ _ _ _ _ _ _ _
    (by decide) (by decide) (by decide) (by decide) (by decide) _ _ _ _ _ _ _ _ _ _
    (by set_option maxRecDepth 10000000 in decide!)

theorem pbkdf2Iterate_run_2_2 :
    pbkdf2Iterate hmacSha1 (stringBytes "password") 4005
        (sha1.bytes [4218331012, 3460781881, 10157470, 2691582241, 1244387875])
        (sha1.bytes [1556598872, 2959492369, 1124514896, 1641539029, 3294885721]) =
      pbkdf2Iterate hmacSha1 (stringBytes "password") 3960
        (sha1.bytes [4246520303, 360420813, 2557584895, 1839171571, 4203478798])
        (sha1.bytes [2420667233, 1530193065, 3111698357, 1080112719, 554342209]) :=
  pbkdf2Iterate_chunk _ password_length _ _ _ _ _ _ _ _ _ _ password_inner password_outer
    4005 45 3960 (by decide) _ _ _ _ _ _ _ _ _ _
    (by decide) (by decide) (by decide) (by decide) (by decide) _ _ _ _ _ _ _ _ _ _
    (by set_option maxRecDepth 10000000 in decide!)

theorem pbkdf2Iterate_run_2_3 :
    pbkdf2Iterate hmacSha1 (stringBytes "password") 3960
        (sha1.bytes [4246520303, 360420813, 2557584895, 1839171571, 4203478798])
        (sha1.bytes [2420667233, 1530193065, 3111698357, 1080112719, 554342209]) =
      pbkdf2Iterate hmacSha1 (stringBytes "password") 3915
        (sha1.bytes [732505127, 2723943719, 866236786, 1905164577, 2292392052])
        (sha1.bytes [1150180849, 1439926890, 2683634958, 2571282031, 3637249522]) :=
  pbkdf2Iterate_chunk _ password_length _ _ _ _ _ _ _ _ _ _ password_inner password_outer
    3960 45 3915 (by decide) _ _ _ _ _ _ _ _ _ _
    (by decide) (by decide) (by decide) (by decide) (by decide) _ _ _ _ _ _ _ _ _ _
    (by set_option maxRecDepth 10000000 in decide!)

theorem pbkdf2Iterate_run_2_4 :
    pbkdf2Iterate hmacSha1 (stringBytes "password") 3915
        (sha1.bytes [732505127, 2723943719, 866236786, 1905164577, 2292392052])
        (sha1.bytes [1150180849, 1439926890, 2683634958, 2571282031, 3637249522]) =
      pbkdf2Iterate hmacSha1 (stringBytes "password") 3870
        (sha1.bytes [400498750, 3808331495, 897091416, 3351009595, 4147783991])
        (sha1.bytes [2683111582, 3879774145, 1050972306, 3167782878, 3800872387]) :=
  pbkdf2Iterate_chunk _ password_length _ _ _ _ _ _ _ _ _ _ password_inner password_outer
    3915 45 3870 (by decide) _ _ _ _ _ _ _ _ _ _
    (by decide) (by decide) (by decide) (by decide) (by decide) _ _ _ _ _ _ _ _ _ _
    (by set_option maxRecDepth 10000000 in decide!)

theorem pbkdf2Iterate_run_2_5 :
    pbkdf2Iterate hmacSha1 (stringBytes "password") 3870
        (sha1.bytes [400498750, 3808331495, 897091416, 3351009595, 4147783991])
        (sha1.bytes [2683111582, 3879774145, 1050972306, 3167782878, 3800872387]) =
      pbkdf2Iterate hmacSha1 (stringBytes "password") 3825
        (sha1.bytes [2613389782, 3613831007, 4261495481, 3242782285, 3490807579])
        (sha1.bytes [1496709085, 991509232, 2134497514, 247750529, 1610168028]) :=
  pbkdf2Iterate_chunk _ password_length _ _ _ _ _ _ _ _ _ _ password_inner password_outer
    3870 45 3825 (by decide) _ _ _ _ _ _ _ _ _ _
    (by decide) (by decide) (by decide) (by decide) (by decide) _ _ _ _ _ _ _ _ _ _
    (by set_option maxRecDepth 10000000 in decide!)

theorem pbkdf2Iterate_run_2_6 :
    pbkdf2Iterate hmacSha1 (stringBytes "password") 3825
        (sha1.bytes [2613389782, 3613831007, 4261495481, 3242782285, 3490807579])
        (sha1.bytes [1496709085, 991509232, 2134497514, 247750529, 1610168028]) =
      pbkdf2Iterate hmacSha1 (stringBytes "password") 3780
        (sha1.bytes [416490327, 718317492, 3021275497, 3035981939, 1915322352])
        (sha1.bytes [2587255685, 562781479, 3338897351, 3743625355, 1196763441]) :=
  pbkdf2Iterate_chunk _ password_length _ _ _ _ _ _ _ _ _ _ password_inner password_outer
    3825 45 3780 (by decide) _ _ _ _ _ _ _ _ _ _
    (by decide) (by decide) (by decide) (by decide) (by decide) _ _ _ _ _ _ _ _ _ _
    (by set_option maxRecDepth 10000000 in decide!)

theorem pbkdf2Iterate_run_2_7 :
    pbkdf2Iterate hmacSha1 (stringBytes "password") 3780
        (sha1.bytes [416490327, 718317492, 3021275497, 3035981939, 1915322352])
        (sha1.bytes [2587255685, 562781479, 3338897351, 3743625355, 1196763441]) =
      pbkdf2Iterate hmacSha1 (stringBytes "password") 3735
        (sha1.bytes [3797022944, 3479965333, 4176560560, 640560737, 1495689650])
        (sha1.bytes [2561226464, 1539334118, 3613071178, 1063031206, 1161776799]) :=
  pbkdf2Iterate_chunk _ password_length _ _ _ _ _ _ _ _ _ _ password_inner password_outer
    3780 45 3735 (by decide) _ _ _ _ _ _ _ _ _ _
    (by decide) (by decide) (by decide) (by decide) (by decide) _ _ _ _ _ _ _ _ _ _
    (by set_option maxRecDepth 10000000 in decide!)

theorem pbkdf2Iterate_run_2_8 :
    pbkdf2Iterate hmacSha1 (stringBytes "password") 3735
        (sha1.bytes [3797022944, 3479965333, 4176560560, 640560737, 1495689650])
        (sha1.bytes [2561226464, 1539334118, 3613071178, 1063031206, 1161776799]) =
      pbkdf2Iterate hmacSha1 (stringBytes "password") 3690
        (sha1.bytes [2585197892, 1135788916, 738222153, 331907961, 3421003940])
        (sha1.bytes [1892545227, 1494575673, 3206913072, 3503564652, 2204843835]) :=
  pbkdf2Iterate_chunk _ password_length _ _ _ _ _ _ _ _ _ _ password_inner password_outer
    3735 45 3690 (by decide) _ _ _ _ _ _ _ _ _ _
    (by decide) (by decide) (by decide) (by decide) (by decide) _ _ _ _ _ _ _ _ _ _
    (by set_option maxRecDepth 10000000 in decide!)

theorem pbkdf2Iterate_run_2_9 :
    pbkdf2Iterate hmacSha1 (stringBytes "password") 3690
        (sha1.bytes [2585197892, 1135788916, 738222153, 331907961, 3421003940])
        (sha1.bytes [1892545227, 1494575673, 3206913072, 3503564652, 2204843835]) =
      pbkdf2Iterate hmacSha1 (stringBytes "password") 3645
        (sha1.bytes [1217367379, 2475776825, 3670832592, 288641724, 757207401])
        (sha1.bytes [3404989619, 2568924527, 1752527797, 3985037837, 1298445439]) :=
  pbkdf2Iterate_chunk _ password_length _ _ _ _ _ _ _ _ _ _ password_inner password_outer
    3690 45 3645 (by decide) _ _ _ _ _ _ _ _ _ _
    (by decide) (by decide) (by decide) (by decide) (by decide) _ _ _ _ _ _ _ _ _ _
    (by set_option maxRecDepth 10000000 in decide!)

theorem pbkdf2Iterate_run_2_10 :
    pbkdf2Iterate hmacSha1 (stringBytes "password") 3645
        (sha1.bytes [1217367379, 2475776825, 3670832592, 288641724, 757207401])
        (sha1.bytes [3404989619, 2568924527, 1752527797, 3985037837, 1298445439]) =
      pbkdf2Iterate hmacSha1 (stringBytes "password") 3600
        (sha1.bytes [1510011513, 3716799592, 1985906334, 1637100114, 541219024])
        (sha1.bytes [3164032968, 3674440754, 356298323, 955261242, 2837826052]) :=
  pbkdf2Iterate_chunk _ password_length _ _ _ _ _ _ _ _ _ _ password_inner password_outer
    3645 45 3600 (by decide) _ _ _ _ _ _ _ _ _ _
    (by decide) (by decide) (by decide) (by decide) (by decide) _ _ _ _ _ _ _ _ _ _
    (by set_option maxRecDepth 10000000 in decide!)

theorem pbkdf2Iterate_run_2_11 :
    pbkdf2Iterate hmacSha1 (stringBytes "password") 3600
        (sha1.bytes [1510011513, 3716799592, 1985906334, 1637100114, 541219024])
        (sha1.bytes [3164032968, 3674440754, 356298323, 955261242, 2837826052]) =
      pbkdf2Iterate hmacSha1 (stringBytes "password") 3555
        (sha1.bytes [3606622304, 451715935, 541814748, 939170563, 3282766493])
        (sha1.bytes [1147957678, 1088376340, 2985124780, 2228270952, 3030850253]) :=
  pbkdf2Iterate_chunk _ password_length _ _ _ _ _ _ _ _ _ _ password_inner password_outer
    3600 45 3555 (by decide) _ _ _ _ _ _ _ _ _ _
    (by decide) (by decide) (by decide) (by decide) (by decide) _ _ _ _ _ _ _ _ _ _
    (by set_option maxRecDepth 10000000 in decide!)

theorem pbkdf2Iterate_run_2_12 :
    pbkdf2Iterate hmacSha1 (stringBytes "password") 3555
        (sha1.bytes [3606622304, 451715935, 541814748, 939170563, 3282766493])
        (sha1.bytes [1147957678, 1088376340, 2985124780, 2228270952, 3030850253]) =
      pbkdf2Iterate hmacSha1 (stringBytes "password") 3510
        (sha1.bytes [1643940397, 1950117111, 2984198859, 3859535633, 2335357014])
        (sha1.bytes [2352884013, 2257224329, 897939166, 2315601283, 2765157222]) :=
  pbkdf2Iterate_chunk _ password_length _ _ _ _ _ _ _ _ _ _ password_inner password_outer
    3555 45 3510 (by decide) _ _ _ _ _ _ _ _ _ _
    (by decide) (by decide) (by decide) (by decide) (by decide) _ _ _ _ _ _ _ _ _ _
    (by set_option maxRecDepth 10000000 in decide!)

theorem pbkdf2Iterate_run_2_13 :
    pbkdf2Iterate hmacSha1 (stringBytes "password") 3510
        (sha1.bytes [1643940397, 1950117111, 2984198859, 3859535633, 2335357014])
        (sha1.bytes [2352884013, 2257224329, 897939166, 2315601283, 2765157222]) =
      pbkdf2Iterate hmacSha1 (stringBytes "password") 3465
        (sha1.bytes [1355914971, 1655452724, 3275396233, 1786055703, 3740866696])
        (sha1.bytes [3528600665, 3293429429, 1170564045, 3030099972, 535942848]) :=
  pbkdf2Iterate_chunk _ password_length _ _ _ _ _ _ _ _ _ _ password_inner password_outer
    3510 45 3465 (by decide) _ _ _ _ _ _ _ _ _ _
    (by decide) (by decide) (by decide) (by decide) (by decide) _ _ _ _ _ _ _ _ _ _
    (by set_option maxRecDepth 10000000 in decide!)

theorem pbkdf2Iterate_run_2_14 :
    pbkdf2Iterate hmacSha1 (stringBytes "password") 3465
        (sha1.bytes [1355914971, 1655452724, 3275396233, 1786055703, 3740866696])
        (sha1.bytes [3528600665, 3293429429, 1170564045, 3030099972, 535942848]) =
      pbkdf2Iterate hmacSha1 (stringBytes "password") 3420
        (sha1.bytes [2620588605, 3401354690, 412559156, 2963322315, 3813300392])
        (sha1.bytes [1987811520, 3873622412, 442594278, 4070373085, 2901058810]) :=
  pbkdf2Iterate_chunk _ password_length _ _ _ _ _ _ _ _ _ _ password_inner password_outer
    3465 45 3420 (by decide) _ _ _ _ _ _ _ _ _ _
    (by decide) (by decide) (by decide) (by decide) (by decide) _ _ _ _ _ _ _ _ _ _
    (by set_option maxRecDepth 10000000 in decide!)

theorem pbkdf2Iterate_run_2_15 :
    pbkdf2Iterate hmacSha1 (stringBytes "password") 3420
        (sha1.bytes [2620588605, 3401354690, 412559156, 2963322315, 3813300392])
        (sha1.bytes [1987811520, 3873622412, 442594278, 4070373085, 2901058810]) =
      pbkdf2Iterate hmacSha1 (stringBytes "password") 3375
        (sha1.bytes [2865987140, 3182924578, 238000816, 1674828581, 674843353])
        (sha1.bytes [3901853081, 1472570607, 2048578182, 3577543308, 2126539580]) :=
  pbkdf2Iterate_chunk _ password_length _ _ _ _ _ _ _ _ _ _ password_inner password_outer
    3420 45 3375 (by decide) _ _ _ _ _ _ _ _ _ _
    (by decide) (by decide) (by decide) (by decide) (by decide) _ _ _ _ _ _ _ _ _ _
    (by set_option maxRecDepth 10000000 in decide!)

theorem pbkdf2Iterate_run_2_16 :
    pbkdf2Iterate hmacSha1 (stringBytes "password") 3375
        (sha1.bytes [2865987140, 3182924578, 238000816, 1674828581, 674843353])
        (sha1.bytes [3901853081, 1472570607, 2048578182, 3577543308, 2126539580]) =
      pbkdf2Iterate hmacSha1 (stringBytes "password") 3330
        (sha1.bytes [1482557352, 2788149621, 1433245877, 3533230793, 2519333961])
        (sha1.bytes [2997800294, 3015960532, 2140306545, 4264240304, 1008659644]) :=
  pbkdf2Iterate_chunk _ password_length _ _ _ _ _ _ _ _ _ _ password_inner password_outer
    3375 45 3330 (by decide) _ _ _ _ _ _ _ _ _ _
    (by decide) (by decide) (by decide) (by decide) (by decide) _ _ _ _ _ _ _ _ _ _
    (by set_option maxRecDepth 10000000 in decide!)

theorem pbkdf2Iterate_run_2_17 :
    pbkdf2Iterate hmacSha1 (stringBytes "password") 3330
        (sha1.bytes [1482557352, 2788149621, 1433245877, 3533230793, 2519333961])
        (sha1.bytes [2997800294, 3015960532, 2140306545, 4264240304, 1008659644]) =
      pbkdf2Iterate hmacSha1 (stringBytes "password") 3285
        (sha1.bytes [164179717, 408705927, 1418492023, 3728784937, 295939442])
        (sha1.bytes [3016196220, 1359027845, 4060956809, 3333313826, 1553663609]) :=
  pbkdf2Iterate_chunk _ password_length _ _ _ _ _ _ _ _ _ _ password_inner password_outer
    3330 45 3285 (by decide) _ _ _ _ _ _ _ _ _ _
    (by decide) (by decide) (by decide) (by decide) (by decide) _ _ _ _ _ _ _ _ _ _
    (by set_option maxRecDepth 10000000 in decide!)

theorem pbkdf2Iterate_run_2_18 :
    pbkdf2Iterate hmacSha1 (stringBytes "password") 3285
        (sha1.bytes [164179717, 408705927, 1418492023, 3728784937, 295939442])
        (sha1.bytes [3016196220, 1359027845, 4060956809, 3333313826, 1553663609]) =
      pbkdf2Iterate hmacSha1 (stringBytes "password") 3240
        (sha1.bytes [2949660749, 1721171256, 2925325144, 1114274489, 54643592])
        (sha1.bytes [1082300951, 3756918451, 1125290744, 3641868627, 3995171796]) :=
  pbkdf2Iterate_chunk _ password_length _ _ _ _ _ _ _ _ _ _ password_inner password_outer
    3285 45 3240 (by decide) _ _ _ _ _ _ _ _ _ _
    (by decide) (by decide) (by decide) (by decide) (by decide) _ _ _ _ _ _ _ _ _ _
    (by set_option maxRecDepth 10000000 in decide!)

theorem pbkdf2Iterate_run_2_19 :
    pbkdf2Iterate hmacSha1 (stringBytes "password") 3240
        (sha1.bytes [2949660749, 1721171256, 2925325144, 1114274489, 54643592])
        (sha1.bytes [1082300951, 3756918451, 1125290744, 3641868627, 3995171796]) =
      pbkdf2Iterate hmacSha1 (stringBytes "password") 3195
        (sha1.bytes [3080977607, 2150059296, 212297580, 1767629269, 2248285111])
        (sha1.bytes [3012768570, 4171139184, 1903189645, 3648300399, 4270825359]) :=
  pbkdf2Iterate_chunk _ password_length _ _ _ _ _ _ _ _ _ _ password_inner password_outer
    3240 45 3195 (by decide) _ _ _ _ _ _ _ _ _ _
    (by decide) (by decide) (by decide) (by decide) (by decide) _ _ _ _ _ _ _ _ _ _
    (by set_option maxRecDepth 10000000 in decide!)

theorem pbkdf2Iterate_run_2_20 :
    pbkdf2Iterate hmacSha1 (stringBytes "password") 3195
        (sha1.bytes [3080977607, 2150059296, 212297580, 1767629269, 2248285111])
        (sha1.bytes [3012768570, 4171139184, 1903189645, 3648300399, 4270825359]) =
      pbkdf2Iterate hmacSha1 (stringBytes "password") 3150
        (sha1.bytes [2846667173, 4047126843, 2943467684, 3949409442, 826773973])
        (sha1.bytes [3058030176, 1584614463, 3100710940, 352730635, 596632835]) :=
  pbkdf2Iterate_chunk _ password_length _ _ _ _ _ _ _ _ _ _ password_inner password_outer
    3195 45 3150 (by decide) _ _ _ _ _ _ _ _ _ _
    (by decide) (by decide) (by decide) (by decide) (by decide) _ _ _ _ _ _ _ _ _ _
    (by set_option maxRecDepth 10000000 in decide!)

theorem pbkdf2Iterate_run_2_21 :
    pbkdf2Iterate hmacSha1 (stringBytes "password") 3150
        (sha1.bytes [2846667173, 4047126843, 2943467684, 3949409442, 826773973])
        (sha1.bytes [3058030176, 1584614463, 3100710940, 352730635, 596632835]) =
      pbkdf2Iterate hmacSha1 (stringBytes "password") 3105
        (sha1.bytes [2502213026, 413183375, 2297345853, 4190282447, 2249563089])
        (sha1.bytes [860722360, 369727263, 2349746184, 3986279809, 2427376559]) :=
  pbkdf2Iterate_chunk _ password_length _ _ _ _ _ _ _ _ _ _ password_inner password_outer
    3150 45 3105 (by decide) _ _ _ _ _ _ _ _ _ _
    (by decide) (by decide) (by decide) (by decide) (by decide) _ _ _ _ _ _ _ _ _ _
    (by set_option maxRecDepth 10000000 in decide!)

theorem pbkdf2Iterate_run_2_22 :
    pbkdf2Iterate hmacSha1 (stringBytes "password") 3105
        (sha1.bytes [2502213026, 413183375, 2297345853, 4190282447, 2249563089])
        (sha1.bytes [860722360, 369727263, 2349746184, 3986279809, 2427376559]) =
      pbkdf2Iterate hmacSha1 (stringBytes "password") 3060
        (sha1.bytes [2220296169, 2858752509, 2592465354, 3804074997, 594652334])
        (sha1.bytes [179077304, 4204173737, 1083099930, 3661639885, 3212007449]) :=
  pbkdf2Iterate_chunk _ password_length _ _ _ _ _ _ _ _ _ _ password_inner password_outer
    3105 45 3060 (by decide) _ _ _ _ _ _ _ _ _ _
    (by decide) (by decide) (by decide) (by decide) (by decide) _ _ _ _ _ _ _ _ _ _
    (by set_option maxRecDepth 10000000 in decide!)

theorem pbkdf2Iterate_run_2_23 :
    pbkdf2Iterate hmacSha1 (stringBytes "password") 3060
        (sha1.bytes [2220296169, 2858752509, 2592465354, 3804074997, 594652334])
        (sha1.bytes [179077304, 4204173737, 1083099930, 3661639885, 3212007449]) =
      pbkdf2Iterate hmacSha1 (stringBytes "password") 3015
        (sha1.bytes [2116433064, 272888720, 119927125, 3153730027, 831203511])
        (sha1.bytes [3582534954, 2845280580, 1001963379, 2796400285, 259715668]) :=
  pbkdf2Iterate_chunk _ password_length _ _ _ _ _ _ _ _ _ _ password_inner password_outer
    3060 45 3015 (by decide) _ _ _ _ _ _ _ _ _ _
    (by decide) (by decide) (by decide) (by decide) (by decide) _ _ _ _ _ _ _ _ _ _
    (by set_option maxRecDepth 10000000 in decide!)

theorem pbkdf2Iterate_run_2_24 :
    pbkdf2Iterate hmacSha1 (stringBytes "password") 3015
        (sha1.bytes [2116433064, 272888720, 119927125, 3153730027, 831203511])
        (sha1.bytes [3582534954, 2845280580, 1001963379, 2796400285, 259715668]) =
      pbkdf2Iterate hmacSha1 (stringBytes "password") 2970
        (sha1.bytes [1076661302, 1708501598, 2611650044, 1481003227, 2370548602])
        (sha1.bytes [3856346756, 1340585806, 2668108262, 3239185794, 2984182353]) :=
  pbkdf2Iterate_chunk _ password_length _ _ _ _ _ _ _ _ _ _ password_inner password_outer
    3015 45 2970 (by decide) _ _ _ _ _ _ _ _ _ _
    (by decide) (by decide) (by decide) (by decide) (by decide) _ _ _ _ _ _ _ _ _ _
    (by set_option maxRecDepth 10000000 in decide!)

theorem pbkdf2Iterate_run_2_25 :
    pbkdf2Iterate hmacSha1 (stringBytes "password") 2970
        (sha1.bytes [1076661302, 1708501598, 2611650044, 1481003227, 2370548602])
        (sha1.bytes [3856346756, 1340585806, 2668108262, 3239185794, 2984182353]) =
      pbkdf2Iterate hmacSha1 (stringBytes "password") 2925
        (sha1.bytes [845114056, 888413994, 2626067206, 3582827686, 2084650430])
        (sha1.bytes [983703937, 3317870609, 1314610097, 1737139084, 2336656337]) :=
  pbkdf2Iterate_chunk _ password_length _ _ _ _ _ _ _ _ _ _ password_inner password_outer
    2970 45 2925 (by decide) _ _ _ _ _ _ _ _ _ _
    (by decide) (by decide) (by decide) (by decide) (by decide) _ _ _ _ _ _ _ _ _ _
    (by set_option maxRecDepth 10000000 in decide!)

theorem pbkdf2Iterate_run_2_26 :
    pbkdf2Iterate hmacSha1 (stringBytes "password") 2925
        (sha1.bytes [845114056, 888413994, 2626067206, 3582827686, 2084650430])
        (sha1.bytes [983703937, 3317870609, 1314610097, 1737139084, 2336656337]) =
      pbkdf2Iterate hmacSha1 (stringBytes "password") 2880
        (sha1.bytes [2627925688, 1227200548, 1711167668, 1248316949, 4191138217])
        (sha1.bytes [1470907117, 188810486, 4187745819, 197907436, 3385002443]) :=
  pbkdf2Iterate_chunk _ password_length _ _ _ _ _ _ _ _ _ _ password_inner password_outer
    2925 45 2880 (by decide) _ _ _ _ _ _ _ _ _ _
    (by decide) (by decide) (by decide) (by decide) (by decide) _ _ _ _ _ _ _ _ _ _
    (by set_option maxRecDepth 10000000 in decide!)

theorem pbkdf2Iterate_run_2_27 :
    pbkdf2Iterate hmacSha1 (stringBytes "password") 2880
        (sha1.bytes [2627925688, 1227200548, 1711167668, 1248316949, 4191138217])
        (sha1.bytes [1470907117, 188810486, 4187745819, 197907436, 3385002443]) =
      pbkdf2Iterate hmacSha1 (stringBytes "password") 2835
        (sha1.bytes [2043156767, 1796600215, 3436837460, 3793672027, 2391586879])
        (sha1.bytes [368386916, 2901827721, 1919636789, 1964251671, 2043291310]) :=
  pbkdf2Iterate_chunk _ password_length _ _ _ _ _ _ _ _ _ _ password_inner password_outer
    2880 45 2835 (by decide) _ _ _ _ _ _ _ _ _ _
    (by decide) (by decide) (by decide) (by decide) (by decide) _ _ _ _ _ _ _ _ _ _
    (by set_option maxRecDepth 10000000 in decide!)

theorem pbkdf2Iterate_run_2_28 :
    pbkdf2Iterate hmacSha1 (stringBytes "password") 2835
        (sha1.bytes [2043156767, 1796600215, 3436837460, 3793672027, 2391586879])
        (sha1.bytes [368386916, 2901827721, 1919636789, 1964251671, 2043291310]) =
      pbkdf2Iterate hmacSha1 (stringBytes "password") 2790
        (sha1.bytes [1927750388, 490346197, 538716637, 1760361278, 2063433958])
        (sha1.bytes [313610715, 1013110605, 755649906, 4115111663, 4183694717]) :=
  pbkdf2Iterate_chunk _ password_length _ _ _ _ _ _ _ _ _ _ password_inner password_outer
    2835 45 2790 (by decide) _ _ _ _ _ _ _ _ _ _
    (by decide) (by decide) (by decide) (by decide) (by decide) _ _ _ _ _ _ _ _ _ _
    (by set_option maxRecDepth 10000000 in decide!)

theorem pbkdf2Iterate_run_2_29 :
    pbkdf2Iterate hmacSha1 (stringBytes "password") 2790
        (sha1.bytes [1927750388, 490346197, 538716637, 1760361278, 2063433958])
        (sha1.bytes [313610715, 1013110605, 755649906, 4115111663, 4183694717]) =
      pbkdf2Iterate hmacSha1 (stringBytes "password") 2745
        (sha1.bytes [2237961240, 1032095194, 1987409682, 1418702043, 3342553669])
        (sha1.bytes [2781829034, 165047663, 2939899565, 828243717, 2370171048]) :=
  pbkdf2Iterate_chunk _ password_length _ _ _ _ _ _ _ _ _ _ password_inner password_outer
    2790 45 2745 (by decide) _ _ _ _ _ _ _ _ _ _
    (by decide) (by decide) (by decide) (by decide) (by decide) _ _ _ _ _ _ _ _ _ _
    (by set_option maxRecDepth 10000000 in decide!)

theorem pbkdf2Iterate_run_2_30 :
    pbkdf2Iterate hmacSha1 (stringBytes "password") 2745
        (sha1.bytes [2237961240, 1032095194, 1987409682, 1418702043, 3342553669])
        (sha1.bytes [2781829034, 165047663, 2939899565, 828243717, 2370171048]) =
      pbkdf2Iterate hmacSha1 (stringBytes "password") 2700
        (sha1.bytes [4008492520, 2608222272, 3799901308, 105362580, 704161738])
        (sha1.bytes [2546958349, 1393220127, 658294946, 4287854143, 386652249]) :=
  pbkdf2Iterate_chunk _ password_length _ _ _ _ _ _ _ _ _ _ password_inner password_outer
    2745 45 2700 (by decide) _ _ _ _ _ _ _ _ _ _
    (by decide) (by decide) (by decide) (by decide) (by decide) _ _ _ _ _ _ _ _ _ _
    (by set_option maxRecDepth 10000000 in decide!)

theorem pbkdf2Iterate_run_2_31 :
    pbkdf2Iterate hmacSha1 (stringBytes "password") 2700
        (sha1.bytes [4008492520, 2608222272, 3799901308, 105362580, 704161738])
        (sha1.bytes [2546958349, 1393220127, 658294946, 4287854143, 386652249]) =
      pbkdf2Iterate hmacSha1 (stringBytes "password") 2655
        (sha1.bytes [1286503632, 4103057646, 1809904374, 2855155233, 2471533026])
        (sha1.bytes [169408190, 419589055, 1194985329, 2689374423, 2214895270]) :=
  pbkdf2Iterate_chunk _ password_length _ _ _ _ _ _ _ _ _ _ password_inner password_outer
    2700 45 2655 (by decide) _ _ _ _ _ _ _ _ _ _
    (by decide) (by decide) (by decide) (by decide) (by decide) _ _ _ _ _ _ _ _ _ _
    (by set_option maxRecDepth 10000000 in decide!)

theorem pbkdf2Iterate_run_2_32 :
    pbkdf2Iterate hmacSha1 (stringBytes "password") 2655
        (sha1.bytes [1286503632, 4103057646, 1809904374, 2855155233, 2471533026])
        (sha1.bytes [169408190, 419589055, 1194985329, 2689374423, 2214895270]) =
      pbkdf2Iterate hmacSha1 (stringBytes "password") 2610
        (sha1.bytes [1580261742, 4215789649, 433897322, 2340826792, 1682577491])
        (sha1.bytes [2802586190, 3301410810, 1580161109, 3524706226, 2665701290]) :=
  pbkdf2Iterate_chunk _ password_length _ _ _ _ _ _ _ _ _ _ password_inner password_outer
    2655 45 2610 (by decide) _ _ _ _ _ _ _ _ _ _
    (by decide) (by decide) (by decide) (by decide) (by decide) _ _ _ _ _ _ _ _ _ _
    (by set_option maxRecDepth 10000000 in decide!)

theorem pbkdf2Iterate_run_2_33 :
    pbkdf2Iterate hmacSha1 (stringBytes "password") 2610
        (sha1.bytes [1580261742, 4215789649, 433897322, 2340826792, 1682577491])
        (sha1.bytes [2802586190, 3301410810, 1580161109, 3524706226, 2665701290]) =
      pbkdf2Iterate hmacSha1 (stringBytes "password") 2565
        (sha1.bytes [3454156891, 1329223802, 2631960468, 3906164984, 1758913295])
        (sha1.bytes [1717349687, 1068220942, 1628577542, 3072912517, 3786361259]) :=
  pbkdf2Iterate_chunk _ password_length _ _ _ _ _ _ _ _ _ _ password_inner password_outer
    2610 45 2565 (by decide) _ _ _ _ _ _ _ _ _ _
    (by decide) (by decide) (by decide) (by decide) (by decide) _ _ _ _ _ _ _ _ _ _
    (by set_option maxRecDepth 10000000 in decide!)

theorem pbkdf2Iterate_run_2_34 :
    pbkdf2Iterate hmacSha1 (stringBytes "password") 2565
        (sha1.bytes [3454156891, 1329223802, 2631960468, 3906164984, 1758913295])
        (sha1.bytes [1717349687, 1068220942, 1628577542, 3072912517, 3786361259]) =
      pbkdf2Iterate hmacSha1 (stringBytes "password") 2520
        (sha1.bytes [208743758, 3765339547, 3053712475, 2381905922, 2559939412])
        (sha1.bytes [2577272365, 2326064581, 1174021117, 3352367355, 2072525383]) :=
  pbkdf2Iterate_chunk _ password_length _ _ _ _ _ _ _ _ _ _ password_inner password_outer
    2565 45 2520 (by decide) _ _ _ _ _ _ _ _ _ _
    (by decide) (by decide) (by decide) (by decide) (by decide) _ _ _ _ _ _ _ _ _ _
    (by set_option maxRecDepth 10000000 in decide!)

theorem pbkdf2Iterate_run_2_35 :
    pbkdf2Iterate hmacSha1 (stringBytes "password") 2520
        (sha1.bytes [208743758, 3765339547, 3053712475, 2381905922, 2559939412])
        (sha1.bytes [2577272365, 2326064581, 1174021117, 3352367355, 2072525383]) =
      pbkdf2Iterate hmacSha1 (stringBytes "password") 2475
        (sha1.bytes [3906616458, 1137862446, 1982973231, 1810342570, 2776850789])
        (sha1.bytes [413309792, 3837524222, 2361258694, 13386892, 3261606768]) :=
  pbkdf2Iterate_chunk _ password_length _ _ _ _ _ _ _ _ _ _ password_inner password_outer
    2520 45 2475 (by decide) _ _ _ _ _ _ _ _ _ _
    (by decide) (by decide) (by decide) (by decide) (by decide) _ _ _ _ _ _ _ _ _ _
    (by set_option maxRecDepth 10000000 in decide!)

theorem pbkdf2Iterate_run_2_36 :
    pbkdf2Iterate hmacSha1 (stringBytes "password") 2475
        (sha1.bytes [3906616458, 1137862446, 1982973231, 1810342570, 2776850789])
        (sha1.bytes [413309792, 3837524222, 2361258694, 13386892, 3261606768]) =
      pbkdf2Iterate hmacSha1 (stringBytes "password") 2430
        (sha1.bytes [3444869887, 1966218893, 1413498488, 3055813362, 1318657288])
        (sha1.bytes [56147202, 257919481, 2308207197, 1085990751, 432948841]) :=
  pbkdf2Iterate_chunk _ password_length _ _ _ _ _ _ _ _ _ _ password_inner password_outer
    2475 45 2430 (by decide) _ _ _ _ _ _ _ _ _ _
    (by decide) (by decide) (by decide) (by decide) (by decide) _ _ _ _ _ _ _ _ _ _
    (by set_option maxRecDepth 10000000 in decide!)

theorem pbkdf2Iterate_run_2_37 :
    pbkdf2Iterate hmacSha1 (stringBytes "password") 2430
        (sha1.bytes [3444869887, 1966218893, 1413498488, 3055813362, 1318657288])
        (sha1.bytes [56147202, 257919481, 2308207197, 1085990751, 432948841]) =
      pbkdf2Iterate hmacSha1 (stringBytes "password") 2385
        (sha1.bytes [1078394483, 2218084478, 277893516, 3975973674, 1818100352])
        (sha1.bytes [2541090346, 629274342, 1171874183, 3323064786, 2012700835]) :=
  pbkdf2Iterate_chunk _ password_length _ _ _ _ _ _ _ _ _ _ password_inner password_outer
    2430 45 2385 (by decide) _ _ _ _ _ _ _ _ _ _
    (by decide) (by decide) (by decide) (by decide) (by decide) _ _ _ _ _ _ _ _ _ _
    (by set_option maxRecDepth 10000000 in decide!)

theorem pbkdf2Iterate_run_2_38 :
    pbkdf2Iterate hmacSha1 (stringBytes "password") 2385
        (sha1.bytes [1078394483, 2218084478, 277893516, 3975973674, 1818100352])
        (sha1.bytes [2541090346, 629274342, 1171874183, 3323064786, 2012700835]) =
      pbkdf2Iterate hmacSha1 (stringBytes "password") 2340
        (sha1.bytes [4023702193, 2444744562, 716941494, 852327616, 3462083993])
        (sha1.bytes [2085635310, 2744075666, 3357351063, 630329336, 2641781517]) :=
  pbkdf2Iterate_chunk _ password_length _ _ _ _ _ _ _ _ _ _ password_inner password_outer
    2385 45 2340 (by decide) _ _ _ _ _ _ _ _ _ _
    (by decide) (by decide) (by decide) (by decide) (by decide) _ _ _ _ _ _ _ _ _ _
    (by set_option maxRecDepth 10000000 in decide!)

theorem pbkdf2Iterate_run_2_39 :
    pbkdf2Iterate hmacSha1 (stringBytes "password") 2340
        (sha1.bytes [4023702193, 2444744562, 716941494, 852327616, 3462083993])
        (sha1.bytes [2085635310, 2744075666, 3357351063, 630329336, 2641781517]) =
      pbkdf2Iterate hmacSha1 (stringBytes "password") 2295
        (sha1.bytes [3483708914, 2972578425, 1143847639, 3369237764, 3302544217])
        (sha1.bytes [2206749706, 2054184624, 3134883864, 3024280887, 3698973357]) :=
  pbkdf2Iterate_chunk _ password_length _ _ _ _ _ _ _ _ _ _ password_inner password_outer
    2340 45 2295 (by decide) _ _ _ _ _ _ _ _ _ _
    (by decide) (by decide) (by decide) (by decide) (by decide) _ _ _ _ _ _ _ _ _ _
    (by set_option maxRecDepth 10000000 in decide!)

theorem pbkdf2Iterate_run_2_40 :
    pbkdf2Iterate hmacSha1 (stringBytes "password") 2295
        (sha1.bytes [3483708914, 2972578425, 1143847639, 3369237764, 3302544217])
        (sha1.bytes [2206749706, 2054184624, 3134883864, 3024280887, 3698973357]) =
      pbkdf2Iterate hmacSha1 (stringBytes "password") 2250
        (sha1.bytes [3980840362, 2909016144, 3736578335, 1561470411, 4030747205])
        (sha1.bytes [516695109, 3165394129, 61895886, 452080291, 2021016168]) :=
  pbkdf2Iterate_chunk _ password_length _ _ _ _ _ _ _ _ _ _ password_inner password_outer
    2295 45 2250 (by decide) _ _ _ _ _ _ _ _ _ _
    (by decide) (by decide) (by decide) (by decide) (by decide) _ _ _ _ _ _ _ _ _ _
    (by set_option maxRecDepth 10000000 in decide!)

theorem pbkdf2Iterate_run_2_41 :
    pbkdf2Iterate hmacSha1 (stringBytes "password") 2250
        (sha1.bytes [3980840362, 2909016144, 3736578335, 1561470411, 4030747205])
        (sha1.bytes [516695109, 3165394129, 61895886, 452080291, 2021016168]) =
      pbkdf2Iterate hmacSha1 (stringBytes "password") 2205
        (sha1.bytes [3140336328, 2232625535, 402379127, 3580591202, 1050235332])
        (sha1.bytes [3580109125, 3670294574, 3347474663, 269017804, 2535417375]) :=
  pbkdf2Iterate_chunk _ password_length _ _ _ _ _ _ _ _ _ _ password_inner password_outer
    2250 45 2205 (by decide) _ _ _ _ _ _ _ _ _ _
    (by decide) (by decide) (by decide) (by decide) (by decide) _ _ _ _ _ _ _ _ _ _
    (by set_option maxRecDepth 10000000 in decide!)

theorem pbkdf2Iterate_run_2_42 :
    pbkdf2Iterate hmacSha1 (stringBytes "password") 2205
        (sha1.bytes [3140336328, 2232625535, 402379127, 3580591202, 1050235332])
        (sha1.bytes [3580109125, 3670294574, 3347474663, 269017804, 2535417375]) =
      pbkdf2Iterate hmacSha1 (stringBytes "password") 2160
        (sha1.bytes [648614370, 2514883310, 3512414556, 1569535865, 2502777500])
        (sha1.bytes [698131721, 3485298941, 2078707282, 3064346691, 2635852818]) :=
  pbkdf2Iterate_chunk _ password_length _ _ _ _ _ _ _ _ _ _ password_inner password_outer
    2205 45 2160 (by decide) _ _ _ _ _ _ _ _ _ _
    (by decide) (by decide) (by decide) (by decide) (by decide) _ _ _ _ _ _ _ _ _ _
    (by set_option maxRecDepth 10000000 in decide!)

theorem pbkdf2Iterate_run_2_43 :
    pbkdf2Iterate hmacSha1 (stringBytes "password") 2160
        (sha1.bytes [648614370, 2514883310, 3512414556, 1569535865, 2502777500])
        (sha1.bytes [698131721, 3485298941, 2078707282, 3064346691, 2635852818]) =
      pbkdf2Iterate hmacSha1 (stringBytes "password") 2115
        (sha1.bytes [3562247042, 1447846946, 1270193697, 2682424061, 1321375530])
        (sha1.bytes [1167160248, 160572571, 2811992913, 3401876604, 1273340720]) :=
  pbkdf2Iterate_chunk _ password_length _ _ _ _ _ _ _ _ _ _ password_inner password_outer
    2160 45 2115 (by decide) _ _ _ _ _ _ _ _ _ _
    (by decide) (by decide) (by decide) (by decide) (by decide) _ _ _ _ _ _ _ _ _ _
    (by set_option maxRecDepth 10000000 in decide!)

theorem pbkdf2Iterate_run_2_44 :
    pbkdf2Iterate hmacSha1 (stringBytes "password") 2115
        (sha1.bytes [3562247042, 1447846946, 1270193697, 2682424061, 1321375530])
        (sha1.bytes [1167160248, 160572571, 2811992913, 3401876604, 1273340720]) =
      pbkdf2Iterate hmacSha1 (stringBytes "password") 2070
        (sha1.bytes [1710321176, 1459239255, 2360576548, 2922441841, 938839070])
        (sha1.bytes [1283975250, 2732978697, 4173624049, 1938782138, 1064396640]) :=
  pbkdf2Iterate_chunk _ password_length _ _ _ _ _ _ _ _ _ _ password_inner password_outer
    2115 45 2070 (by decide) _ _ _ _ _ _ _ _ _ _
    (by decide) (by decide) (by decide) (by decide) (by decide) _ _ _ _ _ _ _ _ _ _
    (by set_option maxRecDepth 10000000 in decide!)

theorem pbkdf2Iterate_run_2_45 :
    pbkdf2Iterate hmacSha1 (stringBytes "password") 2070
        (sha1.bytes [1710321176, 1459239255, 2360576548, 2922441841, 938839070])
        (sha1.bytes [1283975250, 2732978697, 4173624049, 1938782138, 1064396640]) =
      pbkdf2Iterate hmacSha1 (stringBytes "password") 2025
        (sha1.bytes [2617790145, 1969112666, 2075548533, 3306665861, 4273199974])
        (sha1.bytes [2708054819, 4145051833, 725133790, 745934923, 1344967904]) :=
  pbkdf2Iterate_chunk _ password_length _ _ _ _ _ _ _ _ _ _ password_inner password_outer
    2070 45 2025 (by decide) _ _ _ _ _ _ _ _ _ _
    (by decide) (by decide) (by decide) (by decide) (by decide) _ _ _ _ _ _ _ _ _ _
    (by set_option maxRecDepth 10000000 in decide!)

theorem pbkdf2Iterate_run_2_46 :
    pbkdf2Iterate hmacSha1 (stringBytes "password") 2025
        (sha1.bytes [2617790145, 1969112666, 2075548533, 3306665861, 4273199974])
        (sha1.bytes [2708054819, 4145051833, 725133790, 745934923, 1344967904]) =
      pbkdf2Iterate hmacSha1 (stringBytes "password") 1980
        (sha1.bytes [2716791966, 3977495153, 642437799, 2573884076, 2841210045])
        (sha1.bytes [1862786602, 674490314, 4010965170, 108945625, 3385955551]) :=
  pbkdf2Iterate_chunk _ password_length _ _ _ _ _ _ _ _ _ _ password_inner password_outer
    2025 45 1980 (by decide) _ _ _ _ _ _ _ _ _ _
    (by decide) (by decide) (by decide) (by decide) (by decide) _ _ _ _ _ _ _ _ _ _
    (by set_option maxRecDepth 10000000 in decide!)

theorem pbkdf2Iterate_run_2_47 :
    pbkdf2Iterate hmacSha1 (stringBytes "password") 1980
        (sha1.bytes [2716791966, 3977495153, 642437799, 2573884076, 2841210045])
        (sha1.bytes [1862786602, 674490314, 4010965170, 108945625, 3385955551]) =
      pbkdf2Iterate hmacSha1 (stringBytes "password") 1935
        (sha1.bytes [4015813438, 2310299169, 3746972362, 1801510494, 2298291549])
        (sha1.bytes [2381846544, 758335006, 3305446856, 45870290, 3128681298]) :=
  pbkdf2Iterate_chunk _ password_length _ _ _ _ _ _ _ _ _ _ password_inner password_outer
    1980 45 1935 (by decide) _ _ _ _ _ _ _ _ _ _
    (by decide) (by decide) (by decide) (by decide) (by decide) _ _ _ _ _ _ _ _ _ _
    (by set_option maxRecDepth 10000000 in decide!)

theorem pbkdf2Iterate_run_2_48 :
    pbkdf2Iterate hmacSha1 (stringBytes "password") 1935
        (sha1.bytes [4015813438, 2310299169, 3746972362, 1801510494, 2298291549])
        (sha1.bytes [2381846544, 758335006, 3305446856, 45870290, 3128681298]) =
      pbkdf2Iterate hmacSha1 (stringBytes "password") 1890
        (sha1.bytes [2567303995, 848712253, 629975898, 1522235537, 3635624968])
        (sha1.bytes [3207094096, 2459262444, 2022326735, 3630560930, 1400101993]) :=
  pbkdf2Iterate_chunk _ password_length _ _ _ _ _ _ _ _ _ _ password_inner password_outer
    1935 45 1890 (by decide) _ _ _ _ _ _ _ _ _ _
    (by decide) (by decide) (by decide) (by decide) (by decide) _ _ _ _ _ _ _ _ _ _
    (by set_option maxRecDepth 10000000 in decide!)

theorem pbkdf2Iterate_run_2_49 :
    pbkdf2Iterate hmacSha1 (stringBytes "password") 1890
        (sha1.bytes [2567303995, 848712253, 629975898, 1522235537, 3635624968])
        (sha1.bytes [3207094096, 2459262444, 2022326735, 3630560930, 1400101993]) =
      pbkdf2Iterate hmacSha1 (stringBytes "password") 1845
        (sha1.bytes [1824030701, 2720326683, 2460300126, 1372243053, 3024788693])
        (sha1.bytes [1038993842, 1284534625, 1898873306, 191857068, 2106394858]) :=
  pbkdf2Iterate_chunk _ password_length _ _ _ _ _ _ _ _ _ _ password_inner password_outer
    1890 45 1845 (by decide) _ _ _ _ _ _ _ _ _ _
    (by decide) (by decide) (by decide) (by decide) (by decide) _ _ _ _ _ _ _ _ _ _
    (by set_option maxRecDepth 10000000 in decide!)

theorem pbkdf2Iterate_run_2_50 :
    pbkdf2Iterate hmacSha1 (stringBytes "password") 1845
        (sha1.bytes [1824030701, 2720326683, 2460300126, 1372243053, 3024788693])
        (sha1.bytes [1038993842, 1284534625, 1898873306, 191857068, 2106394858]) =
      pbkdf2Iterate hmacSha1 (stringBytes "password") 1800
        (sha1.bytes [2439114175, 2247228186, 1813257719, 4046476547, 2343418504])
        (sha1.bytes [2809754528, 757122791, 324490768, 3421450685, 55085333]) :=
  pbkdf2Iterate_chunk _ password_length _ _ _ _ _ _ _ _ _ _ password_inner password_outer
    1845 45 1800 (by decide) _ _ _ _ _ _ _ _ _ _
    (by decide) (by decide) (by decide) (by decide) (by decide) _ _ _ _ _ _ _ _ _ _
    (by set_option maxRecDepth 10000000 in decide!)

theorem pbkdf2Iterate_run_2_51 :
    pbkdf2Iterate hmacSha1 (stringBytes "password") 1800
        (sha1.bytes [2439114175, 2247228186, 1813257719, 4046476547, 2343418504])
        (sha1.bytes [2809754528, 757122791, 324490768, 3421450685, 55085333]) =
      pbkdf2Iterate hmacSha1 (stringBytes "password") 1755
        (sha1.bytes [2795026470, 2554578986, 2574496760, 482566994, 1102858283])
        (sha1.bytes [754239815, 468866006, 2368880209, 2228534267, 2909676265]) :=
  pbkdf2Iterate_chunk _ password_length _ _ _ _ _ _ _ _ _ _ password_inner password_outer
    1800 45 1755 (by decide) _ _ _ _ _ _ _ _ _ _
    (by decide) (by decide) (by decide) (by decide) (by decide) _ _ _ _ _ _ _ _ _ _
    (by set_option maxRecDepth 10000000 in decide!)

theorem pbkdf2Iterate_run_2_52 :
    pbkdf2Iterate hmacSha1 (stringBytes "password") 1755
        (sha1.bytes [2795026470, 2554578986, 2574496760, 482566994, 1102858283])
        (sha1.bytes [754239815, 468866006, 2368880209, 2228534267, 2909676265]) =
      pbkdf2Iterate hmacSha1 (stringBytes "password") 1710
        (sha1.bytes [1734021163, 3077029954, 1537564881, 1802749362, 3912659997])
        (sha1.bytes [4017271049, 1464173904, 296620813, 633921926, 1946766839]) :=
  pbkdf2Iterate_chunk _ password_length _ _ _ _ _ _ _ _ _ _ password_inner password_outer
    1755 45 1710 (by decide) _ _ _ _ _ _ _ _ _ _
    (by decide) (by decide) (by decide) (by decide) (by decide) _ _ _ _ _ _ _ _ _ _
    (by set_option maxRecDepth 10000000 in decide!)

theorem pbkdf2Iterate_run_2_53 :
    pbkdf2Iterate hmacSha1 (stringBytes "password") 1710
        (sha1.bytes [1734021163, 3077029954, 1537564881, 1802749362, 3912659997])
        (sha1.bytes [4017271049, 1464173904, 296620813, 633921926, 1946766839]) =
      pbkdf2Iterate hmacSha1 (stringBytes "password") 1665
        (sha1.bytes [3218149762, 1749811800, 3761149510, 2981831795, 3009169112])
        (sha1.bytes [1477452901, 3387957827, 2409807591, 2725410915, 4173130201]) :=
  pbkdf2Iterate_chunk _ password_length _ _ _ _ _ _ _ _ _ _ password_inner password_outer
    1710 45 1665 (by decide) _ _ _ _ _ _ _ _ _ _
    (by decide) (by decide) (by decide) (by decide) (by decide) _ _ _ _ _ _ _ _ _ _
    (by set_option maxRecDepth 10000000 in decide!)

theorem pbkdf2Iterate_run_2_54 :
    pbkdf2Iterate hmacSha1 (stringBytes "password") 1665
        (sha1.bytes [3218149762, 1749811800, 3761149510, 2981831795, 3009169112])
        (sha1.bytes [1477452901, 3387957827, 2409807591, 2725410915, 4173130201]) =
      pbkdf2Iterate hmacSha1 (stringBytes "password") 1620
        (sha1.bytes [3572386052, 1534356770, 419267106, 2425482051, 315375481])
        (sha1.bytes [3423360848, 663254198, 229114675, 4078753431, 1635751101]) :=
  pbkdf2Iterate_chunk _ password_length _ _ _ _ _ _ _ _ _ _ password_inner password_outer
    1665 45 1620 (by decide) _ _ _ _ _ _ _ _ _ _
    (by decide) (by decide) (by decide) (by decide) (by decide) _ _ _ _ _ _ _ _ _ _
    (by set_option maxRecDepth 10000000 in decide!)

theorem pbkdf2Iterate_run_2_55 :
    pbkdf2Iterate hmacSha1 (stringBytes "password") 1620
        (sha1.bytes [3572386052, 1534356770, 419267106, 2425482051, 315375481])
        (sha1.bytes [3423360848, 663254198, 229114675, 4078753431, 1635751101]) =
      pbkdf2Iterate hmacSha1 (stringBytes "password") 1575
        (sha1.bytes [1721633294, 754167134, 3365147514, 2503428454, 1538642838])
        (sha1.bytes [2777120174, 2294381394, 3189879573, 391747888, 77496505]) :=
  pbkdf2Iterate_chunk _ password_length _ _ _ _ _ _ _ _ _ _ password_inner password_outer
    1620 45 1575 (by decide) _ _ _ _ _ _ _ _ _ _
    (by decide) (by decide) (by decide) (by decide) (by decide) _ _ _ _ _ _ _ _ _ _
    (by set_option maxRecDepth 10000000 in decide!)

theorem pbkdf2Iterate_run_2_56 :
    pbkdf2Iterate hmacSha1 (stringBytes "password") 1575
        (sha1.bytes [1721633294, 754167134, 3365147514, 2503428454, 1538642838])
        (sha1.bytes [2777120174, 2294381394, 3189879573, 391747888, 77496505]) =
      pbkdf2Iterate hmacSha1 (stringBytes "password") 1530
        (sha1.bytes [4141299344, 3963455619, 1261993891, 337333334, 2335586853])
        (sha1.bytes [2353305716, 3982944416, 1350456457, 1753842937, 3496106709]) :=
  pbkdf2Iterate_chunk _ password_length _ _ _ _ _ _ _ _ _ _ password_inner password_outer
    1575 45 1530 (by decide) _ _ _ _ _ _ _ _ _ _
    (by decide) (by decide) (by decide) (by decide) (by decide) _ _ _ _ _ _ _ _ _ _
    (by set_option maxRecDepth 10000000 in decide!)

theorem pbkdf2Iterate_run_2_57 :
    pbkdf2Iterate hmacSha1 (stringBytes "password") 1530
        (sha1.bytes [4141299344, 3963455619, 1261993891, 337333334, 2335586853])
        (sha1.bytes [2353305716, 3982944416, 1350456457, 1753842937, 3496106709]) =
      pbkdf2Iterate hmacSha1 (stringBytes "password") 1485
        (sha1.bytes [2174876677, 550592731, 1352993929, 3841713093, 1177217129])
        (sha1.bytes [3672705639, 2242708492, 1261555820, 1464064131, 3007657021]) :=
  pbkdf2Iterate_chunk _ password_length _ _ _ _ _ _ _ _ _ _ password_inner password_outer
    1530 45 1485 (by decide) _ _ _ _ _ _ _ _ _ _
    (by decide) (by decide) (by decide) (by decide) (by decide) _ _ _ _ _ _ _ _ _ _
    (by set_option maxRecDepth 10000000 in decide!)

theorem pbkdf2Iterate_run_2_58 :
    pbkdf2Iterate hmacSha1 (stringBytes "password") 1485
        (sha1.bytes [2174876677, 550592731, 1352993929, 3841713093, 1177217129])
        (sha1.bytes [3672705639, 2242708492, 1261555820, 1464064131, 3007657021]) =
      pbkdf2Iterate hmacSha1 (stringBytes "password") 1440
        (sha1.bytes [3497022050, 3103338144, 2141435996, 1351035006, 42405086])
        (sha1.bytes [2979713241, 4100771855, 1108290874, 359099455, 3670538876]) :=
  pbkdf2Iterate_chunk _ password_length _ _ _ _ _ _ _ _ _ _ password_inner password_outer
    1485 45 1440 (by decide) _ _ _ _ _ _ _ _ _ _
    (by decide) (by decide) (by decide) (by decide) (by decide) _ _ _ _ _ _ _ _ _ _
    (by set_option maxRecDepth 10000000 in decide!)

theorem pbkdf2Iterate_run_2_59 :
    pbkdf2Iterate hmacSha1 (stringBytes "password") 1440
        (sha1.bytes [3497022050, 3103338144, 2141435996, 1351035006, 42405086])
        (sha1.bytes [2979713241, 4100771855, 1108290874, 359099455, 3670538876]) =
      pbkdf2Iterate hmacSha1 (stringBytes "password") 1395
        (sha1.bytes [982183911, 3006197715, 3355127241, 1114170239, 776562224])
        (sha1.bytes [1494141308, 4070710299, 3454114955, 3106167864, 4274537513]) :=
  pbkdf2Iterate_chunk _ password_length _ _ _ _ _ _ _ _ _ _ password_inner password_outer
    1440 45 1395 (by decide) _ _ _ _ _ _ _ _ _ _
    (by decide) (by decide) (by decide) (by decide) (by decide) _ _ _ _ _ _ _ _ _ _
    (by set_option maxRecDepth 10000000 in decide!)

theorem pbkdf2Iterate_run_2_60 :
    pbkdf2Iterate hmacSha1 (stringBytes "password") 1395
        (sha1.bytes [982183911, 3006197715, 3355127241, 1114170239, 776562224])
        (sha1.bytes [1494141308, 4070710299, 3454114955, 3106167864, 4274537513]) =
      pbkdf2Iterate hmacSha1 (stringBytes "password") 1350
        (sha1.bytes [3061081440, 2910260851, 1763466798, 3804854251, 2119472635])
        (sha1.bytes [1337215267, 2299823138, 4054584693, 3872009436, 960276594]) :=
  pbkdf2Iterate_chunk _ password_length _ _ _ _ _ _ _ _ _ _ password_inner password_outer
    1395 45 1350 (by decide) _ _ _ _ _ _ _ _ _ _
    (by decide) (by decide) (by decide) (by decide) (by decide) _ _ _ _ _ _ _ _ _ _
    (by set_option maxRecDepth 10000000 in decide!)

theorem pbkdf2Iterate_run_2_61 :
    pbkdf2Iterate hmacSha1 (stringBytes "password") 1350
        (sha1.bytes [3061081440, 2910260851, 1763466798, 3804854251, 2119472635])
        (sha1.bytes [1337215267, 2299823138, 4054584693, 3872009436, 960276594]) =
      pbkdf2Iterate hmacSha1 (stringBytes "password") 1305
        (sha1.bytes [378558644, 906530518, 3137347809, 2440181801, 2466416267])
        (sha1.bytes [4017030061, 1931265793, 3530244665, 1914609317, 1952201973]) :=
  pbkdf2Iterate_chunk _ password_length _ _ _ _ _ _ _ _ _ _ password_inner password_outer
    1350 45 1305 (by decide) _ _ _ _ _ _ _ _ _ _
    (by decide) (by decide) (by decide) (by decide) (by decide) _ _ _ _ _ _ _ _ _ _
    (by set_option maxRecDepth 10000000 in decide!)

theorem pbkdf2Iterate_run_2_62 :
    pbkdf2Iterate hmacSha1 (stringBytes "password") 1305
        (sha1.bytes [378558644, 906530518, 3137347809, 2440181801, 2466416267])
        (sha1.bytes [4017030061, 1931265793, 3530244665, 1914609317, 1952201973]) =
      pbkdf2Iterate hmacSha1 (stringBytes "password") 1260
        (sha1.bytes [2105917653, 28299757, 2675097216, 722408780, 1543610785])
        (sha1.bytes [1833408865, 1654517068, 460228601, 1458589529, 777506127]) :=
  pbkdf2Iterate_chunk _ password_length _ _ _ _ _ _ _ _ _ _ password_inner password_outer
    1305 45 1260 (by decide) _ _ _ _ _ _ _ _ _ _
    (by decide) (by decide) (by decide) (by decide) (by decide) _ _ _ _ _ _ _ _ _ _
    (by set_option maxRecDepth 10000000 in decide!)

theorem pbkdf2Iterate_run_2_63 :
    pbkdf2Iterate hmacSha1 (stringBytes "password") 1260
        (sha1.bytes [2105917653, 28299757, 2675097216, 722408780, 1543610785])
        (sha1.bytes [1833408865, 1654517068, 460228601, 1458589529, 777506127]) =
      pbkdf2Iterate hmacSha1 (stringBytes "password") 1215
        (sha1.bytes [1305980148, 3293409856, 4003724829, 215388165, 404756058])
        (sha1.bytes [2169974504, 1162327052, 3691670568, 2990864719, 446741826]) :=
  pbkdf2Iterate_chunk _ password_length _ _ _ _ _ _ _ _ _ _ password_inner password_outer
    1260 45 1215 (by decide) _ _ _ _ _ _ _ _ _ _
    (by decide) (by decide) (by decide) (by decide) (by decide) _ _ _ _ _ _ _ _ _ _
    (by set_option maxRecDepth 10000000 in decide!)

theorem pbkdf2Iterate_run_2_64 :
    pbkdf2Iterate hmacSha1 (stringBytes "password") 1215
        (sha1.bytes [1305980148, 3293409856, 4003724829, 215388165, 404756058])
        (sha1.bytes [2169974504, 1162327052, 3691670568, 2990864719, 446741826]) =
      pbkdf2Iterate hmacSha1 (stringBytes "password") 1170
        (sha1.bytes [4051781701, 3750627535, 507528459, 4191720598, 1549624402])
        (sha1.bytes [1325962150, 338371599, 3388376462, 2506459778, 3753197505]) :=
  pbkdf2Iterate_chunk _ password_length _ _ _ _ _ _ _ _ _ _ password_inner password_outer
    1215 45 1170 (by decide) _ _ _ _ _ _ _ _ _ _
    (by decide) (by decide) (by decide) (by decide) (by decide) _ _ _ _ _ _ _ _ _ _
    (by set_option maxRecDepth 10000000 in decide!)

theorem pbkdf2Iterate_run_2_65 :
    pbkdf2Iterate hmacSha1 (stringBytes "password") 1170
        (sha1.bytes [4051781701, 3750627535, 507528459, 4191720598, 1549624402])
        (sha1.bytes [1325962150, 338371599, 3388376462, 2506459778, 3753197505]) =
      pbkdf2Iterate hmacSha1 (stringBytes "password") 1125
        (sha1.bytes [4152591883, 3368061872, 1423505961, 2576851393, 3381577974])
        (sha1.bytes [1111571188, 1024754638, 2987113883, 3370538553, 964495942]) :=
  pbkdf2Iterate_chunk _ password_length _ _ _ _ _ _ _ _ _ _ password_inner password_outer
    1170 45 1125 (by decide) _ _ _ _ _ _ _ _ _ _
    (by decide) (by decide) (by decide) (by decide) (by decide) _ _ _ _ _ _ _ _ _ _
    (by set_option maxRecDepth 10000000 in decide!)

theorem pbkdf2Iterate_run_2_66 :
    pbkdf2Iterate hmacSha1 (stringBytes "password") 1125
        (sha1.bytes [4152591883, 3368061872, 1423505961, 2576851393, 3381577974])
        (sha1.bytes [1111571188, 1024754638, 2987113883, 3370538553, 964495942]) =
      pbkdf2Iterate hmacSha1 (stringBytes "password") 1080
        (sha1.bytes [2980658437, 3732266512, 797038270, 2699114959, 2081595620])
        (sha1.bytes [3724544855, 2775974958, 4127449377, 976491991, 2985444094]) :=
  pbkdf2Iterate_chunk _ password_length _ _ _ _ _ _ _ _ _ _ password_inner password_outer
    1125 45 1080 (by decide) _ _ _ _ _ _ _ _ _ _
    (by decide) (by decide) (by decide) (by decide) (by decide) _ _ _ _ _ _ _ _ _ _
    (by set_option maxRecDepth 10000000 in decide!)

theorem pbkdf2Iterate_run_2_67 :
    pbkdf2Iterate hmacSha1 (stringBytes "password") 1080
        (sha1.bytes [2980658437, 3732266512, 797038270, 2699114959, 2081595620])
        (sha1.bytes [3724544855, 2775974958, 4127449377, 976491991, 2985444094]) =
      pbkdf2Iterate hmacSha1 (stringBytes "password") 1035
        (sha1.bytes [2509562710, 944476311, 3627262179, 3339251436, 3670869548])
        (sha1.bytes [3920538945, 353520108, 4103745911, 361380442, 4053933042]) :=
  pbkdf2Iterate_chunk _ password_length _ _ _ _ _ _ _ _ _ _ password_inner password_outer
    1080 45 1035 (by decide) _ _ _ _ _ _ _ _ _ _
    (by decide) (by decide) (by decide) (by decide) (by decide) _ _ _ _ _ _ _ _ _ _
    (by set_option maxRecDepth 10000000 in decide!)

theorem pbkdf2Iterate_run_2_68 :
    pbkdf2Iterate hmacSha1 (stringBytes "password") 1035
        (sha1.bytes [2509562710, 944476311, 3627262179, 3339251436, 3670869548])
        (sha1.bytes [3920538945, 353520108, 4103745911, 361380442, 4053933042]) =
      pbkdf2Iterate hmacSha1 (stringBytes "password") 990
        (sha1.bytes [2815784304, 3484595020, 3814273921, 4142338936, 2038703798])
        (sha1.bytes [596819044, 3240332495, 1005994375, 925677830, 4044751796]) :=
  pbkdf2Iterate_chunk _ password_length _ _ _ _ _ _ _ _ _ _ password_inner password_outer
    1035 45 990 (by decide) _ _ _ _ _ _ _ _ _ _
    (by decide) (by decide) (by decide) (by decide) (by decide) _ _ _ _ _ _ _ _ _ _
    (by set_option maxRecDepth 10000000 in decide!)

theorem pbkdf2Iterate_run_2_69 :
    pbkdf2Iterate hmacSha1 (stringBytes "password") 990
        (sha1.bytes [2815784304, 3484595020, 3814273921, 4142338936, 2038703798])
        (sha1.bytes [596819044, 3240332495, 1005994375, 925677830, 4044751796]) =
      pbkdf2Iterate hmacSha1 (stringBytes "password") 945
        (sha1.bytes [3784217625, 1956847874, 4216841583, 3404918789, 3934131909])
        (sha1.bytes [3548286111, 1845543303, 2234927748, 2245544079, 205805376]) :=
  pbkdf2Iterate_chunk _ password_length _ _ _ _ _ _ _ _ _ _ password_inner password_outer
    990 45 945 (by decide) _ _ _ _ _ _ _ _ _ _
    (by decide) (by decide) (by decide) (by decide) (by decide) _ _ _ _ _ _ _ _ _ _
    (by set_option maxRecDepth 10000000 in decide!)

theorem pbkdf2Iterate_run_2_70 :
    pbkdf2Iterate hmacSha1 (stringBytes "password") 945
        (sha1.bytes [3784217625, 1956847874, 4216841583, 3404918789, 3934131909])
        (sha1.bytes [3548286111, 1845543303, 2234927748, 2245544079, 205805376]) =
      pbkdf2Iterate hmacSha1 (stringBytes "password") 900
        (sha1.bytes [3720690797, 3685989162, 857386909, 89593675, 1025366699])
        (sha1.bytes [2650119463, 1954697213, 625899766, 4228043519, 2159513143]) :=
  pbkdf2Iterate_chunk _ password_length _ _ _ _ _ _ _ _ _ _ password_inner password_outer
    945 45 900 (by decide) _ _ _ _ _ _ _ _ _ _
    (by decide) (by decide) (by decide) (by decide) (by decide) _ _ _ _ _ _ _ _ _ _
    (by set_option maxRecDepth 10000000 in decide!)

theorem pbkdf2Iterate_run_2_71 :
    pbkdf2Iterate hmacSha1 (stringBytes "password") 900
        (sha1.bytes [3720690797, 3685989162, 857386909, 89593675, 1025366699])
        (sha1.bytes [2650119463, 1954697213, 625899766, 4228043519, 2159513143]) =
      pbkdf2Iterate hmacSha1 (stringBytes "password") 855
        (sha1.bytes [740840347, 129889786, 1432047951, 2824821683, 2685265581])
        (sha1.bytes [1153661841, 2598439608, 3000585318, 2569684587, 1995824705]) :=
  pbkdf2Iterate_chunk _ password_length _ _ _ _ _ _ _ _ _ _ password_inner password_outer
    900 45 855 (by decide) _ _ _ _ _ _ _ _ _ _
    (by decide) (by decide) (by decide) (by decide) (by decide) _ _ _ _ _ _ _ _ _ _
    (by set_option maxRecDepth 10000000 in decide!)

theorem pbkdf2Iterate_run_2_72 :
    pbkdf2Iterate hmacSha1 (stringBytes "password") 855
        (sha1.bytes [740840347, 129889786, 1432047951, 2824821683, 2685265581])
        (sha1.bytes [1153661841, 2598439608, 3000585318, 2569684587, 1995824705]) =
      pbkdf2Iterate hmacSha1 (stringBytes "password") 810
        (sha1.bytes [2493970525, 3836238611, 1863557743, 152100970, 3397996046])
        (sha1.bytes [35412055, 1448369607, 3202253015, 2768689606, 1637836453]) :=
  pbkdf2Iterate_chunk _ password_length _ _ _ _ _ _ _ _ _ _ password_inner password_outer
    855 45 810 (by decide) _ _ _ _ _ _ _ _ _ _
    (by decide) (by decide) (by decide) (by decide) (by decide) _ _ _ _ _ _ _ _ _ _
    (by set_option maxRecDepth 10000000 in decide!)

theorem pbkdf2Iterate_run_2_73 :
    pbkdf2Iterate hmacSha1 (stringBytes "password") 810
        (sha1.bytes [2493970525, 3836238611, 1863557743, 152100970, 3397996046])
        (sha1.bytes [35412055, 1448369607, 3202253015, 2768689606, 1637836453]) =
      pbkdf2Iterate hmacSha1 (stringBytes "password") 765
        (sha1.bytes [3520668044, 1404067130, 2304269176, 4115924281, 2434885191])
        (sha1.bytes [2699317889, 3123134690, 116039508, 3246561804, 4104010544]) :=
  pbkdf2Iterate_chunk _ password_length _ _ _ _ _ _ _ _ _ _ password_inner password_outer
    810 45 765 (by decide) _ _ _ _ _ _ _ _ _ _
    (by decide) (by decide) (by decide) (by decide) (by decide) _ _ _ _ _ _ _ _ _ _
    (by set_option maxRecDepth 10000000 in decide!)

theorem pbkdf2Iterate_run_2_74 :
    pbkdf2Iterate hmacSha1 (stringBytes "password") 765
        (sha1.bytes [3520668044, 1404067130, 2304269176, 4115924281, 2434885191])
        (sha1.bytes [2699317889, 3123134690, 116039508, 3246561804, 4104010544]) =
      pbkdf2Iterate hmacSha1 (stringBytes "password") 720
        (sha1.bytes [473984082, 3302459418, 298990099, 4155700864, 518935865])
        (sha1.bytes [1898278056, 3208981733, 4182914162, 3131074581, 790186958]) :=
  pbkdf2Iterate_chunk _ password_length _ _ _ _ _ _ _ _ _ _ password_inner password_outer
    765 45 720 (by decide) _ _ _ _ _ _ _ _ _ _
    (by decide) (by decide) (by decide) (by decide) (by decide) _ _ _ _ _ _ _ _ _ _
    (by set_option maxRecDepth 10000000 in decide!)

theorem pbkdf2Iterate_run_2_75 :
    pbkdf2Iterate hmacSha1 (stringBytes "password") 720
        (sha1.bytes [473984082, 3302459418, 298990099, 4155700864, 518935865])
        (sha1.bytes [1898278056, 3208981733, 4182914162, 3131074581, 790186958]) =
      pbkdf2Iterate hmacSha1 (stringBytes "password") 675
        (sha1.bytes [451709960, 693709040, 1738474609, 874542000, 639165829])
        (sha1.bytes [657143112, 307659770, 3798131131, 2021106265, 2055425549]) :=
  pbkdf2Iterate_chunk _ password_length _ _ _ _ _ _ _ _ _ _ password_inner password_outer
    720 45 675 (by decide) _ _ _ _ _ _ _ _ _ _
    (by decide) (by decide) (by decide) (by decide) (by decide) _ _ _ _ _ _ _ _ _ _
    (by set_option maxRecDepth 10000000 in decide!)

theorem pbkdf2Iterate_run_2_76 :
    pbkdf2Iterate hmacSha1 (stringBytes "password") 675
        (sha1.bytes [451709960, 693709040, 1738474609, 874542000, 639165829])
        (sha1.bytes [657143112, 307659770, 3798131131, 2021106265, 2055425549]) =
      pbkdf2Iterate hmacSha1 (stringBytes "password") 630
        (sha1.bytes [3676529100, 268341606, 4288519028, 2108398898, 1301334060])
        (sha1.bytes [2722161970, 3298241580, 2298036097, 1183766522, 2362642474]) :=
  pbkdf2Iterate_chunk _ password_length _ _ _ _ _ _ _ _ _ _ password_inner password_outer
    675 45 630 (by decide) _ _ _ _ _ _ _ _ _ _
    (by decide) (by decide) (by decide) (by decide) (by decide) _ _ _ _ _ _ _ _ _ _
    (by set_option maxRecDepth 10000000 in decide!)

theorem pbkdf2Iterate_run_2_77 :
    pbkdf2Iterate hmacSha1 (stringBytes "password") 630
        (sha1.bytes [3676529100, 268341606, 4288519028, 2108398898, 1301334060])
        (sha1.bytes [2722161970, 3298241580, 2298036097, 1183766522, 2362642474]) =
      pbkdf2Iterate hmacSha1 (stringBytes "password") 585
        (sha1.bytes [834780016, 726771800, 635982855, 3365893867, 1490708724])
        (sha1.bytes [2557789061, 596352027, 815336414, 987193131, 1379476484]) :=
  pbkdf2Iterate_chunk _ password_length _ _ _ _ _ _ _ _ _ _ password_inner password_outer
    630 45 585 (by decide) _ _ _ _ _ _ _ _ _ _
    (by decide) (by decide) (by decide) (by decide) (by decide) _ _ _ _ _ _ _ _ _ _
    (by set_option maxRecDepth 10000000 in decide!)

theorem pbkdf2Iterate_run_2_78 :
    pbkdf2Iterate hmacSha1 (stringBytes "password") 585
        (sha1.bytes [834780016, 726771800, 635982855, 3365893867, 1490708724])
        (sha1.bytes [2557789061, 596352027, 815336414, 987193131, 1379476484]) =
      pbkdf2Iterate hmacSha1 (stringBytes "password") 540
        (sha1.bytes [2048895932, 2469316597, 1285612067, 703221869, 1192377741])
        (sha1.bytes [3922514857, 1668766164, 2197451991, 792488080, 3811559417]) :=
  pbkdf2Iterate_chunk _ password_length _ _ _ _ _ _ _ _ _ _ password_inner password_outer
    585 45 540 (by decide) _ _ _ _ _ _ _ _ _ _
    (by decide) (by decide) (by decide) (by decide) (by decide) _ _ _ _ _ _ _ _ _ _
    (by set_option maxRecDepth 10000000 in decide!)

theorem pbkdf2Iterate_run_2_79 :
    pbkdf2Iterate hmacSha1 (stringBytes "password") 540
        (sha1.bytes [2048895932, 2469316597, 1285612067, 703221869, 1192377741])
        (sha1.bytes [3922514857, 1668766164, 2197451991, 792488080, 3811559417]) =
      pbkdf2Iterate hmacSha1 (stringBytes "password") 495
        (sha1.bytes [1781041654, 1828461238, 2249889183, 2751085183, 1016837566])
        (sha1.bytes [2200980842, 3016338314, 3117391152, 4144584355, 964857730]) :=
  pbkdf2Iterate_chunk _ password_length _ _ _ _ _ _ _ _ _ _ password_inner password_outer
    540 45 495 (by decide) _ _ _ _ _ _ _ _ _ _
    (by decide) (by decide) (by decide) (by decide) (by decide) _ _ _ _ _ _ _ _ _ _
    (by set_option maxRecDepth 10000000 in decide!)

theorem pbkdf2Iterate_run_2_80 :
    pbkdf2Iterate hmacSha1 (stringBytes "password") 495
        (sha1.bytes [1781041654, 1828461238, 2249889183, 2751085183, 1016837566])
        (sha1.bytes [2200980842, 3016338314, 3117391152, 4144584355, 964857730]) =
      pbkdf2Iterate hmacSha1 (stringBytes "password") 450
        (sha1.bytes [2381685868, 3517109990, 317996880, 2837821048, 3187554905])
        (sha1.bytes [3133349170, 4154022708, 2460854367, 2931547296, 2456809451]) :=
  pbkdf2Iterate_chunk _ password_length _ _ _ _ _ _ _ _ _ _ password_inner password_outer
    495 45 450 (by decide) _ _ _ _ _ _ _ _ _ _
    (by decide) (by decide) (by decide) (by decide) (by decide) _ _ _ _ _ _ _ _ _ _
    (by set_option maxRecDepth 10000000 in decide!)

theorem pbkdf2Iterate_run_2_81 :
    pbkdf2Iterate hmacSha1 (stringBytes "password") 450
        (sha1.bytes [2381685868, 3517109990, 317996880, 2837821048, 3187554905])
        (sha1.bytes [3133349170, 4154022708, 2460854367, 2931547296, 2456809451]) =
      pbkdf2Iterate hmacSha1 (stringBytes "password") 405
        (sha1.bytes [1421695566, 1178206406, 3880612049, 1202627341, 262756301])
        (sha1.bytes [3105947122, 4048126120, 3393280788, 2715997890, 3803007952]) :=
  pbkdf2Iterate_chunk _ password_length _ _ _ _ _ _ _ _ _ _ password_inner password_outer
    450 45 405 (by decide) _ _ _ _ _ _ _ _ _ _
    (by decide) (by decide) (by decide) (by decide) (by decide) _ _ _ _ _ _ _ _ _ _
    (by set_option maxRecDepth 10000000 in decide!)

theorem pbkdf2Iterate_run_2_82 :
    pbkdf2Iterate hmacSha1 (stringBytes "password") 405
        (sha1.bytes [1421695566, 1178206406, 3880612049, 1202627341, 262756301])
        (sha1.bytes [3105947122, 4048126120, 3393280788, 2715997890, 3803007952]) =
      pbkdf2Iterate hmacSha1 (stringBytes "password") 360
        (sha1.bytes [3607624688, 3577237364, 3823904748, 869701271, 1737065942])
        (sha1.bytes [2969411945, 3050433673, 1062965419, 4197869505, 2359457547]) :=
  pbkdf2Iterate_chunk _ password_length _ _ _ _ _ _ _ _ _ _ password_inner password_outer
    405 45 360 (by decide) _ _ _ _ _ _ _ _ _ _
    (by decide) (by decide) (by decide) (by decide) (by decide) _ _ _ _ _ _ _ _ _ _
    (by set_option maxRecDepth 10000000 in decide!)

theorem pbkdf2Iterate_run_2_83 :
    pbkdf2Iterate hmacSha1 (stringBytes "password") 360
        (sha1.bytes [3607624688, 3577237364, 3823904748, 869701271, 1737065942])
        (sha1.bytes [2969411945, 3050433673, 1062965419, 4197869505, 2359457547]) =
      pbkdf2Iterate hmacSha1 (stringBytes "password") 315
        (sha1.bytes [3838094238, 3762487709, 2290129285, 2743803823, 3518542353])
        (sha1.bytes [2690859181, 3987893510, 2349531079, 2593532935, 3142353559]) :=
  pbkdf2Iterate_chunk _ password_length _ _ _ _ _ _ _ _ _ _ password_inner password_outer
    360 45 315 (by decide) _ _ _ _ _ _ _ _ _ _
    (by decide) (by decide) (by decide) (by decide) (by decide) _ _ _ _ _ _ _ _ _ _
    (by set_option maxRecDepth 10000000 in decide!)

theorem pbkdf2Iterate_run_2_84 :
    pbkdf2Iterate hmacSha1 (stringBytes "password") 315
        (sha1.bytes [3838094238, 3762487709, 2290129285, 2743803823, 3518542353])
        (sha1.bytes [2690859181, 3987893510, 2349531079, 2593532935, 3142353559]) =
      pbkdf2Iterate hmacSha1 (stringBytes "password") 270
        (sha1.bytes [2366250385, 2211753539, 2019369784, 533452080, 1906144319])
        (sha1.bytes [2807078384, 1927449531, 2684082287, 1728466041, 218149507]) :=
  pbkdf2Iterate_chunk _ password_length _ _ _ _ _ _ _ _ _ _ password_inner password_outer
    315 45 270 (by decide) _ _ _ _ _ _ _ _ _ _
    (by decide) (by decide) (by decide) (by decide) (by decide) _ _ _ _ _ _ _ _ _ _
    (by set_option maxRecDepth 10000000 in decide!)

theorem pbkdf2Iterate_run_2_85 :
    pbkdf2Iterate hmacSha1 (stringBytes "password") 270
        (sha1.bytes [2366250385, 2211753539, 2019369784, 533452080, 1906144319])
        (sha1.bytes [2807078384, 1927449531, 2684082287, 1728466041, 218149507]) =
      pbkdf2Iterate hmacSha1 (stringBytes "password") 225
        (sha1.bytes [3000800592, 2879955413, 4143150197, 766758491, 4259912798])
        (sha1.bytes [1945733290, 4053637228, 2252035260, 720102109, 256053831]) :=
  pbkdf2Iterate_chunk _ password_length _ _ _ _ _ _ _ _ _ _ password_inner password_outer
    270 45 225 (by decide) _ _ _ _ _ _ _ _ _ _
    (by decide) (by decide) (by decide) (by decide) (by decide) _ _ _ _ _ _ _ _ _ _
    (by set_option maxRecDepth 10000000 in decide!)

theorem pbkdf2Iterate_run_2_86 :
    pbkdf2Iterate hmacSha1 (stringBytes "password") 225
        (sha1.bytes [3000800592, 2879955413, 4143150197, 766758491, 4259912798])
        (sha1.bytes [1945733290, 4053637228, 2252035260, 720102109, 256053831]) =
      pbkdf2Iterate hmacSha1 (stringBytes "password") 180
        (sha1.bytes [1733982143, 3974526175, 4000817756, 1309326706, 2364996412])
        (sha1.bytes [398639153, 1950262258, 1068002307, 1091345032, 63681018]) :=
  pbkdf2Iterate_chunk _ password_length _ _ _ _ _ _ _ _ _ _ password_inner password_outer
    225 45 180 (by decide) _ _ _ _ _ _ _ _ _ _
    (by decide) (by decide) (by decide) (by decide) (by decide) _ _ _ _ _ _ _ _ _ _
    (by set_option maxRecDepth 10000000 in decide!)

theorem pbkdf2Iterate_run_2_87 :
    pbkdf2Iterate hmacSha1 (stringBytes "password") 180
        (sha1.bytes [1733982143, 3974526175, 4000817756, 1309326706, 2364996412])
        (sha1.bytes [398639153, 1950262258, 1068002307, 1091345032, 63681018]) =
      pbkdf2Iterate hmacSha1 (stringBytes "password") 135
        (sha1.bytes [239826063, 1706475732, 2038299230, 2127745149, 397216310])
        (sha1.bytes [1731576890, 3127318880, 2038216728, 1714837692, 2887235418]) :=
  pbkdf2Iterate_chunk _ password_length _ _ _ _ _ _ _ _ _ _ password_inner password_outer
    180 45 135 (by decide) _ _ _ _ _ _ _ _ _ _
    (by decide) (by decide) (by decide) (by decide) (by decide) _ _ _ _ _ _ _ _ _ _
    (by set_option maxRecDepth 10000000 in decide!)

theorem pbkdf2Iterate_run_2_88 :
    pbkdf2Iterate hmacSha1 (stringBytes "password") 135
        (sha1.bytes [239826063, 1706475732, 2038299230, 2127745149, 397216310])
        (sha1.bytes [1731576890, 3127318880, 2038216728, 1714837692, 2887235418]) =
      pbkdf2Iterate hmacSha1 (stringBytes "password") 90
        (sha1.bytes [1196967950, 1904871442, 4049829039, 3864343812, 3375811350])
        (sha1.bytes [2238070472, 928261097, 2631345785, 3772632628, 543079288]) :=
  pbkdf2Iterate_chunk _ password_length _ _ _ _ _ _ _ _ _ _ password_inner password_outer
    135 45 90 (by decide) _ _ _ _ _ _ _ _ _ _
    (by decide) (by decide) (by decide) (by decide) (by decide) _ _ _ _ _ _ _ _ _ _
    (by set_option maxRecDepth 10000000 in decide!)

theorem pbkdf2Iterate_run_2_89 :
    pbkdf2Iterate hmacSha1 (stringBytes "password") 90
        (sha1.bytes [1196967950, 1904871442, 4049829039, 3864343812, 3375811350])
        (sha1.bytes [2238070472, 928261097, 2631345785, 3772632628, 543079288]) =
      pbkdf2Iterate hmacSha1 (stringBytes "password") 45
        (sha1.bytes [1524989691, 806414146, 1884578798, 1343408181, 3203075737])
        (sha1.bytes [3568394303, 1235435783, 3629196797, 3033960954, 3117930412]) :=
  pbkdf2Iterate_chunk _ password_length _ _ _ _ _ _ _ _ _ _ password_inner password_outer
    90 45 45 (by decide) _ _ _ _ _ _ _ _ _ _
    (by decide) (by decide) (by decide) (by decide) (by decide) _ _ _ _ _ _ _ _ _ _
    (by set_option maxRecDepth 10000000 in decide!)

theorem pbkdf2Iterate_run_2_90 :
    pbkdf2Iterate hmacSha1 (stringBytes "password") 45
        (sha1.bytes [1524989691, 806414146, 1884578798, 1343408181, 3203075737])
        (sha1.bytes [3568394303, 1235435783, 3629196797, 3033960954, 3117930412]) =
      pbkdf2Iterate hmacSha1 (stringBytes "password") 0
        (sha1.bytes [3800340026, 550554631, 3819893636, 714954140, 1671115134])
        (sha1.bytes [324694242, 988640814, 2534449454, 1216934295, 2741502997]) :=
  pbkdf2Iterate_chunk _ password_length _ _ _ _ _ _ _ _ _ _ password_inner password_outer
    45 45 0 (by decide) _ _ _ _ _ _ _ _ _ _
    (by decide) (by decide) (by decide) (by decide) (by decide) _ _ _ _ _ _ _ _ _ _
    (by set_option maxRecDepth 10000000 in decide!)

/-- Block 2 of the derivation: `T_2` after 4096 iterations. -/
theorem pbkdf2Block_IEEE_2 :
    pbkdf2Block hmacSha1 (stringBytes "password") (stringBytes "IEEE") 4096 2 =
      sha1.bytes [324694242, 988640814, 2534449454, 1216934295, 2741502997] :=
  pbkdf2Block_succ hmacSha1 _ _ 4095 2 |>.trans
    (congrArg (fun u => pbkdf2Iterate hmacSha1 (stringBytes "password") 4095 u u)
      hmacSha1_first_2) |>.trans
    pbkdf2Iterate_run_2_0 |>.trans
    pbkdf2Iterate_run_2_1 |>.trans
    pbkdf2Iterate_run_2_2 |>.trans
    pbkdf2Iterate_run_2_3 |>.trans
    pbkdf2Iterate_run_2_4 |>.trans
    pbkdf2Iterate_run_2_5 |>.trans
    pbkdf2Iterate_run_2_6 |>.trans
    pbkdf2Iterate_run_2_7 |>.trans
    pbkdf2Iterate_run_2_8 |>.trans
    pbkdf2Iterate_run_2_9 |>.trans
    pbkdf2Iterate_run_2_10 |>.trans
    pbkdf2Iterate_run_2_11 |>.trans
    pbkdf2Iterate_run_2_12 |>.trans
    pbkdf2Iterate_run_2_13 |>.trans
    pbkdf2Iterate_run_2_14 |>.trans
    pbkdf2Iterate_run_2_15 |>.trans
    pbkdf2Iterate_run_2_16 |>.trans
    pbkdf2Iterate_run_2_17 |>.trans
    pbkdf2Iterate_run_2_18 |>.trans
    pbkdf2Iterate_run_2_19 |>.trans
    pbkdf2Iterate_run_2_20 |>.trans
    pbkdf2Iterate_run_2_21 |>.trans
    pbkdf2Iterate_run_2_22 |>.trans
    pbkdf2Iterate_run_2_23 |>.trans
    pbkdf2Iterate_run_2_24 |>.trans
    pbkdf2Iterate_run_2_25 |>.trans
    pbkdf2Iterate_run_2_26 |>.trans
    pbkdf2Iterate_run_2_27 |>.trans
    pbkdf2Iterate_run_2_28 |>.trans
    pbkdf2Iterate_run_2_29 |>.trans
    pbkdf2Iterate_run_2_30 |>.trans
    pbkdf2Iterate_run_2_31 |>.trans
    pbkdf2Iterate_run_2_32 |>.trans
    pbkdf2Iterate_run_2_33 |>.trans
    pbkdf2Iterate_run_2_34 |>.trans
    pbkdf2Iterate_run_2_35 |>.trans
    pbkdf2Iterate_run_2_36 |>.trans
    pbkdf2Iterate_run_2_37 |>.trans
    pbkdf2Iterate_run_2_38 |>.trans
    pbkdf2Iterate_run_2_39 |>.trans
    pbkdf2Iterate_run_2_40 |>.trans
    pbkdf2Iterate_run_2_41 |>.trans
    pbkdf2Iterate_run_2_42 |>.trans
    pbkdf2Iterate_run_2_43 |>.trans
    pbkdf2Iterate_run_2_44 |>.trans
    pbkdf2Iterate_run_2_45 |>.trans
    pbkdf2Iterate_run_2_46 |>.trans
    pbkdf2Iterate_run_2_47 |>.trans
    pbkdf2Iterate_run_2_48 |>.trans
    pbkdf2Iterate_run_2_49 |>.trans
    pbkdf2Iterate_run_2_50 |>.trans
    pbkdf2Iterate_run_2_51 |>.trans
    pbkdf2Iterate_run_2_52 |>.trans
    pbkdf2Iterate_run_2_53 |>.trans
    pbkdf2Iterate_run_2_54 |>.trans
    pbkdf2Iterate_run_2_55 |>.trans
    pbkdf2Iterate_run_2_56 |>.trans
    pbkdf2Iterate_run_2_57 |>.trans
    pbkdf2Iterate_run_2_58 |>.trans
    pbkdf2Iterate_run_2_59 |>.trans
    pbkdf2Iterate_run_2_60 |>.trans
    pbkdf2Iterate_run_2_61 |>.trans
    pbkdf2Iterate_run_2_62 |>.trans
    pbkdf2Iterate_run_2_63 |>.trans
    pbkdf2Iterate_run_2_64 |>.trans
    pbkdf2Iterate_run_2_65 |>.trans
    pbkdf2Iterate_run_2_66 |>.trans
    pbkdf2Iterate_run_2_67 |>.trans
    pbkdf2Iterate_run_2_68 |>.trans
    pbkdf2Iterate_run_2_69 |>.trans
    pbkdf2Iterate_run_2_70 |>.trans
    pbkdf2Iterate_run_2_71 |>.trans
    pbkdf2Iterate_run_2_72 |>.trans
    pbkdf2Iterate_run_2_73 |>.trans
    pbkdf2Iterate_run_2_74 |>.trans
    pbkdf2Iterate_run_2_75 |>.trans
    pbkdf2Iterate_run_2_76 |>.trans
    pbkdf2Iterate_run_2_77 |>.trans
    pbkdf2Iterate_run_2_78 |>.trans
    pbkdf2Iterate_run_2_79 |>.trans
    pbkdf2Iterate_run_2_80 |>.trans
    pbkdf2Iterate_run_2_81 |>.trans
    pbkdf2Iterate_run_2_82 |>.trans
    pbkdf2Iterate_run_2_83 |>.trans
    pbkdf2Iterate_run_2_84 |>.trans
    pbkdf2Iterate_run_2_85 |>.trans
    pbkdf2Iterate_run_2_86 |>.trans
    pbkdf2Iterate_run_2_87 |>.trans
    pbkdf2Iterate_run_2_88 |>.trans
    pbkdf2Iterate_run_2_89 |>.trans
    pbkdf2Iterate_run_2_90 |>.trans
    (pbkdf2Iterate_zero _ _ _ _)
/-! ## The known vector -/

theorem pbkdf2Key_32 (hmac : List Nat → List Nat → List Nat)
    (hlen : ∀ k d, (hmac k d).length = 20) (password salt : List Nat) (iter : Nat) :
    pbkdf2Key hmac password salt iter 32 =
      (pbkdf2Block hmac password salt iter 1 ++ pbkdf2Block hmac password salt iter 2).take
        32 := by
  rw [pbkdf2Key_eq_take hmac hlen]
  have h2 : (32 + 20 - 1) / 20 = 2 := by decide
  rw [h2]
  simp only [List.range_succ, List.range_zero, List.nil_append, List.cons_append,
    List.flatMap_cons, List.flatMap_nil, List.append_nil, Nat.zero_add]

/-- The PMK of the network `IEEE` and the passphrase `password` under HMAC-SHA1. -/
theorem generatePMKFromPassphrase_IEEE_password :
    generatePMKFromPassphrase hmacSha1 (stringBytes "IEEE") "password" =
      some [0xf4, 0x2c, 0x6f, 0xc5, 0x2d, 0xf0, 0xeb, 0xef, 0x9e, 0xbb, 0x4b, 0x90, 0xb3, 0x8a,
        0x5f, 0x90, 0x2e, 0x83, 0xfe, 0x1b, 0x13, 0x5a, 0x70, 0xe2, 0x3a, 0xed, 0x76, 0x2e,
        0x97, 0x10, 0xa1, 0x2e] :=
  (generatePMKFromPassphrase_some hmacSha1 hmacSha1_length _ _).trans
    (congrArg some ((pbkdf2Key_32 hmacSha1 hmacSha1_length _ _ _).trans
      ((congrArg₂ (fun a b : List Nat => (a ++ b).take 32) pbkdf2Block_IEEE_1
        pbkdf2Block_IEEE_2).trans (by decide))))

/-- C14 (as amended): with network identifier `IEEE` and passphrase `password`,
`generatePMKFromPassphrase` over HMAC-SHA1 returns the 32-byte PMK whose hexadecimal
encoding is the 64-digit string
`f42c6fc52df0ebef9ebb4b90b38a5f902e83fe1b135a70e23aed762e9710a12e`, the published vector;
the string of the claim is this one without its last digit. -/
theorem generatePMKFromPassphrase_known_vector :
    ∃ pmk : List Nat,
      generatePMKFromPassphrase hmacSha1 (stringBytes "IEEE") "password" = some pmk ∧
      pmk.length = 32 ∧
      hex pmk = "f42c6fc52df0ebef9ebb4b90b38a5f902e83fe1b135a70e23aed762e9710a12e" :=
  ⟨_, generatePMKFromPassphrase_IEEE_password, by decide, by decide⟩

/-- C14 (counterexample): the PMK derived from `IEEE` and `password` does not have the
63-digit hexadecimal encoding that the claim gives. -/
theorem known_vector_lacks_a_digit :
    ¬ ∃ pmk : List Nat,
      generatePMKFromPassphrase hmacSha1 (stringBytes "IEEE") "password" = some pmk ∧
      pmk.length = 32 ∧
      hex pmk = "f42c6fc52df0ebef9ebb4b90b38a5f902e83fe1b135a70e23aed762e9710a12" := by
  rintro ⟨pmk, h, -, hx⟩
  rw [generatePMKFromPassphrase_IEEE_password] at h
  cases h
  revert hx
  decide
end Cr4gg
